import Mathlib

/-! Bed presence engine: a shallow embedding and its verified properties.

The development embeds `bed_presence.cpp` / `bed_presence.h`
(`esphome::bed_presence_engine::BedPresenceEngine`).

Modelling conventions.

* `float` values are exact rationals (`ℚ`); rounding is not modelled.  The
  properties that depend on NaN, on the infinities or on overflow (the distance
  gate, the transition table, the robustness of the median and the floor of the
  spread) are stated over a second embedding of the same source, in the
  namespace `Ieee`, whose `float` values include NaN and the infinities.
* `unsigned long` timestamps and durations are natural numbers; the only
  arithmetic the code performs on them is the unsigned subtraction
  `now - stored` and the unsigned addition `millis() + clamped * 1000UL`, both
  reduced modulo `2 ^ w`, where `w` is the bit width of `unsigned long`.
* `millis()` is an input of every operation that reads the clock; one tick reads
  one clock value.
* The binary sensor is the field `presence_output` (the last value handed to
  `publish_state`); the two text sensors are append-only logs of the values
  handed to `publish_reason` and `publish_change_reason`.  `snprintf`-formatted
  reasons are kept as structured values instead of formatted text.
* `ESP_LOG*` calls have no effect on the engine and are omitted.
-/

namespace BedPresence

/-- State machine states (`enum State` in `bed_presence.h`). -/
inductive State
  | IDLE
  | DEBOUNCING_ON
  | PRESENT
  | DEBOUNCING_OFF
  deriving DecidableEq, Repr

/-- Values handed to `publish_reason`.  Literal strings are kept as text; the two
`snprintf` formats of the state machine and the calibration summary keep their
arguments. -/
inductive Reason
  | text (s : String)
  | on (z : ℚ) (debounce_ms : Nat)
  | off (z : ℚ) (debounce_ms : Nat)
  | calibration_complete (median : ℚ) (sigma : ℚ) (n : Nat)
  deriving DecidableEq

/-- The data members of `BedPresenceEngine` together with the observable sensor
outputs. -/
structure BedPresenceEngine where
  mu_still_ : ℚ
  sigma_still_ : ℚ
  mu_stat_ : ℚ
  sigma_stat_ : ℚ
  k_on_ : ℚ
  k_off_ : ℚ
  d_min_cm_ : ℚ
  d_max_cm_ : ℚ
  current_state_ : State
  debounce_start_time_ : Nat
  last_high_confidence_time_ : Nat
  on_debounce_ms_ : Nat
  off_debounce_ms_ : Nat
  abs_clear_delay_ms_ : Nat
  calibrating_ : Bool
  calibration_end_time_ : Nat
  calibration_samples_ : List ℚ
  presence_output : Bool
  state_reason_log : List Reason
  change_reason_log : List String
  deriving DecidableEq

/-- The constant `MAX_CALIBRATION_SAMPLES`. -/
def MAX_CALIBRATION_SAMPLES : Nat := 4096

/-- A freshly constructed engine: the default member initializers of the header. -/
def BedPresenceEngine.init : BedPresenceEngine where
  mu_still_ := 67 / 10
  sigma_still_ := 35 / 10
  mu_stat_ := 67 / 10
  sigma_stat_ := 35 / 10
  k_on_ := 9
  k_off_ := 4
  d_min_cm_ := 0
  d_max_cm_ := 600
  current_state_ := State.IDLE
  debounce_start_time_ := 0
  last_high_confidence_time_ := 0
  on_debounce_ms_ := 3000
  off_debounce_ms_ := 5000
  abs_clear_delay_ms_ := 30000
  calibrating_ := false
  calibration_end_time_ := 0
  calibration_samples_ := []
  presence_output := false
  state_reason_log := []
  change_reason_log := []

/-- Unsigned subtraction `a - b` of `unsigned long` values of width `w`. -/
def usub (w a b : Nat) : Nat := (a + (2 ^ w - b % 2 ^ w)) % 2 ^ w

/-- Unsigned addition `a + b` of `unsigned long` values of width `w`. -/
def uadd (w a b : Nat) : Nat := (a + b) % 2 ^ w

/-- The call `publish_state(b)` of the binary sensor. -/
def publish_state (e : BedPresenceEngine) (b : Bool) : BedPresenceEngine :=
  { e with presence_output := b }

/-- The method `publish_reason`. -/
def publish_reason (e : BedPresenceEngine) (reason : Reason) : BedPresenceEngine :=
  { e with state_reason_log := e.state_reason_log ++ [reason] }

/-- The method `publish_change_reason`. -/
def publish_change_reason (e : BedPresenceEngine) (reason : String) : BedPresenceEngine :=
  { e with change_reason_log := e.change_reason_log ++ [reason] }

/-- The method `setup`. -/
def setup (e : BedPresenceEngine) : BedPresenceEngine :=
  publish_change_reason
    (publish_reason (publish_state { e with current_state_ := State.IDLE } false)
      (Reason.text "Initial state: IDLE"))
    "idle:init"

/-- The method `calculate_z_score`. -/
def calculate_z_score (energy mu sigma : ℚ) : ℚ :=
  if sigma ≤ 1 / 1000 then 0 else (energy - mu) / sigma

/-- The method `process_energy_reading`, with `now` the value of `millis()`. -/
def process_energy_reading (w : Nat) (e : BedPresenceEngine) (energy : ℚ) (now : Nat) :
    BedPresenceEngine :=
  let z_still := calculate_z_score energy e.mu_still_ e.sigma_still_
  match e.current_state_ with
  | State.IDLE =>
    if z_still ≥ e.k_on_ then
      { e with debounce_start_time_ := now, current_state_ := State.DEBOUNCING_ON }
    else e
  | State.DEBOUNCING_ON =>
    if z_still ≥ e.k_on_ then
      if usub w now e.debounce_start_time_ ≥ e.on_debounce_ms_ then
        publish_change_reason
          (publish_reason
            (publish_state
              { e with current_state_ := State.PRESENT, last_high_confidence_time_ := now } true)
            (Reason.on z_still e.on_debounce_ms_))
          "on:threshold_exceeded"
      else e
    else { e with current_state_ := State.IDLE }
  | State.PRESENT =>
    let e1 := if z_still > e.k_on_ then { e with last_high_confidence_time_ := now } else e
    if z_still < e1.k_off_ then
      if usub w now e1.last_high_confidence_time_ ≥ e1.abs_clear_delay_ms_ then
        { e1 with debounce_start_time_ := now, current_state_ := State.DEBOUNCING_OFF }
      else e1
    else e1
  | State.DEBOUNCING_OFF =>
    if z_still < e.k_off_ then
      if usub w now e.debounce_start_time_ ≥ e.off_debounce_ms_ then
        publish_change_reason
          (publish_reason (publish_state { e with current_state_ := State.IDLE } false)
            (Reason.off z_still e.off_debounce_ms_))
          "off:abs_clear_delay"
      else e
    else if z_still ≥ e.k_on_ then
      { e with current_state_ := State.PRESENT, last_high_confidence_time_ := now }
    else e

/-- The runtime setter `update_k_on`. -/
def update_k_on (e : BedPresenceEngine) (k : ℚ) : BedPresenceEngine := { e with k_on_ := k }

/-- The runtime setter `update_k_off`. -/
def update_k_off (e : BedPresenceEngine) (k : ℚ) : BedPresenceEngine := { e with k_off_ := k }

/-- The runtime setter `update_on_debounce_ms`. -/
def update_on_debounce_ms (e : BedPresenceEngine) (ms : Nat) : BedPresenceEngine :=
  { e with on_debounce_ms_ := ms }

/-- The runtime setter `update_off_debounce_ms`. -/
def update_off_debounce_ms (e : BedPresenceEngine) (ms : Nat) : BedPresenceEngine :=
  { e with off_debounce_ms_ := ms }

/-- The runtime setter `update_abs_clear_delay_ms`. -/
def update_abs_clear_delay_ms (e : BedPresenceEngine) (ms : Nat) : BedPresenceEngine :=
  { e with abs_clear_delay_ms_ := ms }

/-- The runtime setter `update_d_min_cm`. -/
def update_d_min_cm (e : BedPresenceEngine) (value : ℚ) : BedPresenceEngine :=
  { e with d_min_cm_ := value }

/-- The runtime setter `update_d_max_cm`. -/
def update_d_max_cm (e : BedPresenceEngine) (value : ℚ) : BedPresenceEngine :=
  { e with d_max_cm_ := value }

/-- The inline configuration setter `set_k_on`. -/
def set_k_on (e : BedPresenceEngine) (k : ℚ) : BedPresenceEngine := { e with k_on_ := k }

/-- The inline configuration setter `set_k_off`. -/
def set_k_off (e : BedPresenceEngine) (k : ℚ) : BedPresenceEngine := { e with k_off_ := k }

/-- The inline configuration setter `set_on_debounce_ms`. -/
def set_on_debounce_ms (e : BedPresenceEngine) (ms : Nat) : BedPresenceEngine :=
  { e with on_debounce_ms_ := ms }

/-- The inline configuration setter `set_off_debounce_ms`. -/
def set_off_debounce_ms (e : BedPresenceEngine) (ms : Nat) : BedPresenceEngine :=
  { e with off_debounce_ms_ := ms }

/-- The inline configuration setter `set_abs_clear_delay_ms`. -/
def set_abs_clear_delay_ms (e : BedPresenceEngine) (ms : Nat) : BedPresenceEngine :=
  { e with abs_clear_delay_ms_ := ms }

/-- The inline configuration setter `set_d_min_cm`. -/
def set_d_min_cm (e : BedPresenceEngine) (value : ℚ) : BedPresenceEngine :=
  { e with d_min_cm_ := value }

/-- The inline configuration setter `set_d_max_cm`. -/
def set_d_max_cm (e : BedPresenceEngine) (value : ℚ) : BedPresenceEngine :=
  { e with d_max_cm_ := value }

/-- The library routine `std::nth_element(first, first + n, last)` on a copy of the
values.  The standard fixes only its postcondition: the result is a rearrangement
of the input in which position `n` holds the element a full sort would put there,
nothing before it is greater and nothing after it is smaller.  A full sort is one
such rearrangement, and the callers read position `n` only. -/
def nth_element (values : List ℚ) (_n : Nat) : List ℚ :=
  values.insertionSort (fun a b => a ≤ b)

/-- The static function `compute_median`. -/
def compute_median (values : List ℚ) : ℚ :=
  if values.isEmpty then 0
  else
    let mid := values.length / 2
    let values1 := nth_element values mid
    let median := values1.getD mid 0
    if values.length % 2 = 0 then
      let values2 := nth_element values1 (mid - 1)
      (median + values2.getD (mid - 1) 0) / 2
    else median

/-- The method `finalize_calibration`. -/
def finalize_calibration (e : BedPresenceEngine) : BedPresenceEngine :=
  if !e.calibrating_ then e
  else
    let e1 := { e with calibrating_ := false }
    if e1.calibration_samples_.isEmpty then
      publish_change_reason
        (publish_reason e1 (Reason.text "Calibration failed: no samples"))
        "calibration:insufficient_samples"
    else
      let samples := e1.calibration_samples_
      let e2 := { e1 with calibration_samples_ := [] }
      let median := compute_median samples
      let deviations := samples.map (fun x => |x - median|)
      let mad := compute_median deviations
      let sigma := mad * (14826 / 10000)
      let sigma := if sigma < 5 / 100 then 5 / 100 else sigma
      let e3 := { e2 with mu_still_ := median, sigma_still_ := sigma }
      publish_change_reason
        (publish_reason e3 (Reason.calibration_complete median sigma samples.length))
        "calibration:completed"

/-- The method `start_baseline_calibration`, with `now` the value of `millis()`. -/
def start_baseline_calibration (w : Nat) (e : BedPresenceEngine) (duration_s : Nat)
    (now : Nat) : BedPresenceEngine :=
  if duration_s = 0 then e
  else
    let clamped := min duration_s 600
    let e1 := { e with calibrating_ := true, calibration_samples_ := [],
                       calibration_end_time_ := uadd w now (clamped * 1000) }
    publish_change_reason (publish_reason e1 (Reason.text "Calibration started"))
      "calibration:started"

/-- The method `stop_baseline_calibration`. -/
def stop_baseline_calibration (e : BedPresenceEngine) : BedPresenceEngine :=
  if !e.calibrating_ then e else finalize_calibration e

/-- The method `reset_to_defaults`. -/
def reset_to_defaults (e : BedPresenceEngine) : BedPresenceEngine :=
  let e1 := { e with
    mu_still_ := 67 / 10, sigma_still_ := 35 / 10, k_on_ := 9, k_off_ := 4,
    on_debounce_ms_ := 3000, off_debounce_ms_ := 5000, abs_clear_delay_ms_ := 30000,
    d_min_cm_ := 0, d_max_cm_ := 600,
    calibrating_ := false, calibration_samples_ := [],
    current_state_ := State.IDLE }
  publish_change_reason
    (publish_reason (publish_state e1 false) (Reason.text "Reset to defaults"))
    "off:reset_to_defaults"

/-- The method `handle_calibration_sample`, with `now` the value of `millis()`. -/
def handle_calibration_sample (e : BedPresenceEngine) (energy : ℚ) (now : Nat) :
    BedPresenceEngine :=
  if !e.calibrating_ then e
  else if e.calibration_samples_.length ≥ MAX_CALIBRATION_SAMPLES then finalize_calibration e
  else
    let e1 := { e with calibration_samples_ := e.calibration_samples_ ++ [energy] }
    if now ≥ e1.calibration_end_time_ then finalize_calibration e1 else e1

/-- The method `loop`.  `energy` is `none` when the energy sensor is absent or has
no state, `distance` is `none` when the distance sensor is absent or has no state,
and `now` is the value of `millis()`. -/
def loop (w : Nat) (e : BedPresenceEngine) (energy : Option ℚ) (distance : Option ℚ)
    (now : Nat) : BedPresenceEngine :=
  let e0 := if e.calibrating_ && decide (now ≥ e.calibration_end_time_) then
      finalize_calibration e else e
  match energy with
  | none => e0
  | some en =>
    match distance with
    | some d =>
      if d < e0.d_min_cm_ ∨ d > e0.d_max_cm_ then e0
      else process_energy_reading w (handle_calibration_sample e0 en now) en now
    | none => process_energy_reading w (handle_calibration_sample e0 en now) en now

/-- One externally triggered operation on a set-up engine. -/
inductive Command
  | loop (energy : Option ℚ) (distance : Option ℚ) (now : Nat)
  | update_k_on (k : ℚ)
  | update_k_off (k : ℚ)
  | update_on_debounce_ms (ms : Nat)
  | update_off_debounce_ms (ms : Nat)
  | update_abs_clear_delay_ms (ms : Nat)
  | update_d_min_cm (value : ℚ)
  | update_d_max_cm (value : ℚ)
  | set_k_on (k : ℚ)
  | set_k_off (k : ℚ)
  | set_on_debounce_ms (ms : Nat)
  | set_off_debounce_ms (ms : Nat)
  | set_abs_clear_delay_ms (ms : Nat)
  | set_d_min_cm (value : ℚ)
  | set_d_max_cm (value : ℚ)
  | start_baseline_calibration (duration_s : Nat) (now : Nat)
  | stop_baseline_calibration
  | reset_to_defaults

/-- The effect of one command on the engine. -/
def Command.apply (w : Nat) (e : BedPresenceEngine) : Command → BedPresenceEngine
  | Command.loop energy distance now => BedPresence.loop w e energy distance now
  | Command.update_k_on k => BedPresence.update_k_on e k
  | Command.update_k_off k => BedPresence.update_k_off e k
  | Command.update_on_debounce_ms ms => BedPresence.update_on_debounce_ms e ms
  | Command.update_off_debounce_ms ms => BedPresence.update_off_debounce_ms e ms
  | Command.update_abs_clear_delay_ms ms => BedPresence.update_abs_clear_delay_ms e ms
  | Command.update_d_min_cm v => BedPresence.update_d_min_cm e v
  | Command.update_d_max_cm v => BedPresence.update_d_max_cm e v
  | Command.set_k_on k => BedPresence.set_k_on e k
  | Command.set_k_off k => BedPresence.set_k_off e k
  | Command.set_on_debounce_ms ms => BedPresence.set_on_debounce_ms e ms
  | Command.set_off_debounce_ms ms => BedPresence.set_off_debounce_ms e ms
  | Command.set_abs_clear_delay_ms ms => BedPresence.set_abs_clear_delay_ms e ms
  | Command.set_d_min_cm v => BedPresence.set_d_min_cm e v
  | Command.set_d_max_cm v => BedPresence.set_d_max_cm e v
  | Command.start_baseline_calibration d now => BedPresence.start_baseline_calibration w e d now
  | Command.stop_baseline_calibration => BedPresence.stop_baseline_calibration e
  | Command.reset_to_defaults => BedPresence.reset_to_defaults e

/-- The engine after a sequence of commands. -/
def run (w : Nat) (e : BedPresenceEngine) (cmds : List Command) : BedPresenceEngine :=
  cmds.foldl (Command.apply w) e

/-- The published presence agrees with the state: true exactly in `PRESENT` and
`DEBOUNCING_OFF`. -/
def presence_matches_state (e : BedPresenceEngine) : Prop :=
  e.presence_output = true ↔
    (e.current_state_ = State.PRESENT ∨ e.current_state_ = State.DEBOUNCING_OFF)

/-! ## The median and spread in the words of the specification -/

/-- The specification's order statistic, stated without sorting: `v` is a `k`-th
order statistic (counting from 0) of `s` when it occurs in `s`, at most `k` entries
are strictly below it and more than `k` entries are at or below it. -/
def IsOrderStatistic (s : List ℚ) (k : Nat) (v : ℚ) : Prop :=
  v ∈ s ∧ s.countP (fun x => decide (x < v)) ≤ k ∧ k < s.countP (fun x => decide (x ≤ v))

/-- The specification's `k`-th order statistic, found by counting. -/
def spec_order_statistic (s : List ℚ) (k : Nat) : ℚ :=
  (s.find? (fun v => decide (s.countP (fun x => decide (x < v)) ≤ k ∧
    k < s.countP (fun x => decide (x ≤ v))))).getD 0

/-- The specification's median: the middle order statistic for an odd count, the
average of the two central order statistics for an even count. -/
def spec_median (s : List ℚ) : ℚ :=
  if s.length % 2 = 1 then spec_order_statistic s (s.length / 2)
  else (spec_order_statistic s (s.length / 2 - 1) + spec_order_statistic s (s.length / 2)) / 2

/-- The specification's median absolute deviation. -/
def spec_mad (s : List ℚ) : ℚ :=
  spec_median (s.map (fun x => |x - spec_median s|))

/-- The specification's spread: `max(mad * 1.4826, 0.05)`. -/
def spec_spread (s : List ℚ) : ℚ :=
  max (spec_mad s * (14826 / 10000)) (5 / 100)

/-! ## Concrete engines used to exercise the theorems -/

/-- The configuration of the unit tests (`SimplePresenceEngine`): baseline mean 100,
spread 20, `k_on = 4`, `k_off = 2`, the other members at their defaults. -/
def SimplePresenceEngine : BedPresenceEngine :=
  { BedPresenceEngine.init with mu_still_ := 100, sigma_still_ := 20, k_on_ := 4, k_off_ := 2 }

/-- The test engine after the turn-on path of the tests: `PRESENT` since `t = 3000`. -/
def SimplePresenceEngine_present : BedPresenceEngine :=
  run 32 SimplePresenceEngine
    [Command.loop (some 185) none 0, Command.loop (some 185) none 3000]

/-- The test engine in `DEBOUNCING_OFF`, entered at `t = 33000`. -/
def SimplePresenceEngine_debouncing_off : BedPresenceEngine :=
  run 32 SimplePresenceEngine_present [Command.loop (some 135) none 33000]

/-- An engine reached from `setup` with the thresholds set to `k_on = 1 < k_off = 5`
and every tick scoring exactly `z = 1`: it is in `DEBOUNCING_OFF` since `t = 33000`. -/
def misconfigured_debouncing_off : BedPresenceEngine :=
  run 32 (setup BedPresenceEngine.init)
    [Command.update_k_on 1, Command.update_k_off 5,
     Command.loop (some (51 / 5)) none 0,
     Command.loop (some (51 / 5)) none 3000,
     Command.loop (some (51 / 5)) none 33000]

/-! ## Runs of ticks -/

/-- The inputs of one call of `loop`: the energy and distance readings, when the
sensors have a state, and the value of `millis()`. -/
structure Tick where
  energy : Option ℚ
  distance : Option ℚ
  now : Nat

/-- The engine after a sequence of `loop` calls. -/
def run_ticks (w : Nat) (e : BedPresenceEngine) (ticks : List Tick) : BedPresenceEngine :=
  ticks.foldl (fun e t => loop w e t.energy t.distance t.now) e

/-- The engine after a sequence of `process_energy_reading` calls, each with its energy
reading and its clock value. -/
def process_readings (w : Nat) (e : BedPresenceEngine) (readings : List (ℚ × Nat)) :
    BedPresenceEngine :=
  readings.foldl (fun e r => process_energy_reading w e r.1 r.2) e

/-- The first step of `loop`: the deadline check that precedes the sensor checks. -/
def loop_deadline_check (e : BedPresenceEngine) (now : Nat) : BedPresenceEngine :=
  if e.calibrating_ && decide (now ≥ e.calibration_end_time_) then
    finalize_calibration e else e

/-- The specification's distance gate `admit(distance, window)`: a tick without a
distance reading is admitted, one with a reading is admitted when the reading lies in
the window, both bounds included. -/
def spec_admits (distance : Option ℚ) (d_min d_max : ℚ) : Prop :=
  match distance with
  | none => True
  | some d => d_min ≤ d ∧ d ≤ d_max

/-- A calibration of the test engine started at `t = 0` for one second, with four
samples collected before its deadline `t = 1000`. -/
def calibration_overdue : BedPresenceEngine :=
  run 32 (setup SimplePresenceEngine)
    [Command.start_baseline_calibration 1 0,
     Command.loop (some 120) none 100,
     Command.loop (some 110) none 200,
     Command.loop (some 130) none 300,
     Command.loop (some 800) none 400]

/-- An active calibration of the test engine, deadline `t = 600000`, whose buffer
holds 4095 samples. -/
def calibration_almost_full : BedPresenceEngine :=
  { SimplePresenceEngine with
    calibrating_ := true, calibration_end_time_ := 600000,
    calibration_samples_ := List.replicate 4095 50 }

/-- Two engines that no sequence of ticks tells apart by state or presence: no
calibration is active in either, they agree on the baseline, the thresholds, the
timers, the distance window, the state and the presence output, on
`debounce_start_time_` in the two debouncing states and on
`last_high_confidence_time_` in `PRESENT`.  The timestamps may differ in the states
that overwrite them before reading them. -/
def tick_equivalent (a b : BedPresenceEngine) : Prop :=
  a.mu_still_ = b.mu_still_ ∧ a.sigma_still_ = b.sigma_still_ ∧
  a.k_on_ = b.k_on_ ∧ a.k_off_ = b.k_off_ ∧
  a.d_min_cm_ = b.d_min_cm_ ∧ a.d_max_cm_ = b.d_max_cm_ ∧
  a.on_debounce_ms_ = b.on_debounce_ms_ ∧ a.off_debounce_ms_ = b.off_debounce_ms_ ∧
  a.abs_clear_delay_ms_ = b.abs_clear_delay_ms_ ∧
  a.calibrating_ = false ∧ b.calibrating_ = false ∧
  a.current_state_ = b.current_state_ ∧ a.presence_output = b.presence_output ∧
  (a.current_state_ = State.DEBOUNCING_ON ∨ a.current_state_ = State.DEBOUNCING_OFF →
    a.debounce_start_time_ = b.debounce_start_time_) ∧
  (a.current_state_ = State.PRESENT →
    a.last_high_confidence_time_ = b.last_high_confidence_time_)

/-! ## The transition table in the words of the specification -/

/-- The eleven rows of the specification's transition table: two for `IDLE` and three
for each of `DEBOUNCING_ON`, `PRESENT` and `DEBOUNCING_OFF`. -/
inductive Row
  | idle_on
  | idle_else
  | debouncing_on_confirm
  | debouncing_on_wait
  | debouncing_on_abort
  | present_refresh
  | present_clear
  | present_hold
  | debouncing_off_confirm
  | debouncing_off_wait
  | debouncing_off_abort
  deriving DecidableEq

/-- The state column of the table. -/
def Row.state : Row → State
  | Row.idle_on => State.IDLE
  | Row.idle_else => State.IDLE
  | Row.debouncing_on_confirm => State.DEBOUNCING_ON
  | Row.debouncing_on_wait => State.DEBOUNCING_ON
  | Row.debouncing_on_abort => State.DEBOUNCING_ON
  | Row.present_refresh => State.PRESENT
  | Row.present_clear => State.PRESENT
  | Row.present_hold => State.PRESENT
  | Row.debouncing_off_confirm => State.DEBOUNCING_OFF
  | Row.debouncing_off_wait => State.DEBOUNCING_OFF
  | Row.debouncing_off_abort => State.DEBOUNCING_OFF

/-- An engine reached from `setup` with the thresholds set to `k_on = 1 < k_off = 5`
and the absolute clear delay set to `0`, every tick scoring `z = 2`: it is in
`PRESENT` since `t = 3000`. -/
def misconfigured_present : BedPresenceEngine :=
  run 32 (setup BedPresenceEngine.init)
    [Command.update_k_on 1, Command.update_k_off 5, Command.update_abs_clear_delay_ms 0,
     Command.loop (some (137 / 10)) none 0,
     Command.loop (some (137 / 10)) none 3000]

/-- The timing invariant behind the minimum hold, relative to a time `T` that no tick
so far has exceeded: in `PRESENT` the high-confidence timestamp is at most `T`; in
`DEBOUNCING_OFF` the debounce started at most at `T`, not before the
high-confidence timestamp, and at least `abs_clear_delay_ms_` after it. -/
def hold_invariant (e : BedPresenceEngine) (T : Nat) : Prop :=
  (e.current_state_ = State.PRESENT → e.last_high_confidence_time_ ≤ T) ∧
  (e.current_state_ = State.DEBOUNCING_OFF →
    e.last_high_confidence_time_ ≤ e.debounce_start_time_ ∧
    e.debounce_start_time_ ≤ T ∧
    e.abs_clear_delay_ms_ ≤ e.debounce_start_time_ - e.last_high_confidence_time_)

/-! ## Invariants of the baseline and of the calibration session -/

/-- The sample buffer holds at most `MAX_CALIBRATION_SAMPLES` samples and is empty
whenever no calibration is active. -/
def calibration_session_invariant (e : BedPresenceEngine) : Prop :=
  e.calibration_samples_.length ≤ MAX_CALIBRATION_SAMPLES ∧
  (e.calibrating_ = false → e.calibration_samples_ = [])

/-! ## Ticks and their scores along a run -/

/-- The tick is admitted by the engine (it has an energy reading and passes the
distance gate) and its score under the engine's baseline satisfies `P`. -/
def Tick.scores (e : BedPresenceEngine) (P : ℚ → Prop) (t : Tick) : Prop :=
  ∃ en, t.energy = some en ∧ spec_admits t.distance e.d_min_cm_ e.d_max_cm_ ∧
    P (calculate_z_score en e.mu_still_ e.sigma_still_)

/-- The tick is admitted by the engine: it has an energy reading and passes the
distance gate. -/
def Tick.admitted (e : BedPresenceEngine) (t : Tick) : Prop :=
  Tick.scores e (fun _ => True) t

/-- The engine `e` has no calibration active and has the baseline, thresholds,
on- and off-debounce times and distance window of `e0`. -/
def same_config (e0 e : BedPresenceEngine) : Prop :=
  e.calibrating_ = false ∧
  e.mu_still_ = e0.mu_still_ ∧ e.sigma_still_ = e0.sigma_still_ ∧
  e.k_on_ = e0.k_on_ ∧ e.k_off_ = e0.k_off_ ∧
  e.d_min_cm_ = e0.d_min_cm_ ∧ e.d_max_cm_ = e0.d_max_cm_ ∧
  e.on_debounce_ms_ = e0.on_debounce_ms_ ∧ e.off_debounce_ms_ = e0.off_debounce_ms_

/-- The on-debounce running at the end of `ticks` started at one of them: a tick `s`
at time `dst`, admitted with a score at least `k_on`, after which every admitted tick
scored at least `k_on`. -/
def debouncing_on_since (e0 : BedPresenceEngine) (ticks : List Tick) (dst : Nat) : Prop :=
  ∃ pre s mid, ticks = pre ++ s :: mid ∧
    Tick.scores e0 (fun z => z ≥ e0.k_on_) s ∧ s.now = dst ∧
    ∀ x ∈ mid, Tick.admitted e0 x → Tick.scores e0 (fun z => z ≥ e0.k_on_) x

/-- The off-debounce running at the end of `ticks` started at one of them: a tick `s`
at time `dst`, admitted with a score below `k_off`, which found the machine in
`PRESENT` and after which it has been in `DEBOUNCING_OFF` throughout, every admitted
tick since scoring below `k_on`. -/
def debouncing_off_since (w : Nat) (e0 : BedPresenceEngine) (ticks : List Tick) (dst : Nat) :
    Prop :=
  ∃ pre s mid, ticks = pre ++ s :: mid ∧
    (run_ticks w e0 pre).current_state_ = State.PRESENT ∧
    (∀ m1 m2, mid = m1 ++ m2 →
      (run_ticks w e0 (pre ++ s :: m1)).current_state_ = State.DEBOUNCING_OFF) ∧
    Tick.scores e0 (fun z => z < e0.k_off_) s ∧ s.now = dst ∧
    ∀ x ∈ mid, Tick.admitted e0 x → Tick.scores e0 (fun z => z < e0.k_on_) x

/-- The test engine driven through the turn-on path, into `DEBOUNCING_OFF` at
`t = 33000`, and then by a tick at `t = 35000` whose score `3` lies between the
thresholds. -/
def off_debounce_band_ticks : List Tick :=
  [⟨some 185, none, 0⟩, ⟨some 185, none, 3000⟩, ⟨some 135, none, 33000⟩,
   ⟨some 160, none, 35000⟩]

/-- A two-second calibration of the test engine started 1000 ms before a 32-bit clock
wraps, at `millis() = 2 ^ 32 - 1000`. -/
def calibration_before_wrap : BedPresenceEngine :=
  start_baseline_calibration 32 SimplePresenceEngine 2 4294966296

/-- A two-second calibration of the test engine started 3000 ms before a 32-bit clock
wraps, at `millis() = 2 ^ 32 - 3000`. -/
def calibration_ending_before_wrap : BedPresenceEngine :=
  start_baseline_calibration 32 SimplePresenceEngine 2 4294964296

/-! ## A second embedding with the special values of `float`

The definitions above take `float` values as rationals.  The definitions of the
namespace `Ieee` embed the same source with `float` values that may also be NaN or
infinite: comparisons with NaN are false, the special values follow the IEEE rules,
and a finite result whose magnitude exceeds `FLT_MAX` overflows to an infinity.
Finite arithmetic is otherwise exact (no rounding), and the sign of zero is not
modelled. -/

namespace Ieee

/-- A `float` value: NaN, an infinity or a number. -/
inductive FloatValue
  | nan
  | neg_inf
  | num (q : ℚ)
  | pos_inf
  deriving DecidableEq

/-- The largest finite `float`, `(2 - 2 ^ (-23)) * 2 ^ 127`. -/
def FLT_MAX : ℚ := 340282346638528859811704183484516925440

/-- The `float` result for an exact finite result `q`: an infinity on overflow. -/
def FloatValue.ofRat (q : ℚ) : FloatValue :=
  if q > FLT_MAX then FloatValue.pos_inf
  else if q < -FLT_MAX then FloatValue.neg_inf
  else FloatValue.num q

/-- The comparison `a < b` of `float`: false when either side is NaN. -/
def FloatValue.lt : FloatValue → FloatValue → Bool
  | FloatValue.num a, FloatValue.num b => decide (a < b)
  | FloatValue.neg_inf, FloatValue.num _ => true
  | FloatValue.neg_inf, FloatValue.pos_inf => true
  | FloatValue.num _, FloatValue.pos_inf => true
  | _, _ => false

/-- The comparison `a <= b` of `float`: false when either side is NaN. -/
def FloatValue.le : FloatValue → FloatValue → Bool
  | FloatValue.num a, FloatValue.num b => decide (a ≤ b)
  | FloatValue.neg_inf, FloatValue.neg_inf => true
  | FloatValue.neg_inf, FloatValue.num _ => true
  | FloatValue.neg_inf, FloatValue.pos_inf => true
  | FloatValue.num _, FloatValue.pos_inf => true
  | FloatValue.pos_inf, FloatValue.pos_inf => true
  | _, _ => false

/-- The comparison `a > b` of `float`. -/
def FloatValue.gt (a b : FloatValue) : Bool := FloatValue.lt b a

/-- The comparison `a >= b` of `float`. -/
def FloatValue.ge (a b : FloatValue) : Bool := FloatValue.le b a

/-- The negation `-a` of `float`. -/
def FloatValue.neg : FloatValue → FloatValue
  | FloatValue.nan => FloatValue.nan
  | FloatValue.neg_inf => FloatValue.pos_inf
  | FloatValue.num a => FloatValue.num (-a)
  | FloatValue.pos_inf => FloatValue.neg_inf

/-- The sum `a + b` of `float`: NaN for a NaN operand and for opposite infinities. -/
def FloatValue.add : FloatValue → FloatValue → FloatValue
  | FloatValue.nan, _ => FloatValue.nan
  | _, FloatValue.nan => FloatValue.nan
  | FloatValue.pos_inf, FloatValue.neg_inf => FloatValue.nan
  | FloatValue.neg_inf, FloatValue.pos_inf => FloatValue.nan
  | FloatValue.pos_inf, _ => FloatValue.pos_inf
  | _, FloatValue.pos_inf => FloatValue.pos_inf
  | FloatValue.neg_inf, _ => FloatValue.neg_inf
  | _, FloatValue.neg_inf => FloatValue.neg_inf
  | FloatValue.num a, FloatValue.num b => FloatValue.ofRat (a + b)

/-- The difference `a - b` of `float`. -/
def FloatValue.sub (a b : FloatValue) : FloatValue := FloatValue.add a (FloatValue.neg b)

/-- The absolute value `std::fabs(a)`. -/
def FloatValue.abs : FloatValue → FloatValue
  | FloatValue.nan => FloatValue.nan
  | FloatValue.neg_inf => FloatValue.pos_inf
  | FloatValue.num a => FloatValue.num |a|
  | FloatValue.pos_inf => FloatValue.pos_inf

/-- An infinity of the sign of `q`, for `q ≠ 0`. -/
def FloatValue.inf_of_sign (q : ℚ) : FloatValue :=
  if q > 0 then FloatValue.pos_inf else FloatValue.neg_inf

/-- The product `a * b` of `float`: NaN for a NaN operand and for zero times an
infinity. -/
def FloatValue.mul : FloatValue → FloatValue → FloatValue
  | FloatValue.nan, _ => FloatValue.nan
  | _, FloatValue.nan => FloatValue.nan
  | FloatValue.num a, FloatValue.num b => FloatValue.ofRat (a * b)
  | FloatValue.num a, FloatValue.pos_inf =>
    if a = 0 then FloatValue.nan else FloatValue.inf_of_sign a
  | FloatValue.num a, FloatValue.neg_inf =>
    if a = 0 then FloatValue.nan else FloatValue.inf_of_sign (-a)
  | FloatValue.pos_inf, FloatValue.num b =>
    if b = 0 then FloatValue.nan else FloatValue.inf_of_sign b
  | FloatValue.neg_inf, FloatValue.num b =>
    if b = 0 then FloatValue.nan else FloatValue.inf_of_sign (-b)
  | FloatValue.pos_inf, FloatValue.pos_inf => FloatValue.pos_inf
  | FloatValue.neg_inf, FloatValue.neg_inf => FloatValue.pos_inf
  | FloatValue.pos_inf, FloatValue.neg_inf => FloatValue.neg_inf
  | FloatValue.neg_inf, FloatValue.pos_inf => FloatValue.neg_inf

/-- The quotient `a / b` of `float`: NaN for a NaN operand, for an infinity over an
infinity and for zero over zero; a zero divisor counts as positive zero. -/
def FloatValue.div : FloatValue → FloatValue → FloatValue
  | FloatValue.nan, _ => FloatValue.nan
  | _, FloatValue.nan => FloatValue.nan
  | FloatValue.num a, FloatValue.num b =>
    if b = 0 then (if a = 0 then FloatValue.nan else FloatValue.inf_of_sign a)
    else FloatValue.ofRat (a / b)
  | FloatValue.num _, FloatValue.pos_inf => FloatValue.num 0
  | FloatValue.num _, FloatValue.neg_inf => FloatValue.num 0
  | FloatValue.pos_inf, FloatValue.num b =>
    if b < 0 then FloatValue.neg_inf else FloatValue.pos_inf
  | FloatValue.neg_inf, FloatValue.num b =>
    if b < 0 then FloatValue.pos_inf else FloatValue.neg_inf
  | FloatValue.pos_inf, FloatValue.pos_inf => FloatValue.nan
  | FloatValue.pos_inf, FloatValue.neg_inf => FloatValue.nan
  | FloatValue.neg_inf, FloatValue.pos_inf => FloatValue.nan
  | FloatValue.neg_inf, FloatValue.neg_inf => FloatValue.nan

/-- The value is a number: neither NaN nor an infinity. -/
def FloatValue.is_num : FloatValue → Prop
  | FloatValue.num _ => True
  | _ => False

/-- The value is a non-negative number or positive infinity. -/
def FloatValue.nonneg : FloatValue → Prop
  | FloatValue.num q => 0 ≤ q
  | FloatValue.pos_inf => True
  | _ => False

/-- Values handed to `publish_reason`, the scores and baseline values being `float`. -/
inductive Reason
  | text (s : String)
  | on (z : FloatValue) (debounce_ms : Nat)
  | off (z : FloatValue) (debounce_ms : Nat)
  | calibration_complete (median : FloatValue) (sigma : FloatValue) (n : Nat)
  deriving DecidableEq

/-- The data members of `BedPresenceEngine` together with the observable sensor
outputs, every `float` member being a `FloatValue`. -/
structure BedPresenceEngine where
  mu_still_ : FloatValue
  sigma_still_ : FloatValue
  mu_stat_ : FloatValue
  sigma_stat_ : FloatValue
  k_on_ : FloatValue
  k_off_ : FloatValue
  d_min_cm_ : FloatValue
  d_max_cm_ : FloatValue
  current_state_ : State
  debounce_start_time_ : Nat
  last_high_confidence_time_ : Nat
  on_debounce_ms_ : Nat
  off_debounce_ms_ : Nat
  abs_clear_delay_ms_ : Nat
  calibrating_ : Bool
  calibration_end_time_ : Nat
  calibration_samples_ : List FloatValue
  presence_output : Bool
  state_reason_log : List Reason
  change_reason_log : List String
  deriving DecidableEq

/-- A freshly constructed engine: the default member initializers of the header. -/
def BedPresenceEngine.init : BedPresenceEngine where
  mu_still_ := FloatValue.num (67 / 10)
  sigma_still_ := FloatValue.num (35 / 10)
  mu_stat_ := FloatValue.num (67 / 10)
  sigma_stat_ := FloatValue.num (35 / 10)
  k_on_ := FloatValue.num 9
  k_off_ := FloatValue.num 4
  d_min_cm_ := FloatValue.num 0
  d_max_cm_ := FloatValue.num 600
  current_state_ := State.IDLE
  debounce_start_time_ := 0
  last_high_confidence_time_ := 0
  on_debounce_ms_ := 3000
  off_debounce_ms_ := 5000
  abs_clear_delay_ms_ := 30000
  calibrating_ := false
  calibration_end_time_ := 0
  calibration_samples_ := []
  presence_output := false
  state_reason_log := []
  change_reason_log := []

/-- The call `publish_state(b)` of the binary sensor. -/
def publish_state (e : BedPresenceEngine) (b : Bool) : BedPresenceEngine :=
  { e with presence_output := b }

/-- The method `publish_reason`. -/
def publish_reason (e : BedPresenceEngine) (reason : Reason) : BedPresenceEngine :=
  { e with state_reason_log := e.state_reason_log ++ [reason] }

/-- The method `publish_change_reason`. -/
def publish_change_reason (e : BedPresenceEngine) (reason : String) : BedPresenceEngine :=
  { e with change_reason_log := e.change_reason_log ++ [reason] }

/-- The method `setup`. -/
def setup (e : BedPresenceEngine) : BedPresenceEngine :=
  publish_change_reason
    (publish_reason (publish_state { e with current_state_ := State.IDLE } false)
      (Reason.text "Initial state: IDLE"))
    "idle:init"

/-- The method `calculate_z_score`. -/
def calculate_z_score (energy mu sigma : FloatValue) : FloatValue :=
  if FloatValue.le sigma (FloatValue.num (1 / 1000)) then FloatValue.num 0
  else FloatValue.div (FloatValue.sub energy mu) sigma

/-- The method `process_energy_reading`, with `now` the value of `millis()`. -/
def process_energy_reading (w : Nat) (e : BedPresenceEngine) (energy : FloatValue)
    (now : Nat) : BedPresenceEngine :=
  let z_still := calculate_z_score energy e.mu_still_ e.sigma_still_
  match e.current_state_ with
  | State.IDLE =>
    if FloatValue.ge z_still e.k_on_ then
      { e with debounce_start_time_ := now, current_state_ := State.DEBOUNCING_ON }
    else e
  | State.DEBOUNCING_ON =>
    if FloatValue.ge z_still e.k_on_ then
      if usub w now e.debounce_start_time_ ≥ e.on_debounce_ms_ then
        publish_change_reason
          (publish_reason
            (publish_state
              { e with current_state_ := State.PRESENT, last_high_confidence_time_ := now } true)
            (Reason.on z_still e.on_debounce_ms_))
          "on:threshold_exceeded"
      else e
    else { e with current_state_ := State.IDLE }
  | State.PRESENT =>
    let e1 := if FloatValue.gt z_still e.k_on_ then
      { e with last_high_confidence_time_ := now } else e
    if FloatValue.lt z_still e1.k_off_ then
      if usub w now e1.last_high_confidence_time_ ≥ e1.abs_clear_delay_ms_ then
        { e1 with debounce_start_time_ := now, current_state_ := State.DEBOUNCING_OFF }
      else e1
    else e1
  | State.DEBOUNCING_OFF =>
    if FloatValue.lt z_still e.k_off_ then
      if usub w now e.debounce_start_time_ ≥ e.off_debounce_ms_ then
        publish_change_reason
          (publish_reason (publish_state { e with current_state_ := State.IDLE } false)
            (Reason.off z_still e.off_debounce_ms_))
          "off:abs_clear_delay"
      else e
    else if FloatValue.ge z_still e.k_on_ then
      { e with current_state_ := State.PRESENT, last_high_confidence_time_ := now }
    else e

/-- The runtime setter `update_k_on`. -/
def update_k_on (e : BedPresenceEngine) (k : FloatValue) : BedPresenceEngine :=
  { e with k_on_ := k }

/-- The runtime setter `update_k_off`. -/
def update_k_off (e : BedPresenceEngine) (k : FloatValue) : BedPresenceEngine :=
  { e with k_off_ := k }

/-- The runtime setter `update_on_debounce_ms`. -/
def update_on_debounce_ms (e : BedPresenceEngine) (ms : Nat) : BedPresenceEngine :=
  { e with on_debounce_ms_ := ms }

/-- The runtime setter `update_off_debounce_ms`. -/
def update_off_debounce_ms (e : BedPresenceEngine) (ms : Nat) : BedPresenceEngine :=
  { e with off_debounce_ms_ := ms }

/-- The runtime setter `update_abs_clear_delay_ms`. -/
def update_abs_clear_delay_ms (e : BedPresenceEngine) (ms : Nat) : BedPresenceEngine :=
  { e with abs_clear_delay_ms_ := ms }

/-- The runtime setter `update_d_min_cm`. -/
def update_d_min_cm (e : BedPresenceEngine) (value : FloatValue) : BedPresenceEngine :=
  { e with d_min_cm_ := value }

/-- The runtime setter `update_d_max_cm`. -/
def update_d_max_cm (e : BedPresenceEngine) (value : FloatValue) : BedPresenceEngine :=
  { e with d_max_cm_ := value }

/-- The inline configuration setter `set_k_on`. -/
def set_k_on (e : BedPresenceEngine) (k : FloatValue) : BedPresenceEngine :=
  { e with k_on_ := k }

/-- The inline configuration setter `set_k_off`. -/
def set_k_off (e : BedPresenceEngine) (k : FloatValue) : BedPresenceEngine :=
  { e with k_off_ := k }

/-- The inline configuration setter `set_on_debounce_ms`. -/
def set_on_debounce_ms (e : BedPresenceEngine) (ms : Nat) : BedPresenceEngine :=
  { e with on_debounce_ms_ := ms }

/-- The inline configuration setter `set_off_debounce_ms`. -/
def set_off_debounce_ms (e : BedPresenceEngine) (ms : Nat) : BedPresenceEngine :=
  { e with off_debounce_ms_ := ms }

/-- The inline configuration setter `set_abs_clear_delay_ms`. -/
def set_abs_clear_delay_ms (e : BedPresenceEngine) (ms : Nat) : BedPresenceEngine :=
  { e with abs_clear_delay_ms_ := ms }

/-- The inline configuration setter `set_d_min_cm`. -/
def set_d_min_cm (e : BedPresenceEngine) (value : FloatValue) : BedPresenceEngine :=
  { e with d_min_cm_ := value }

/-- The inline configuration setter `set_d_max_cm`. -/
def set_d_max_cm (e : BedPresenceEngine) (value : FloatValue) : BedPresenceEngine :=
  { e with d_max_cm_ := value }

/-- The library routine `std::nth_element(first, first + n, last)` on a copy of the
values, by its postcondition under `operator<`: a rearrangement in which no element
is less than one before it.  With a NaN among the values the standard leaves the
result unspecified; a list of one value has only one rearrangement. -/
def nth_element (values : List FloatValue) (_n : Nat) : List FloatValue :=
  values.insertionSort (fun a b => FloatValue.lt b a = false)

/-- The static function `compute_median`. -/
def compute_median (values : List FloatValue) : FloatValue :=
  if values.isEmpty then FloatValue.num 0
  else
    let mid := values.length / 2
    let values1 := nth_element values mid
    let median := values1.getD mid (FloatValue.num 0)
    if values.length % 2 = 0 then
      let values2 := nth_element values1 (mid - 1)
      FloatValue.div (FloatValue.add median (values2.getD (mid - 1) (FloatValue.num 0)))
        (FloatValue.num 2)
    else median

/-- The method `finalize_calibration`. -/
def finalize_calibration (e : BedPresenceEngine) : BedPresenceEngine :=
  if !e.calibrating_ then e
  else
    let e1 := { e with calibrating_ := false }
    if e1.calibration_samples_.isEmpty then
      publish_change_reason
        (publish_reason e1 (Reason.text "Calibration failed: no samples"))
        "calibration:insufficient_samples"
    else
      let samples := e1.calibration_samples_
      let e2 := { e1 with calibration_samples_ := [] }
      let median := compute_median samples
      let deviations := samples.map (fun x => FloatValue.abs (FloatValue.sub x median))
      let mad := compute_median deviations
      let sigma := FloatValue.mul mad (FloatValue.num (14826 / 10000))
      let sigma := if FloatValue.lt sigma (FloatValue.num (5 / 100)) then
        FloatValue.num (5 / 100) else sigma
      let e3 := { e2 with mu_still_ := median, sigma_still_ := sigma }
      publish_change_reason
        (publish_reason e3 (Reason.calibration_complete median sigma samples.length))
        "calibration:completed"

/-- The method `start_baseline_calibration`, with `now` the value of `millis()`. -/
def start_baseline_calibration (w : Nat) (e : BedPresenceEngine) (duration_s : Nat)
    (now : Nat) : BedPresenceEngine :=
  if duration_s = 0 then e
  else
    let clamped := min duration_s 600
    let e1 := { e with calibrating_ := true, calibration_samples_ := [],
                       calibration_end_time_ := uadd w now (clamped * 1000) }
    publish_change_reason (publish_reason e1 (Reason.text "Calibration started"))
      "calibration:started"

/-- The method `stop_baseline_calibration`. -/
def stop_baseline_calibration (e : BedPresenceEngine) : BedPresenceEngine :=
  if !e.calibrating_ then e else finalize_calibration e

/-- The method `reset_to_defaults`. -/
def reset_to_defaults (e : BedPresenceEngine) : BedPresenceEngine :=
  let e1 := { e with
    mu_still_ := FloatValue.num (67 / 10), sigma_still_ := FloatValue.num (35 / 10),
    k_on_ := FloatValue.num 9, k_off_ := FloatValue.num 4,
    on_debounce_ms_ := 3000, off_debounce_ms_ := 5000, abs_clear_delay_ms_ := 30000,
    d_min_cm_ := FloatValue.num 0, d_max_cm_ := FloatValue.num 600,
    calibrating_ := false, calibration_samples_ := [],
    current_state_ := State.IDLE }
  publish_change_reason
    (publish_reason (publish_state e1 false) (Reason.text "Reset to defaults"))
    "off:reset_to_defaults"

/-- The method `handle_calibration_sample`, with `now` the value of `millis()`. -/
def handle_calibration_sample (e : BedPresenceEngine) (energy : FloatValue) (now : Nat) :
    BedPresenceEngine :=
  if !e.calibrating_ then e
  else if e.calibration_samples_.length ≥ MAX_CALIBRATION_SAMPLES then finalize_calibration e
  else
    let e1 := { e with calibration_samples_ := e.calibration_samples_ ++ [energy] }
    if now ≥ e1.calibration_end_time_ then finalize_calibration e1 else e1

/-- The first step of `loop`: the deadline check that precedes the sensor checks. -/
def loop_deadline_check (e : BedPresenceEngine) (now : Nat) : BedPresenceEngine :=
  if e.calibrating_ && decide (now ≥ e.calibration_end_time_) then
    finalize_calibration e else e

/-- The method `loop`.  `energy` is `none` when the energy sensor is absent or has
no state, `distance` is `none` when the distance sensor is absent or has no state,
and `now` is the value of `millis()`.  A sensor that has a state may hold NaN. -/
def loop (w : Nat) (e : BedPresenceEngine) (energy : Option FloatValue)
    (distance : Option FloatValue) (now : Nat) : BedPresenceEngine :=
  let e0 := if e.calibrating_ && decide (now ≥ e.calibration_end_time_) then
      finalize_calibration e else e
  match energy with
  | none => e0
  | some en =>
    match distance with
    | some d =>
      if FloatValue.lt d e0.d_min_cm_ || FloatValue.gt d e0.d_max_cm_ then e0
      else process_energy_reading w (handle_calibration_sample e0 en now) en now
    | none => process_energy_reading w (handle_calibration_sample e0 en now) en now

/-- One externally triggered operation on a set-up engine. -/
inductive Command
  | loop (energy : Option FloatValue) (distance : Option FloatValue) (now : Nat)
  | update_k_on (k : FloatValue)
  | update_k_off (k : FloatValue)
  | update_on_debounce_ms (ms : Nat)
  | update_off_debounce_ms (ms : Nat)
  | update_abs_clear_delay_ms (ms : Nat)
  | update_d_min_cm (value : FloatValue)
  | update_d_max_cm (value : FloatValue)
  | set_k_on (k : FloatValue)
  | set_k_off (k : FloatValue)
  | set_on_debounce_ms (ms : Nat)
  | set_off_debounce_ms (ms : Nat)
  | set_abs_clear_delay_ms (ms : Nat)
  | set_d_min_cm (value : FloatValue)
  | set_d_max_cm (value : FloatValue)
  | start_baseline_calibration (duration_s : Nat) (now : Nat)
  | stop_baseline_calibration
  | reset_to_defaults

/-- The effect of one command on the engine. -/
def Command.apply (w : Nat) (e : BedPresenceEngine) : Command → BedPresenceEngine
  | Command.loop energy distance now => Ieee.loop w e energy distance now
  | Command.update_k_on k => Ieee.update_k_on e k
  | Command.update_k_off k => Ieee.update_k_off e k
  | Command.update_on_debounce_ms ms => Ieee.update_on_debounce_ms e ms
  | Command.update_off_debounce_ms ms => Ieee.update_off_debounce_ms e ms
  | Command.update_abs_clear_delay_ms ms => Ieee.update_abs_clear_delay_ms e ms
  | Command.update_d_min_cm v => Ieee.update_d_min_cm e v
  | Command.update_d_max_cm v => Ieee.update_d_max_cm e v
  | Command.set_k_on k => Ieee.set_k_on e k
  | Command.set_k_off k => Ieee.set_k_off e k
  | Command.set_on_debounce_ms ms => Ieee.set_on_debounce_ms e ms
  | Command.set_off_debounce_ms ms => Ieee.set_off_debounce_ms e ms
  | Command.set_abs_clear_delay_ms ms => Ieee.set_abs_clear_delay_ms e ms
  | Command.set_d_min_cm v => Ieee.set_d_min_cm e v
  | Command.set_d_max_cm v => Ieee.set_d_max_cm e v
  | Command.start_baseline_calibration d now => Ieee.start_baseline_calibration w e d now
  | Command.stop_baseline_calibration => Ieee.stop_baseline_calibration e
  | Command.reset_to_defaults => Ieee.reset_to_defaults e

/-- The engine after a sequence of commands. -/
def run (w : Nat) (e : BedPresenceEngine) (cmds : List Command) : BedPresenceEngine :=
  cmds.foldl (Command.apply w) e

/-! ### The specification's words over `float` values -/

/-- The specification's distance gate `admit(distance, window)` with `float`
comparisons: a tick without a distance reading is admitted, one with a reading is
admitted when `d_min <= distance` and `distance <= d_max`. -/
def spec_admits (distance : Option FloatValue) (d_min d_max : FloatValue) : Prop :=
  match distance with
  | none => True
  | some d => FloatValue.le d_min d = true ∧ FloatValue.le d d_max = true

/-- The gate of `loop`: the tick goes on unless a distance reading is present with
`distance < d_min || distance > d_max`. -/
def gate_admits (distance : Option FloatValue) (d_min d_max : FloatValue) : Prop :=
  match distance with
  | none => True
  | some d => (FloatValue.lt d d_min || FloatValue.gt d d_max) = false

/-- The condition column of the specification's transition table, for the score `z`
and the time `now`, with `float` comparisons; `else` is the failure of the
comparison of the row above, and elapsed times are the unsigned differences of the
clock. -/
def Row.condition (w : Nat) (e : BedPresenceEngine) (z : FloatValue) (now : Nat) :
    Row → Prop
  | Row.idle_on => FloatValue.ge z e.k_on_ = true
  | Row.idle_else => FloatValue.ge z e.k_on_ = false
  | Row.debouncing_on_confirm =>
    FloatValue.ge z e.k_on_ = true ∧ usub w now e.debounce_start_time_ ≥ e.on_debounce_ms_
  | Row.debouncing_on_wait =>
    FloatValue.ge z e.k_on_ = true ∧ ¬ usub w now e.debounce_start_time_ ≥ e.on_debounce_ms_
  | Row.debouncing_on_abort => FloatValue.lt z e.k_on_ = true
  | Row.present_refresh => FloatValue.gt z e.k_on_ = true
  | Row.present_clear =>
    FloatValue.lt z e.k_off_ = true ∧
      usub w now e.last_high_confidence_time_ ≥ e.abs_clear_delay_ms_
  | Row.present_hold =>
    FloatValue.lt z e.k_off_ = true ∧
      ¬ usub w now e.last_high_confidence_time_ ≥ e.abs_clear_delay_ms_
  | Row.debouncing_off_confirm =>
    FloatValue.lt z e.k_off_ = true ∧ usub w now e.debounce_start_time_ ≥ e.off_debounce_ms_
  | Row.debouncing_off_wait =>
    FloatValue.lt z e.k_off_ = true ∧
      ¬ usub w now e.debounce_start_time_ ≥ e.off_debounce_ms_
  | Row.debouncing_off_abort => FloatValue.ge z e.k_on_ = true

/-- The action column of the specification's transition table. -/
def Row.action (e : BedPresenceEngine) (z : FloatValue) (now : Nat) :
    Row → BedPresenceEngine
  | Row.idle_on =>
    { e with debounce_start_time_ := now, current_state_ := State.DEBOUNCING_ON }
  | Row.idle_else => e
  | Row.debouncing_on_confirm =>
    publish_change_reason
      (publish_reason
        (publish_state
          { e with current_state_ := State.PRESENT, last_high_confidence_time_ := now } true)
        (Reason.on z e.on_debounce_ms_))
      "on:threshold_exceeded"
  | Row.debouncing_on_wait => e
  | Row.debouncing_on_abort => { e with current_state_ := State.IDLE }
  | Row.present_refresh => { e with last_high_confidence_time_ := now }
  | Row.present_clear =>
    { e with debounce_start_time_ := now, current_state_ := State.DEBOUNCING_OFF }
  | Row.present_hold => e
  | Row.debouncing_off_confirm =>
    publish_change_reason
      (publish_reason (publish_state { e with current_state_ := State.IDLE } false)
        (Reason.off z e.off_debounce_ms_))
      "off:abs_clear_delay"
  | Row.debouncing_off_wait => e
  | Row.debouncing_off_abort =>
    { e with current_state_ := State.PRESENT, last_high_confidence_time_ := now }

/-- A row applies when it is a row of the current state and its condition holds. -/
def Row.applies (w : Nat) (e : BedPresenceEngine) (z : FloatValue) (now : Nat) (r : Row) :
    Prop :=
  r.state = e.current_state_ ∧ Row.condition w e z now r

/-- The baseline spread is at least the floor `0.05` of `finalize_calibration`, in
the comparison of `float`. -/
def spread_floor (e : BedPresenceEngine) : Prop :=
  FloatValue.ge e.sigma_still_ (FloatValue.num (5 / 100)) = true

/-- Every buffered calibration sample is a number. -/
def samples_finite (e : BedPresenceEngine) : Prop :=
  ∀ x ∈ e.calibration_samples_, FloatValue.is_num x

/-- The energy reading of a tick, if the command is a tick with one, is a number. -/
def Command.finite_energy : Command → Prop
  | Command.loop (some en) _ _ => FloatValue.is_num en
  | _ => True

/-! ### Concrete engines used to exercise the theorems -/

/-- The configuration of the unit tests (`SimplePresenceEngine`): baseline mean 100,
spread 20, `k_on = 4`, `k_off = 2`, the other members at their defaults. -/
def SimplePresenceEngine : BedPresenceEngine :=
  { BedPresenceEngine.init with
    mu_still_ := FloatValue.num 100, sigma_still_ := FloatValue.num 20,
    k_on_ := FloatValue.num 4, k_off_ := FloatValue.num 2 }

/-- The test engine with the distance window `[50, 200]` of the distance test. -/
def SimplePresenceEngine_window : BedPresenceEngine :=
  { SimplePresenceEngine with d_min_cm_ := FloatValue.num 50, d_max_cm_ := FloatValue.num 200 }

/-- The test engine in `DEBOUNCING_ON`, entered at `t = 0`. -/
def SimplePresenceEngine_debouncing_on : BedPresenceEngine :=
  run 32 SimplePresenceEngine [Command.loop (some (FloatValue.num 185)) none 0]

/-- The test engine after the turn-on path of the tests: `PRESENT` since `t = 3000`. -/
def SimplePresenceEngine_present : BedPresenceEngine :=
  run 32 SimplePresenceEngine
    [Command.loop (some (FloatValue.num 185)) none 0,
     Command.loop (some (FloatValue.num 185)) none 3000]

/-- A one-second calibration of a constructed engine whose only sample is a NaN
energy reading, stopped by command. -/
def calibrated_on_nan : BedPresenceEngine :=
  run 32 BedPresenceEngine.init
    [Command.start_baseline_calibration 1 0,
     Command.loop (some FloatValue.nan) none 100,
     Command.stop_baseline_calibration]

/-- A one-second calibration of a constructed engine whose only sample is an infinite
energy reading, stopped by command. -/
def calibrated_on_inf : BedPresenceEngine :=
  run 32 BedPresenceEngine.init
    [Command.start_baseline_calibration 1 0,
     Command.loop (some FloatValue.pos_inf) none 100,
     Command.stop_baseline_calibration]

/-- The finite `float` value `2 ^ 127`, half of the first power of two beyond
`FLT_MAX`. -/
def two_pow_127 : ℚ := 170141183460469231731687303715884105728

/-- A one-second calibration of a constructed engine with two samples of the finite
energy `2 ^ 127`, stopped by command. -/
def calibrated_on_large : BedPresenceEngine :=
  run 32 BedPresenceEngine.init
    [Command.start_baseline_calibration 1 0,
     Command.loop (some (FloatValue.num two_pow_127)) none 100,
     Command.loop (some (FloatValue.num two_pow_127)) none 200,
     Command.stop_baseline_calibration]

end Ieee

/-! ## Frame lemmas for the calibration subsystem -/

theorem finalize_calibration_current_state (e : BedPresenceEngine) :
    (finalize_calibration e).current_state_ = e.current_state_ := by
  simp only [finalize_calibration, publish_change_reason, publish_reason]
  split_ifs <;> rfl

theorem finalize_calibration_presence_output (e : BedPresenceEngine) :
    (finalize_calibration e).presence_output = e.presence_output := by
  simp only [finalize_calibration, publish_change_reason, publish_reason]
  split_ifs <;> rfl

theorem handle_calibration_sample_current_state (e : BedPresenceEngine) (energy : ℚ)
    (now : Nat) :
    (handle_calibration_sample e energy now).current_state_ = e.current_state_ := by
  simp only [handle_calibration_sample]
  split_ifs <;> simp [finalize_calibration_current_state]

theorem handle_calibration_sample_presence_output (e : BedPresenceEngine) (energy : ℚ)
    (now : Nat) :
    (handle_calibration_sample e energy now).presence_output = e.presence_output := by
  simp only [handle_calibration_sample]
  split_ifs <;> simp [finalize_calibration_presence_output]

/-! ## The presence invariant -/

theorem presence_matches_state_congr {e1 e2 : BedPresenceEngine}
    (hs : e2.current_state_ = e1.current_state_) (hp : e2.presence_output = e1.presence_output)
    (h : presence_matches_state e1) : presence_matches_state e2 := by
  unfold presence_matches_state at *
  rw [hs, hp]
  exact h

theorem process_energy_reading_presence_matches_state (w : Nat) (e : BedPresenceEngine)
    (energy : ℚ) (now : Nat) (h : presence_matches_state e) :
    presence_matches_state (process_energy_reading w e energy now) := by
  unfold presence_matches_state at *
  unfold process_energy_reading
  cases hst : e.current_state_ <;> simp only [hst] at h ⊢ <;>
    split_ifs <;> simp_all [publish_change_reason, publish_reason, publish_state]

theorem loop_presence_matches_state (w : Nat) (e : BedPresenceEngine) (energy : Option ℚ)
    (distance : Option ℚ) (now : Nat) (h : presence_matches_state e) :
    presence_matches_state (loop w e energy distance now) := by
  have h0 : presence_matches_state
      (if e.calibrating_ && decide (now ≥ e.calibration_end_time_) then
        finalize_calibration e else e) := by
    split_ifs
    · exact presence_matches_state_congr (finalize_calibration_current_state e)
        (finalize_calibration_presence_output e) h
    · exact h
  have hstep : ∀ (e0 : BedPresenceEngine) (en : ℚ), presence_matches_state e0 →
      presence_matches_state
        (process_energy_reading w (handle_calibration_sample e0 en now) en now) :=
    fun e0 en he0 =>
      process_energy_reading_presence_matches_state w _ en now
        (presence_matches_state_congr (handle_calibration_sample_current_state _ en now)
          (handle_calibration_sample_presence_output _ en now) he0)
  have main : ∀ e0 : BedPresenceEngine, presence_matches_state e0 →
      presence_matches_state
        (match energy with
        | none => e0
        | some en =>
          match distance with
          | some d =>
            if d < e0.d_min_cm_ ∨ d > e0.d_max_cm_ then e0
            else process_energy_reading w (handle_calibration_sample e0 en now) en now
          | none => process_energy_reading w (handle_calibration_sample e0 en now) en now) := by
    intro e0 he0
    cases energy with
    | none => exact he0
    | some en =>
      cases distance with
      | none => exact hstep e0 en he0
      | some d =>
        simp only
        split_ifs
        · exact he0
        · exact hstep e0 en he0
  exact main _ h0

theorem apply_presence_matches_state (w : Nat) (e : BedPresenceEngine) (c : Command)
    (h : presence_matches_state e) : presence_matches_state (Command.apply w e c) := by
  cases c with
  | loop energy distance now => exact loop_presence_matches_state w e energy distance now h
  | start_baseline_calibration d now =>
    refine presence_matches_state_congr ?_ ?_ h <;>
      (simp only [Command.apply, start_baseline_calibration]
       split_ifs <;> simp [publish_change_reason, publish_reason])
  | stop_baseline_calibration =>
    refine presence_matches_state_congr ?_ ?_ h <;>
      (simp only [Command.apply, stop_baseline_calibration]
       split_ifs <;>
         simp [finalize_calibration_current_state, finalize_calibration_presence_output])
  | reset_to_defaults =>
    simp [Command.apply, reset_to_defaults, presence_matches_state, publish_change_reason,
      publish_reason, publish_state]
  | _ => exact h

theorem run_presence_matches_state (w : Nat) (cmds : List Command) :
    ∀ e : BedPresenceEngine, presence_matches_state e → presence_matches_state (run w e cmds) := by
  induction cmds with
  | nil => intro e h; exact h
  | cons c cs ih =>
    intro e h
    exact ih _ (apply_presence_matches_state w e c h)

theorem setup_presence_matches_state (e : BedPresenceEngine) :
    presence_matches_state (setup e) := by
  simp [setup, presence_matches_state, publish_change_reason, publish_reason, publish_state]

/-- C1: a freshly constructed engine and every engine just set up is in `IDLE` with
presence false, and in every state reached from `setup` by any sequence of ticks,
setters, calibration start/stop commands and `reset_to_defaults` the published
presence is true exactly when the state is `PRESENT` or `DEBOUNCING_OFF`, and false
exactly when it is `IDLE` or `DEBOUNCING_ON`. -/
theorem presence_output_iff_state (w : Nat) (e0 : BedPresenceEngine) (cmds : List Command) :
    (BedPresenceEngine.init.current_state_ = State.IDLE ∧
      BedPresenceEngine.init.presence_output = false) ∧
    ((setup e0).current_state_ = State.IDLE ∧ (setup e0).presence_output = false) ∧
    ((run w (setup e0) cmds).presence_output = true ↔
      ((run w (setup e0) cmds).current_state_ = State.PRESENT ∨
        (run w (setup e0) cmds).current_state_ = State.DEBOUNCING_OFF)) ∧
    ((run w (setup e0) cmds).presence_output = false ↔
      ((run w (setup e0) cmds).current_state_ = State.IDLE ∨
        (run w (setup e0) cmds).current_state_ = State.DEBOUNCING_ON)) := by
  have h := run_presence_matches_state w cmds (setup e0) (setup_presence_matches_state e0)
  unfold presence_matches_state at h
  refine ⟨⟨rfl, rfl⟩, ⟨rfl, rfl⟩, h, ?_⟩
  cases hst : (run w (setup e0) cmds).current_state_ <;>
    cases hp : (run w (setup e0) cmds).presence_output <;> simp_all

/-- C2: `calculate_z_score energy mu sigma` is `(energy - mu) / sigma` whenever
`sigma > 0.001`, and `0` whenever `sigma ≤ 0.001`, over exact rationals. -/
theorem calculate_z_score_spec (energy mu sigma : ℚ) :
    (sigma > 1 / 1000 → calculate_z_score energy mu sigma = (energy - mu) / sigma) ∧
    (sigma ≤ 1 / 1000 → calculate_z_score energy mu sigma = 0) := by
  unfold calculate_z_score
  constructor
  · intro h
    rw [if_neg (not_le.mpr h)]
  · intro h
    rw [if_pos h]

theorem calculate_z_score_spec_witness :
    ((20 : ℚ) > 1 / 1000 ∧ calculate_z_score 185 100 20 = (185 - 100) / 20) ∧
    ((0 : ℚ) ≤ 1 / 1000 ∧ calculate_z_score 1000 100 0 = 0) :=
  ⟨⟨by norm_num, (calculate_z_score_spec 185 100 20).1 (by norm_num)⟩,
   ⟨by norm_num, (calculate_z_score_spec 1000 100 0).2 (by norm_num)⟩⟩

/-! ## Single steps of the state machine -/

theorem usub_self (w now : Nat) : usub w now now = 0 := by
  unfold usub
  have hpos : 0 < 2 ^ w := Nat.two_pow_pos w
  have hlt : now % 2 ^ w < 2 ^ w := Nat.mod_lt _ hpos
  have hdm : 2 ^ w * (now / 2 ^ w) + now % 2 ^ w = now := Nat.div_add_mod now (2 ^ w)
  have hrw : now + (2 ^ w - now % 2 ^ w) = 2 ^ w * (now / 2 ^ w + 1) := by
    rw [Nat.mul_add, Nat.mul_one]
    omega
  rw [hrw]
  exact Nat.mul_mod_right _ _

theorem usub_eq_sub (w a b : Nat) (hba : b ≤ a) (ha : a < 2 ^ w) : usub w a b = a - b := by
  unfold usub
  have hb : b % 2 ^ w = b := Nat.mod_eq_of_lt (lt_of_le_of_lt hba ha)
  rw [hb]
  have hrw : a + (2 ^ w - b) = (a - b) + 2 ^ w := by omega
  rw [hrw, Nat.add_mod_right]
  exact Nat.mod_eq_of_lt (by omega)

/-- C3: the turn-on path.  From `IDLE` (presence false) a tick at `t1` whose score is
at least `k_on` yields `DEBOUNCING_ON` with presence false and
`debounce_start_time_ = t1`, nothing else changed; a following tick at `t2` whose
score is at least `k_on` yields `PRESENT` with presence true and
`last_high_confidence_time_ = t2` when the unsigned difference `t2 - t1` is at least
`on_debounce_ms_`, and otherwise leaves the whole engine unchanged, in
`DEBOUNCING_ON` with presence false. -/
theorem turn_on_path (w : Nat) (e : BedPresenceEngine) (energy1 energy2 : ℚ) (t1 t2 : Nat)
    (hidle : e.current_state_ = State.IDLE) (hpres : e.presence_output = false)
    (hz1 : calculate_z_score energy1 e.mu_still_ e.sigma_still_ ≥ e.k_on_)
    (hz2 : calculate_z_score energy2 e.mu_still_ e.sigma_still_ ≥ e.k_on_) :
    (process_energy_reading w e energy1 t1 =
        { e with debounce_start_time_ := t1, current_state_ := State.DEBOUNCING_ON } ∧
      (process_energy_reading w e energy1 t1).current_state_ = State.DEBOUNCING_ON ∧
      (process_energy_reading w e energy1 t1).presence_output = false ∧
      (process_energy_reading w e energy1 t1).debounce_start_time_ = t1) ∧
    (usub w t2 t1 ≥ e.on_debounce_ms_ →
      (process_energy_reading w (process_energy_reading w e energy1 t1) energy2 t2).current_state_
          = State.PRESENT ∧
      (process_energy_reading w (process_energy_reading w e energy1 t1) energy2 t2).presence_output
          = true ∧
      (process_energy_reading w (process_energy_reading w e energy1 t1) energy2
          t2).last_high_confidence_time_ = t2) ∧
    (¬ usub w t2 t1 ≥ e.on_debounce_ms_ →
      process_energy_reading w (process_energy_reading w e energy1 t1) energy2 t2
          = process_energy_reading w e energy1 t1 ∧
      (process_energy_reading w (process_energy_reading w e energy1 t1) energy2 t2).current_state_
          = State.DEBOUNCING_ON ∧
      (process_energy_reading w (process_energy_reading w e energy1 t1) energy2 t2).presence_output
          = false) := by
  have h1 : process_energy_reading w e energy1 t1 =
      { e with debounce_start_time_ := t1, current_state_ := State.DEBOUNCING_ON } := by
    simp only [process_energy_reading, hidle]
    rw [if_pos hz1]
  rw [h1]
  refine ⟨⟨rfl, rfl, hpres, rfl⟩, ?_, ?_⟩
  · intro ht
    simp only [process_energy_reading]
    rw [if_pos hz2, if_pos ht]
    exact ⟨rfl, rfl, rfl⟩
  · intro ht
    simp only [process_energy_reading]
    rw [if_pos hz2, if_neg ht]
    exact ⟨rfl, rfl, hpres⟩

/-- C4: abort-on.  In `DEBOUNCING_ON` (presence false) a tick whose score is below
`k_on` yields `IDLE`, whatever the time: only `current_state_` changes, presence
stays false and nothing is appended to either reason log. -/
theorem abort_on (w : Nat) (e : BedPresenceEngine) (energy : ℚ) (now : Nat)
    (hst : e.current_state_ = State.DEBOUNCING_ON) (hpres : e.presence_output = false)
    (hz : calculate_z_score energy e.mu_still_ e.sigma_still_ < e.k_on_) :
    process_energy_reading w e energy now = { e with current_state_ := State.IDLE } ∧
    (process_energy_reading w e energy now).current_state_ = State.IDLE ∧
    (process_energy_reading w e energy now).presence_output = false ∧
    (process_energy_reading w e energy now).state_reason_log = e.state_reason_log ∧
    (process_energy_reading w e energy now).change_reason_log = e.change_reason_log := by
  have h1 : process_energy_reading w e energy now = { e with current_state_ := State.IDLE } := by
    simp only [process_energy_reading, hst]
    rw [if_neg (not_le.mpr hz)]
  rw [h1]
  exact ⟨rfl, rfl, hpres, rfl, rfl⟩

/-- C5: the absolute-clear safeguard.  In `PRESENT` (presence true), when the unsigned
difference `now - last_high_confidence_time_` is below `abs_clear_delay_ms_`, a tick
with any score leaves the state `PRESENT` and presence true. -/
theorem abs_clear_delay_blocks (w : Nat) (e : BedPresenceEngine) (energy : ℚ) (now : Nat)
    (hst : e.current_state_ = State.PRESENT) (hpres : e.presence_output = true)
    (ht : usub w now e.last_high_confidence_time_ < e.abs_clear_delay_ms_) :
    (process_energy_reading w e energy now).current_state_ = State.PRESENT ∧
    (process_energy_reading w e energy now).presence_output = true := by
  have hpos : 0 < e.abs_clear_delay_ms_ := lt_of_le_of_lt (Nat.zero_le _) ht
  simp only [process_energy_reading, hst]
  by_cases hhi : calculate_z_score energy e.mu_still_ e.sigma_still_ > e.k_on_
  · rw [if_pos hhi]
    simp only [usub_self]
    rw [if_neg (by omega : ¬ (0 ≥ e.abs_clear_delay_ms_))]
    split_ifs <;> exact ⟨rfl, hpres⟩
  · rw [if_neg hhi, if_neg (not_le.mpr ht)]
    split_ifs <;> exact ⟨hst, hpres⟩

theorem SimplePresenceEngine_present_eq :
    SimplePresenceEngine_present =
      { SimplePresenceEngine with
        current_state_ := State.PRESENT, last_high_confidence_time_ := 3000,
        presence_output := true,
        state_reason_log := [Reason.on (17 / 4) 3000],
        change_reason_log := ["on:threshold_exceeded"] } := by
  norm_num [SimplePresenceEngine_present, SimplePresenceEngine, run, Command.apply, loop,
    handle_calibration_sample, process_energy_reading, calculate_z_score,
    publish_change_reason, publish_reason, publish_state, usub, BedPresenceEngine.init]

theorem SimplePresenceEngine_debouncing_off_eq :
    SimplePresenceEngine_debouncing_off =
      { SimplePresenceEngine_present with
        current_state_ := State.DEBOUNCING_OFF, debounce_start_time_ := 33000 } := by
  rw [SimplePresenceEngine_debouncing_off, SimplePresenceEngine_present_eq]
  norm_num [SimplePresenceEngine, run, Command.apply, loop,
    handle_calibration_sample, process_energy_reading, calculate_z_score,
    publish_change_reason, publish_reason, publish_state, usub, BedPresenceEngine.init]

theorem turn_on_path_witness :
    (process_energy_reading 32 SimplePresenceEngine 185 0).current_state_
        = State.DEBOUNCING_ON ∧
    (process_energy_reading 32 (process_energy_reading 32 SimplePresenceEngine 185 0) 185
        3000).current_state_ = State.PRESENT ∧
    (process_energy_reading 32 (process_energy_reading 32 SimplePresenceEngine 185 0) 185
        2000).current_state_ = State.DEBOUNCING_ON :=
  ⟨(turn_on_path 32 SimplePresenceEngine 185 185 0 3000 rfl rfl
      (by norm_num [calculate_z_score, SimplePresenceEngine])
      (by norm_num [calculate_z_score, SimplePresenceEngine])).1.2.1,
   ((turn_on_path 32 SimplePresenceEngine 185 185 0 3000 rfl rfl
      (by norm_num [calculate_z_score, SimplePresenceEngine])
      (by norm_num [calculate_z_score, SimplePresenceEngine])).2.1 (by decide)).1,
   ((turn_on_path 32 SimplePresenceEngine 185 185 0 2000 rfl rfl
      (by norm_num [calculate_z_score, SimplePresenceEngine])
      (by norm_num [calculate_z_score, SimplePresenceEngine])).2.2 (by decide)).2.1⟩

theorem abort_on_witness :
    (process_energy_reading 32
        { SimplePresenceEngine with current_state_ := State.DEBOUNCING_ON } 135
        2000).current_state_ = State.IDLE :=
  (abort_on 32 { SimplePresenceEngine with current_state_ := State.DEBOUNCING_ON } 135 2000
    rfl rfl (by norm_num [calculate_z_score, SimplePresenceEngine])).2.1

theorem abs_clear_delay_blocks_witness :
    (process_energy_reading 32 SimplePresenceEngine_present 135 13000).current_state_
        = State.PRESENT ∧
    (process_energy_reading 32 SimplePresenceEngine_present 135 13000).presence_output = true :=
  abs_clear_delay_blocks 32 SimplePresenceEngine_present 135 13000
    (by rw [SimplePresenceEngine_present_eq])
    (by rw [SimplePresenceEngine_present_eq])
    (by rw [SimplePresenceEngine_present_eq]; decide)

/-- C6: the turn-off path, under `k_on > k_off`.  In `PRESENT` (presence true) a tick at
`t1` whose score is below `k_off`, with the unsigned difference
`t1 - last_high_confidence_time_` at least `abs_clear_delay_ms_`, yields
`DEBOUNCING_OFF` with presence true and `debounce_start_time_ = t1`, nothing else
changed; a following tick at `t2` whose score is below `k_off` yields `IDLE` with
presence false when the unsigned difference `t2 - t1` is at least `off_debounce_ms_`,
and otherwise leaves the whole engine unchanged, in `DEBOUNCING_OFF` with presence
true. -/
theorem turn_off_path (w : Nat) (e : BedPresenceEngine) (energy1 energy2 : ℚ) (t1 t2 : Nat)
    (hconv : e.k_on_ > e.k_off_)
    (hst : e.current_state_ = State.PRESENT) (hpres : e.presence_output = true)
    (hz1 : calculate_z_score energy1 e.mu_still_ e.sigma_still_ < e.k_off_)
    (ht1 : usub w t1 e.last_high_confidence_time_ ≥ e.abs_clear_delay_ms_)
    (hz2 : calculate_z_score energy2 e.mu_still_ e.sigma_still_ < e.k_off_) :
    (process_energy_reading w e energy1 t1 =
        { e with debounce_start_time_ := t1, current_state_ := State.DEBOUNCING_OFF } ∧
      (process_energy_reading w e energy1 t1).current_state_ = State.DEBOUNCING_OFF ∧
      (process_energy_reading w e energy1 t1).presence_output = true ∧
      (process_energy_reading w e energy1 t1).debounce_start_time_ = t1) ∧
    (usub w t2 t1 ≥ e.off_debounce_ms_ →
      (process_energy_reading w (process_energy_reading w e energy1 t1) energy2 t2).current_state_
          = State.IDLE ∧
      (process_energy_reading w (process_energy_reading w e energy1 t1) energy2 t2).presence_output
          = false) ∧
    (¬ usub w t2 t1 ≥ e.off_debounce_ms_ →
      process_energy_reading w (process_energy_reading w e energy1 t1) energy2 t2
          = process_energy_reading w e energy1 t1 ∧
      (process_energy_reading w (process_energy_reading w e energy1 t1) energy2 t2).current_state_
          = State.DEBOUNCING_OFF ∧
      (process_energy_reading w (process_energy_reading w e energy1 t1) energy2 t2).presence_output
          = true) := by
  have hlow : ¬ calculate_z_score energy1 e.mu_still_ e.sigma_still_ > e.k_on_ :=
    not_lt.mpr (le_of_lt (lt_trans hz1 hconv))
  have h1 : process_energy_reading w e energy1 t1 =
      { e with debounce_start_time_ := t1, current_state_ := State.DEBOUNCING_OFF } := by
    simp only [process_energy_reading, hst]
    rw [if_neg hlow, if_pos hz1, if_pos ht1]
  rw [h1]
  refine ⟨⟨rfl, rfl, hpres, rfl⟩, ?_, ?_⟩
  · intro ht
    simp only [process_energy_reading]
    rw [if_pos hz2, if_pos ht]
    exact ⟨rfl, rfl⟩
  · intro ht
    simp only [process_energy_reading]
    rw [if_pos hz2, if_neg ht]
    exact ⟨rfl, rfl, hpres⟩

theorem turn_off_path_witness :
    (process_energy_reading 32 SimplePresenceEngine_present 135 33000).current_state_
        = State.DEBOUNCING_OFF ∧
    (process_energy_reading 32 (process_energy_reading 32 SimplePresenceEngine_present 135 33000)
        135 38000).current_state_ = State.IDLE ∧
    (process_energy_reading 32 (process_energy_reading 32 SimplePresenceEngine_present 135 33000)
        135 36000).current_state_ = State.DEBOUNCING_OFF :=
  ⟨(turn_off_path 32 SimplePresenceEngine_present 135 135 33000 38000
      (by rw [SimplePresenceEngine_present_eq]; norm_num [SimplePresenceEngine])
      (by rw [SimplePresenceEngine_present_eq])
      (by rw [SimplePresenceEngine_present_eq])
      (by rw [SimplePresenceEngine_present_eq]; norm_num [calculate_z_score, SimplePresenceEngine])
      (by rw [SimplePresenceEngine_present_eq]; decide)
      (by rw [SimplePresenceEngine_present_eq];
          norm_num [calculate_z_score, SimplePresenceEngine])).1.2.1,
   ((turn_off_path 32 SimplePresenceEngine_present 135 135 33000 38000
      (by rw [SimplePresenceEngine_present_eq]; norm_num [SimplePresenceEngine])
      (by rw [SimplePresenceEngine_present_eq])
      (by rw [SimplePresenceEngine_present_eq])
      (by rw [SimplePresenceEngine_present_eq]; norm_num [calculate_z_score, SimplePresenceEngine])
      (by rw [SimplePresenceEngine_present_eq]; decide)
      (by rw [SimplePresenceEngine_present_eq];
          norm_num [calculate_z_score, SimplePresenceEngine])).2.1
      (by rw [SimplePresenceEngine_present_eq]; decide)).1,
   ((turn_off_path 32 SimplePresenceEngine_present 135 135 33000 36000
      (by rw [SimplePresenceEngine_present_eq]; norm_num [SimplePresenceEngine])
      (by rw [SimplePresenceEngine_present_eq])
      (by rw [SimplePresenceEngine_present_eq])
      (by rw [SimplePresenceEngine_present_eq]; norm_num [calculate_z_score, SimplePresenceEngine])
      (by rw [SimplePresenceEngine_present_eq]; decide)
      (by rw [SimplePresenceEngine_present_eq];
          norm_num [calculate_z_score, SimplePresenceEngine])).2.2
      (by rw [SimplePresenceEngine_present_eq]; decide)).2.1⟩

/-- C7, as stated, fails: with the thresholds set to `k_on = 1 < k_off = 5`, the engine
`misconfigured_debouncing_off` (reached from `setup` by two setter calls and three
ticks) is in `DEBOUNCING_OFF`, the next tick at `t = 38000` scores `z = 1 ≥ k_on`,
and it moves the machine to `IDLE` with presence false instead of `PRESENT`, leaving
`last_high_confidence_time_` at `3000`. -/
theorem abort_off_counterexample :
    misconfigured_debouncing_off.current_state_ = State.DEBOUNCING_OFF ∧
    misconfigured_debouncing_off.presence_output = true ∧
    calculate_z_score (51 / 5) misconfigured_debouncing_off.mu_still_
        misconfigured_debouncing_off.sigma_still_ ≥ misconfigured_debouncing_off.k_on_ ∧
    (process_energy_reading 32 misconfigured_debouncing_off (51 / 5) 38000).current_state_
        = State.IDLE ∧
    (process_energy_reading 32 misconfigured_debouncing_off (51 / 5) 38000).presence_output
        = false ∧
    (process_energy_reading 32 misconfigured_debouncing_off (51 / 5)
        38000).last_high_confidence_time_ = 3000 := by
  norm_num [misconfigured_debouncing_off, run, Command.apply, loop, handle_calibration_sample,
    process_energy_reading, calculate_z_score, setup, publish_change_reason, publish_reason,
    publish_state, update_k_on, update_k_off, usub, BedPresenceEngine.init]

/-- C7, amended: abort-off.  In `DEBOUNCING_OFF` (presence true) a tick whose score is
at least `k_on` and not below `k_off` yields `PRESENT` with presence true and
`last_high_confidence_time_ = now`, whatever the time and the timers; nothing else
changes.  The second condition on the score follows from the first whenever
`k_on ≥ k_off`. -/
theorem abort_off (w : Nat) (e : BedPresenceEngine) (energy : ℚ) (now : Nat)
    (hst : e.current_state_ = State.DEBOUNCING_OFF) (hpres : e.presence_output = true)
    (hz : calculate_z_score energy e.mu_still_ e.sigma_still_ ≥ e.k_on_)
    (hz_off : calculate_z_score energy e.mu_still_ e.sigma_still_ ≥ e.k_off_) :
    process_energy_reading w e energy now =
      { e with current_state_ := State.PRESENT, last_high_confidence_time_ := now } ∧
    (process_energy_reading w e energy now).current_state_ = State.PRESENT ∧
    (process_energy_reading w e energy now).presence_output = true ∧
    (process_energy_reading w e energy now).last_high_confidence_time_ = now := by
  have h1 : process_energy_reading w e energy now =
      { e with current_state_ := State.PRESENT, last_high_confidence_time_ := now } := by
    simp only [process_energy_reading, hst]
    rw [if_neg (not_lt.mpr hz_off), if_pos hz]
  rw [h1]
  exact ⟨rfl, rfl, hpres, rfl⟩

theorem abort_off_witness :
    (process_energy_reading 32 SimplePresenceEngine_debouncing_off 185 36000).current_state_
        = State.PRESENT ∧
    (process_energy_reading 32 SimplePresenceEngine_debouncing_off 185 36000).presence_output
        = true ∧
    (process_energy_reading 32 SimplePresenceEngine_debouncing_off 185
        36000).last_high_confidence_time_ = 36000 :=
  (abort_off 32 SimplePresenceEngine_debouncing_off 185 36000
    (by rw [SimplePresenceEngine_debouncing_off_eq])
    (by rw [SimplePresenceEngine_debouncing_off_eq, SimplePresenceEngine_present_eq])
    (by rw [SimplePresenceEngine_debouncing_off_eq, SimplePresenceEngine_present_eq]
        norm_num [calculate_z_score, SimplePresenceEngine])
    (by rw [SimplePresenceEngine_debouncing_off_eq, SimplePresenceEngine_present_eq]
        norm_num [calculate_z_score, SimplePresenceEngine])).2

/-! ## Order statistics and the median -/

theorem nth_element_perm (values : List ℚ) (n : Nat) : (nth_element values n).Perm values :=
  List.perm_insertionSort _ values

theorem nth_element_sorted (values : List ℚ) (n : Nat) :
    (nth_element values n).Sorted (fun a b => a ≤ b) :=
  List.sorted_insertionSort _ values

theorem nth_element_length (values : List ℚ) (n : Nat) :
    (nth_element values n).length = values.length :=
  (nth_element_perm values n).length_eq

theorem isOrderStatistic_of_sorted :
    ∀ l : List ℚ, l.Sorted (fun a b => a ≤ b) → ∀ k : Nat, k < l.length →
      IsOrderStatistic l k (l.getD k 0) := by
  intro l
  induction l with
  | nil => intro _ k hk; simp at hk
  | cons a l ih =>
    intro hs k hk
    have hal : ∀ b ∈ l, a ≤ b := (List.sorted_cons.mp hs).1
    have hsl : l.Sorted (fun a b => a ≤ b) := (List.sorted_cons.mp hs).2
    cases k with
    | zero =>
      have hzero : List.countP (fun x => decide (x < a)) l = 0 := by
        rw [List.countP_eq_zero]
        intro b hb
        simpa using hal b hb
      refine ⟨by simp, ?_, ?_⟩
      · simp [List.countP_cons, hzero]
      · simp [List.countP_cons]
    | succ k =>
      have hk1 : k < l.length := by simpa using hk
      obtain ⟨hmem, hlo, hhi⟩ := ih hsl k hk1
      have hav : a ≤ l.getD k 0 := hal _ hmem
      refine ⟨?_, ?_, ?_⟩
      · simpa using Or.inr hmem
      · rw [List.getD_cons_succ, List.countP_cons]
        split_ifs <;> omega
      · rw [List.getD_cons_succ, List.countP_cons]
        simp only [decide_eq_true_eq, hav, if_true]
        omega

theorem IsOrderStatistic.perm {s t : List ℚ} {k : Nat} {v : ℚ} (hp : s.Perm t)
    (h : IsOrderStatistic s k v) : IsOrderStatistic t k v := by
  obtain ⟨hmem, hlo, hhi⟩ := h
  refine ⟨hp.mem_iff.mp hmem, ?_, ?_⟩
  · rw [← hp.countP_eq]; exact hlo
  · rw [← hp.countP_eq]; exact hhi

theorem IsOrderStatistic.le {s : List ℚ} {k : Nat} {u v : ℚ}
    (hu : IsOrderStatistic s k u) (hv : IsOrderStatistic s k v) : u ≤ v := by
  by_contra hlt
  have hvu : v < u := not_le.mp hlt
  have hmono : List.countP (fun x => decide (x ≤ v)) s ≤
      List.countP (fun x => decide (x < u)) s := by
    apply List.countP_mono_left
    intro x _ hx
    simp only [decide_eq_true_eq] at hx ⊢
    exact lt_of_le_of_lt hx hvu
  have h1 := hu.2.1
  have h2 := hv.2.2
  omega

theorem IsOrderStatistic.unique {s : List ℚ} {k : Nat} {u v : ℚ}
    (hu : IsOrderStatistic s k u) (hv : IsOrderStatistic s k v) : u = v :=
  le_antisymm (hu.le hv) (hv.le hu)

theorem spec_order_statistic_eq {s : List ℚ} {k : Nat} {v : ℚ}
    (h : IsOrderStatistic s k v) : spec_order_statistic s k = v := by
  unfold spec_order_statistic
  cases hf : s.find? (fun v => decide (s.countP (fun x => decide (x < v)) ≤ k ∧
      k < s.countP (fun x => decide (x ≤ v)))) with
  | none =>
    rw [List.find?_eq_none] at hf
    have := hf v h.1
    simp only [decide_eq_true_eq, not_and] at this
    exact absurd h.2.2 (this h.2.1)
  | some u =>
    have hu_mem : u ∈ s := List.mem_of_find?_eq_some hf
    have hu_p := List.find?_some hf
    simp only [decide_eq_true_eq] at hu_p
    have hu : IsOrderStatistic s k u := ⟨hu_mem, hu_p.1, hu_p.2⟩
    simpa using hu.unique h

theorem getD_eq_spec_order_statistic {l s : List ℚ} (hp : l.Perm s)
    (hs : l.Sorted (fun a b => a ≤ b)) {k : Nat} (hk : k < s.length) :
    l.getD k 0 = spec_order_statistic s k := by
  have hk1 : k < l.length := by rw [hp.length_eq]; exact hk
  exact (spec_order_statistic_eq ((isOrderStatistic_of_sorted l hs k hk1).perm hp)).symm

theorem compute_median_eq_spec_median (values : List ℚ) (hne : values ≠ []) :
    compute_median values = spec_median values := by
  have hpos : 0 < values.length := List.length_pos.mpr hne
  have hmid : values.length / 2 < values.length := Nat.div_lt_self hpos (by decide)
  have hempty : values.isEmpty = false := by
    cases values with
    | nil => exact absurd rfl hne
    | cons a l => rfl
  have h1 : (nth_element values (values.length / 2)).getD (values.length / 2) 0 =
      spec_order_statistic values (values.length / 2) :=
    getD_eq_spec_order_statistic (nth_element_perm _ _) (nth_element_sorted _ _) hmid
  have h2 : (nth_element (nth_element values (values.length / 2))
        (values.length / 2 - 1)).getD (values.length / 2 - 1) 0 =
      spec_order_statistic values (values.length / 2 - 1) :=
    getD_eq_spec_order_statistic
      ((nth_element_perm _ _).trans (nth_element_perm _ _)) (nth_element_sorted _ _)
      (by omega)
  simp only [compute_median, spec_median, hempty, h1, h2]
  rcases Nat.mod_two_eq_zero_or_one values.length with hpar | hpar
  · simp [hpar, add_comm]
  · simp [hpar]

/-! ## Finalizing and starting a calibration -/

theorem floor_eq_max (x : ℚ) : (if x < 5 / 100 then (5 / 100 : ℚ) else x) = max x (5 / 100) := by
  by_cases h : x < 5 / 100
  · rw [if_pos h, max_eq_right (le_of_lt h)]
  · rw [if_neg h, max_eq_left (not_lt.mp h)]

theorem finalize_calibration_mu_still (e : BedPresenceEngine) (hact : e.calibrating_ = true)
    (hne : e.calibration_samples_ ≠ []) :
    (finalize_calibration e).mu_still_ = compute_median e.calibration_samples_ := by
  simp [finalize_calibration, publish_change_reason, publish_reason, hact, hne]

theorem finalize_calibration_sigma_still (e : BedPresenceEngine) (hact : e.calibrating_ = true)
    (hne : e.calibration_samples_ ≠ []) :
    (finalize_calibration e).sigma_still_ =
      max (compute_median (e.calibration_samples_.map
        (fun x => |x - compute_median e.calibration_samples_|)) * (14826 / 10000)) (5 / 100) := by
  rw [← floor_eq_max]
  simp [finalize_calibration, publish_change_reason, publish_reason, hact, hne]

/-- C8: finalizing an active calibration with a non-empty sample buffer `s` clears
`calibrating_` and the buffer and overwrites the baseline with the mean `median(s)`
and the spread `max(1.4826 * median(|s_i - median(s)|), 0.05)`, the median being the
middle order statistic for an odd count and the average of the two central order
statistics for an even count.  For the samples `[120, 110, 130, 800]` the mean is
`125`, the median absolute deviation `10` and the spread `14.826`. -/
theorem finalize_calibration_baseline (e : BedPresenceEngine)
    (hact : e.calibrating_ = true) (hne : e.calibration_samples_ ≠ []) :
    (finalize_calibration e).calibrating_ = false ∧
    (finalize_calibration e).calibration_samples_ = [] ∧
    (finalize_calibration e).mu_still_ = spec_median e.calibration_samples_ ∧
    (finalize_calibration e).sigma_still_ = spec_spread e.calibration_samples_ ∧
    (e.calibration_samples_ = [120, 110, 130, 800] →
      (finalize_calibration e).mu_still_ = 125 ∧
      spec_mad e.calibration_samples_ = 10 ∧
      (finalize_calibration e).sigma_still_ = 14826 / 1000) := by
  have hdev : e.calibration_samples_.map
      (fun x => |x - compute_median e.calibration_samples_|) ≠ [] := by
    simpa using hne
  have hmu := finalize_calibration_mu_still e hact hne
  have hsig := finalize_calibration_sigma_still e hact hne
  have hmad : compute_median (e.calibration_samples_.map
        (fun x => |x - compute_median e.calibration_samples_|)) =
      spec_mad e.calibration_samples_ := by
    rw [compute_median_eq_spec_median _ hdev, compute_median_eq_spec_median _ hne]
    rfl
  refine ⟨?_, ?_, ?_, ?_, ?_⟩
  · simp [finalize_calibration, publish_change_reason, publish_reason, hact, hne]
  · simp [finalize_calibration, publish_change_reason, publish_reason, hact, hne]
  · rw [hmu, compute_median_eq_spec_median _ hne]
  · rw [hsig, hmad]
    rfl
  · intro hs
    have hm : compute_median e.calibration_samples_ = 125 := by
      rw [hs]
      simp [compute_median, nth_element]
      norm_num
    have hd : compute_median (e.calibration_samples_.map
        (fun x => |x - compute_median e.calibration_samples_|)) = 10 := by
      rw [hm, hs]
      norm_num [compute_median, nth_element, abs_of_nonneg, abs_of_neg]
    refine ⟨by rw [hmu, hm], by rw [← hmad, hd], ?_⟩
    rw [hsig, hd]
    norm_num

theorem finalize_calibration_baseline_witness :
    (finalize_calibration
      { SimplePresenceEngine with
        calibrating_ := true, calibration_samples_ := [120, 110, 130, 800] }).mu_still_ = 125 ∧
    (finalize_calibration
      { SimplePresenceEngine with
        calibrating_ := true, calibration_samples_ := [120, 110, 130, 800] }).sigma_still_
      = 14826 / 1000 :=
  ⟨((finalize_calibration_baseline
      { SimplePresenceEngine with
        calibrating_ := true, calibration_samples_ := [120, 110, 130, 800] }
      rfl (by simp)).2.2.2.2 rfl).1,
   ((finalize_calibration_baseline
      { SimplePresenceEngine with
        calibrating_ := true, calibration_samples_ := [120, 110, 130, 800] }
      rfl (by simp)).2.2.2.2 rfl).2.2⟩

/-- C9: finalizing an active calibration whose sample buffer is empty clears
`calibrating_`, publishes the failure reason and the change reason
`calibration:insufficient_samples`, and leaves the baseline and every other field
as it was. -/
theorem finalize_calibration_no_samples (e : BedPresenceEngine)
    (hact : e.calibrating_ = true) (hemp : e.calibration_samples_ = []) :
    finalize_calibration e =
      { e with
        calibrating_ := false,
        state_reason_log := e.state_reason_log ++ [Reason.text "Calibration failed: no samples"],
        change_reason_log := e.change_reason_log ++ ["calibration:insufficient_samples"] } ∧
    (finalize_calibration e).calibrating_ = false ∧
    (finalize_calibration e).mu_still_ = e.mu_still_ ∧
    (finalize_calibration e).sigma_still_ = e.sigma_still_ ∧
    (finalize_calibration e).change_reason_log.getLast? =
      some "calibration:insufficient_samples" := by
  have h1 : finalize_calibration e =
      { e with
        calibrating_ := false,
        state_reason_log := e.state_reason_log ++ [Reason.text "Calibration failed: no samples"],
        change_reason_log := e.change_reason_log ++ ["calibration:insufficient_samples"] } := by
    simp [finalize_calibration, publish_change_reason, publish_reason, hact, hemp]
  rw [h1]
  refine ⟨rfl, rfl, rfl, rfl, ?_⟩
  simp

theorem finalize_calibration_no_samples_witness :
    (finalize_calibration { SimplePresenceEngine with calibrating_ := true }).calibrating_
        = false ∧
    (finalize_calibration { SimplePresenceEngine with calibrating_ := true }).mu_still_ = 100 ∧
    (finalize_calibration { SimplePresenceEngine with calibrating_ := true }).sigma_still_ = 20 :=
  ⟨(finalize_calibration_no_samples { SimplePresenceEngine with calibrating_ := true }
      rfl rfl).2.1,
   (finalize_calibration_no_samples { SimplePresenceEngine with calibrating_ := true }
      rfl rfl).2.2.1,
   (finalize_calibration_no_samples { SimplePresenceEngine with calibrating_ := true }
      rfl rfl).2.2.2.1⟩

/-- C10: `start_baseline_calibration` with a duration of `0` is rejected: from every
engine state and at every time it returns the engine unchanged in every field, so no
session is created and nothing is appended to either reason log. -/
theorem start_baseline_calibration_zero (w : Nat) (e : BedPresenceEngine) (now : Nat) :
    start_baseline_calibration w e 0 now = e := by
  simp [start_baseline_calibration]

theorem finalize_calibration_calibrating (e : BedPresenceEngine) :
    (finalize_calibration e).calibrating_ = false := by
  simp only [finalize_calibration, publish_change_reason, publish_reason]
  split_ifs with h1
  · simpa using h1
  all_goals rfl

theorem finalize_calibration_of_not_calibrating (e : BedPresenceEngine)
    (h : e.calibrating_ = false) : finalize_calibration e = e := by
  simp [finalize_calibration, h]

/-- C11: for every positive duration, every prior engine state and every clock value,
`start_baseline_calibration` sets `calibrating_`, empties the sample buffer and sets
the deadline to `now + 1000 * min(duration_s, 600)` in the unsigned arithmetic of the
clock, which is the plain sum whenever that sum does not wrap; it appends the two
start reasons and leaves every other field (baseline, thresholds, timers, distance
window, state machine, presence) unchanged. -/
theorem start_baseline_calibration_pos (w : Nat) (e : BedPresenceEngine) (duration_s now : Nat)
    (hpos : 0 < duration_s) :
    start_baseline_calibration w e duration_s now =
      { e with
        calibrating_ := true,
        calibration_samples_ := [],
        calibration_end_time_ := uadd w now (min duration_s 600 * 1000),
        state_reason_log := e.state_reason_log ++ [Reason.text "Calibration started"],
        change_reason_log := e.change_reason_log ++ ["calibration:started"] } ∧
    (start_baseline_calibration w e duration_s now).calibrating_ = true ∧
    (start_baseline_calibration w e duration_s now).calibration_samples_ = [] ∧
    (now + 1000 * min duration_s 600 < 2 ^ w →
      (start_baseline_calibration w e duration_s now).calibration_end_time_ =
        now + 1000 * min duration_s 600) := by
  have h1 : start_baseline_calibration w e duration_s now =
      { e with
        calibrating_ := true,
        calibration_samples_ := [],
        calibration_end_time_ := uadd w now (min duration_s 600 * 1000),
        state_reason_log := e.state_reason_log ++ [Reason.text "Calibration started"],
        change_reason_log := e.change_reason_log ++ ["calibration:started"] } := by
    simp only [start_baseline_calibration, publish_change_reason, publish_reason]
    rw [if_neg (by omega)]
  rw [h1]
  refine ⟨rfl, rfl, rfl, ?_⟩
  intro hlt
  show uadd w now (min duration_s 600 * 1000) = now + 1000 * min duration_s 600
  unfold uadd
  rw [Nat.mul_comm (min duration_s 600) 1000]
  exact Nat.mod_eq_of_lt hlt

theorem start_baseline_calibration_pos_witness :
    (start_baseline_calibration 32 SimplePresenceEngine 2 1000).calibrating_ = true ∧
    (start_baseline_calibration 32 SimplePresenceEngine 2 1000).calibration_end_time_ = 3000 ∧
    (start_baseline_calibration 32 SimplePresenceEngine 900 1000).calibration_end_time_
      = 601000 :=
  ⟨(start_baseline_calibration_pos 32 SimplePresenceEngine 2 1000 (by decide)).2.1,
   (start_baseline_calibration_pos 32 SimplePresenceEngine 2 1000 (by decide)).2.2.2
     (by decide),
   (start_baseline_calibration_pos 32 SimplePresenceEngine 900 1000 (by decide)).2.2.2
     (by decide)⟩

/-- C12: `stop_baseline_calibration` with no calibration active returns the engine
unchanged, so a stop after a stop or after any finalize is a no-op; with a
calibration active its result is that of `finalize_calibration`, whatever the sample
count and the deadline, and `calibrating_` is false afterwards. -/
theorem stop_baseline_calibration_spec (e : BedPresenceEngine) :
    (e.calibrating_ = false → stop_baseline_calibration e = e) ∧
    (e.calibrating_ = true →
      stop_baseline_calibration e = finalize_calibration e ∧
      (stop_baseline_calibration e).calibrating_ = false) ∧
    stop_baseline_calibration (stop_baseline_calibration e) = stop_baseline_calibration e ∧
    stop_baseline_calibration (finalize_calibration e) = finalize_calibration e := by
  have hstop : ∀ x : BedPresenceEngine, stop_baseline_calibration x = finalize_calibration x := by
    intro x
    unfold stop_baseline_calibration
    cases hx : x.calibrating_
    · simp [finalize_calibration_of_not_calibrating x hx]
    · simp
  have hidem : ∀ x : BedPresenceEngine,
      finalize_calibration (finalize_calibration x) = finalize_calibration x := fun x =>
    finalize_calibration_of_not_calibrating _ (finalize_calibration_calibrating x)
  refine ⟨?_, ?_, ?_, ?_⟩
  · intro h
    rw [hstop, finalize_calibration_of_not_calibrating e h]
  · intro _
    exact ⟨hstop e, by rw [hstop]; exact finalize_calibration_calibrating e⟩
  · rw [hstop, hstop, hidem]
  · rw [hstop, hidem]

theorem stop_baseline_calibration_spec_witness :
    stop_baseline_calibration SimplePresenceEngine = SimplePresenceEngine ∧
    (stop_baseline_calibration
      { SimplePresenceEngine with
        calibrating_ := true, calibration_samples_ := [120, 110, 130, 800] }).calibrating_
      = false :=
  ⟨(stop_baseline_calibration_spec SimplePresenceEngine).1 rfl,
   ((stop_baseline_calibration_spec
      { SimplePresenceEngine with
        calibrating_ := true, calibration_samples_ := [120, 110, 130, 800] }).2.1 rfl).2⟩

/-! ## More frame lemmas -/

theorem finalize_calibration_k_on_ (e : BedPresenceEngine) :
    (finalize_calibration e).k_on_ = e.k_on_ := by
  simp only [finalize_calibration, publish_change_reason, publish_reason]
  split_ifs <;> rfl

theorem loop_deadline_check_k_on_ (e : BedPresenceEngine) (now : Nat) :
    (loop_deadline_check e now).k_on_ = e.k_on_ := by
  unfold loop_deadline_check
  split_ifs
  · exact finalize_calibration_k_on_ e
  · rfl

theorem handle_calibration_sample_k_on_ (e : BedPresenceEngine) (energy : ℚ) (now : Nat) :
    (handle_calibration_sample e energy now).k_on_ = e.k_on_ := by
  simp only [handle_calibration_sample]
  split_ifs <;> simp [finalize_calibration_k_on_]

theorem finalize_calibration_k_off_ (e : BedPresenceEngine) :
    (finalize_calibration e).k_off_ = e.k_off_ := by
  simp only [finalize_calibration, publish_change_reason, publish_reason]
  split_ifs <;> rfl

theorem loop_deadline_check_k_off_ (e : BedPresenceEngine) (now : Nat) :
    (loop_deadline_check e now).k_off_ = e.k_off_ := by
  unfold loop_deadline_check
  split_ifs
  · exact finalize_calibration_k_off_ e
  · rfl

theorem handle_calibration_sample_k_off_ (e : BedPresenceEngine) (energy : ℚ) (now : Nat) :
    (handle_calibration_sample e energy now).k_off_ = e.k_off_ := by
  simp only [handle_calibration_sample]
  split_ifs <;> simp [finalize_calibration_k_off_]

theorem finalize_calibration_d_min_cm_ (e : BedPresenceEngine) :
    (finalize_calibration e).d_min_cm_ = e.d_min_cm_ := by
  simp only [finalize_calibration, publish_change_reason, publish_reason]
  split_ifs <;> rfl

theorem loop_deadline_check_d_min_cm_ (e : BedPresenceEngine) (now : Nat) :
    (loop_deadline_check e now).d_min_cm_ = e.d_min_cm_ := by
  unfold loop_deadline_check
  split_ifs
  · exact finalize_calibration_d_min_cm_ e
  · rfl

theorem handle_calibration_sample_d_min_cm_ (e : BedPresenceEngine) (energy : ℚ) (now : Nat) :
    (handle_calibration_sample e energy now).d_min_cm_ = e.d_min_cm_ := by
  simp only [handle_calibration_sample]
  split_ifs <;> simp [finalize_calibration_d_min_cm_]

theorem finalize_calibration_d_max_cm_ (e : BedPresenceEngine) :
    (finalize_calibration e).d_max_cm_ = e.d_max_cm_ := by
  simp only [finalize_calibration, publish_change_reason, publish_reason]
  split_ifs <;> rfl

theorem loop_deadline_check_d_max_cm_ (e : BedPresenceEngine) (now : Nat) :
    (loop_deadline_check e now).d_max_cm_ = e.d_max_cm_ := by
  unfold loop_deadline_check
  split_ifs
  · exact finalize_calibration_d_max_cm_ e
  · rfl

theorem handle_calibration_sample_d_max_cm_ (e : BedPresenceEngine) (energy : ℚ) (now : Nat) :
    (handle_calibration_sample e energy now).d_max_cm_ = e.d_max_cm_ := by
  simp only [handle_calibration_sample]
  split_ifs <;> simp [finalize_calibration_d_max_cm_]

theorem finalize_calibration_debounce_start_time_ (e : BedPresenceEngine) :
    (finalize_calibration e).debounce_start_time_ = e.debounce_start_time_ := by
  simp only [finalize_calibration, publish_change_reason, publish_reason]
  split_ifs <;> rfl

theorem loop_deadline_check_debounce_start_time_ (e : BedPresenceEngine) (now : Nat) :
    (loop_deadline_check e now).debounce_start_time_ = e.debounce_start_time_ := by
  unfold loop_deadline_check
  split_ifs
  · exact finalize_calibration_debounce_start_time_ e
  · rfl

theorem handle_calibration_sample_debounce_start_time_ (e : BedPresenceEngine) (energy : ℚ) (now : Nat) :
    (handle_calibration_sample e energy now).debounce_start_time_ = e.debounce_start_time_ := by
  simp only [handle_calibration_sample]
  split_ifs <;> simp [finalize_calibration_debounce_start_time_]

theorem finalize_calibration_last_high_confidence_time_ (e : BedPresenceEngine) :
    (finalize_calibration e).last_high_confidence_time_ = e.last_high_confidence_time_ := by
  simp only [finalize_calibration, publish_change_reason, publish_reason]
  split_ifs <;> rfl

theorem loop_deadline_check_last_high_confidence_time_ (e : BedPresenceEngine) (now : Nat) :
    (loop_deadline_check e now).last_high_confidence_time_ = e.last_high_confidence_time_ := by
  unfold loop_deadline_check
  split_ifs
  · exact finalize_calibration_last_high_confidence_time_ e
  · rfl

theorem handle_calibration_sample_last_high_confidence_time_ (e : BedPresenceEngine) (energy : ℚ) (now : Nat) :
    (handle_calibration_sample e energy now).last_high_confidence_time_ = e.last_high_confidence_time_ := by
  simp only [handle_calibration_sample]
  split_ifs <;> simp [finalize_calibration_last_high_confidence_time_]

theorem finalize_calibration_on_debounce_ms_ (e : BedPresenceEngine) :
    (finalize_calibration e).on_debounce_ms_ = e.on_debounce_ms_ := by
  simp only [finalize_calibration, publish_change_reason, publish_reason]
  split_ifs <;> rfl

theorem loop_deadline_check_on_debounce_ms_ (e : BedPresenceEngine) (now : Nat) :
    (loop_deadline_check e now).on_debounce_ms_ = e.on_debounce_ms_ := by
  unfold loop_deadline_check
  split_ifs
  · exact finalize_calibration_on_debounce_ms_ e
  · rfl

theorem handle_calibration_sample_on_debounce_ms_ (e : BedPresenceEngine) (energy : ℚ) (now : Nat) :
    (handle_calibration_sample e energy now).on_debounce_ms_ = e.on_debounce_ms_ := by
  simp only [handle_calibration_sample]
  split_ifs <;> simp [finalize_calibration_on_debounce_ms_]

theorem finalize_calibration_off_debounce_ms_ (e : BedPresenceEngine) :
    (finalize_calibration e).off_debounce_ms_ = e.off_debounce_ms_ := by
  simp only [finalize_calibration, publish_change_reason, publish_reason]
  split_ifs <;> rfl

theorem loop_deadline_check_off_debounce_ms_ (e : BedPresenceEngine) (now : Nat) :
    (loop_deadline_check e now).off_debounce_ms_ = e.off_debounce_ms_ := by
  unfold loop_deadline_check
  split_ifs
  · exact finalize_calibration_off_debounce_ms_ e
  · rfl

theorem handle_calibration_sample_off_debounce_ms_ (e : BedPresenceEngine) (energy : ℚ) (now : Nat) :
    (handle_calibration_sample e energy now).off_debounce_ms_ = e.off_debounce_ms_ := by
  simp only [handle_calibration_sample]
  split_ifs <;> simp [finalize_calibration_off_debounce_ms_]

theorem finalize_calibration_abs_clear_delay_ms_ (e : BedPresenceEngine) :
    (finalize_calibration e).abs_clear_delay_ms_ = e.abs_clear_delay_ms_ := by
  simp only [finalize_calibration, publish_change_reason, publish_reason]
  split_ifs <;> rfl

theorem loop_deadline_check_abs_clear_delay_ms_ (e : BedPresenceEngine) (now : Nat) :
    (loop_deadline_check e now).abs_clear_delay_ms_ = e.abs_clear_delay_ms_ := by
  unfold loop_deadline_check
  split_ifs
  · exact finalize_calibration_abs_clear_delay_ms_ e
  · rfl

theorem handle_calibration_sample_abs_clear_delay_ms_ (e : BedPresenceEngine) (energy : ℚ) (now : Nat) :
    (handle_calibration_sample e energy now).abs_clear_delay_ms_ = e.abs_clear_delay_ms_ := by
  simp only [handle_calibration_sample]
  split_ifs <;> simp [finalize_calibration_abs_clear_delay_ms_]

theorem finalize_calibration_calibration_end_time_ (e : BedPresenceEngine) :
    (finalize_calibration e).calibration_end_time_ = e.calibration_end_time_ := by
  simp only [finalize_calibration, publish_change_reason, publish_reason]
  split_ifs <;> rfl

theorem loop_deadline_check_calibration_end_time_ (e : BedPresenceEngine) (now : Nat) :
    (loop_deadline_check e now).calibration_end_time_ = e.calibration_end_time_ := by
  unfold loop_deadline_check
  split_ifs
  · exact finalize_calibration_calibration_end_time_ e
  · rfl

theorem handle_calibration_sample_calibration_end_time_ (e : BedPresenceEngine) (energy : ℚ) (now : Nat) :
    (handle_calibration_sample e energy now).calibration_end_time_ = e.calibration_end_time_ := by
  simp only [handle_calibration_sample]
  split_ifs <;> simp [finalize_calibration_calibration_end_time_]

theorem finalize_calibration_mu_stat_ (e : BedPresenceEngine) :
    (finalize_calibration e).mu_stat_ = e.mu_stat_ := by
  simp only [finalize_calibration, publish_change_reason, publish_reason]
  split_ifs <;> rfl

theorem loop_deadline_check_mu_stat_ (e : BedPresenceEngine) (now : Nat) :
    (loop_deadline_check e now).mu_stat_ = e.mu_stat_ := by
  unfold loop_deadline_check
  split_ifs
  · exact finalize_calibration_mu_stat_ e
  · rfl

theorem handle_calibration_sample_mu_stat_ (e : BedPresenceEngine) (energy : ℚ) (now : Nat) :
    (handle_calibration_sample e energy now).mu_stat_ = e.mu_stat_ := by
  simp only [handle_calibration_sample]
  split_ifs <;> simp [finalize_calibration_mu_stat_]

theorem finalize_calibration_sigma_stat_ (e : BedPresenceEngine) :
    (finalize_calibration e).sigma_stat_ = e.sigma_stat_ := by
  simp only [finalize_calibration, publish_change_reason, publish_reason]
  split_ifs <;> rfl

theorem loop_deadline_check_sigma_stat_ (e : BedPresenceEngine) (now : Nat) :
    (loop_deadline_check e now).sigma_stat_ = e.sigma_stat_ := by
  unfold loop_deadline_check
  split_ifs
  · exact finalize_calibration_sigma_stat_ e
  · rfl

theorem handle_calibration_sample_sigma_stat_ (e : BedPresenceEngine) (energy : ℚ) (now : Nat) :
    (handle_calibration_sample e energy now).sigma_stat_ = e.sigma_stat_ := by
  simp only [handle_calibration_sample]
  split_ifs <;> simp [finalize_calibration_sigma_stat_]

theorem loop_deadline_check_current_state (e : BedPresenceEngine) (now : Nat) :
    (loop_deadline_check e now).current_state_ = e.current_state_ := by
  unfold loop_deadline_check
  split_ifs
  · exact finalize_calibration_current_state e
  · rfl

theorem loop_deadline_check_presence_output (e : BedPresenceEngine) (now : Nat) :
    (loop_deadline_check e now).presence_output = e.presence_output := by
  unfold loop_deadline_check
  split_ifs
  · exact finalize_calibration_presence_output e
  · rfl

theorem process_energy_reading_mu_still_ (w : Nat) (e : BedPresenceEngine) (energy : ℚ)
    (now : Nat) : (process_energy_reading w e energy now).mu_still_ = e.mu_still_ := by
  unfold process_energy_reading
  cases e.current_state_ <;> simp only [] <;> split_ifs <;> rfl

theorem process_energy_reading_sigma_still_ (w : Nat) (e : BedPresenceEngine) (energy : ℚ)
    (now : Nat) : (process_energy_reading w e energy now).sigma_still_ = e.sigma_still_ := by
  unfold process_energy_reading
  cases e.current_state_ <;> simp only [] <;> split_ifs <;> rfl

theorem process_energy_reading_mu_stat_ (w : Nat) (e : BedPresenceEngine) (energy : ℚ)
    (now : Nat) : (process_energy_reading w e energy now).mu_stat_ = e.mu_stat_ := by
  unfold process_energy_reading
  cases e.current_state_ <;> simp only [] <;> split_ifs <;> rfl

theorem process_energy_reading_sigma_stat_ (w : Nat) (e : BedPresenceEngine) (energy : ℚ)
    (now : Nat) : (process_energy_reading w e energy now).sigma_stat_ = e.sigma_stat_ := by
  unfold process_energy_reading
  cases e.current_state_ <;> simp only [] <;> split_ifs <;> rfl

theorem process_energy_reading_k_on_ (w : Nat) (e : BedPresenceEngine) (energy : ℚ)
    (now : Nat) : (process_energy_reading w e energy now).k_on_ = e.k_on_ := by
  unfold process_energy_reading
  cases e.current_state_ <;> simp only [] <;> split_ifs <;> rfl

theorem process_energy_reading_k_off_ (w : Nat) (e : BedPresenceEngine) (energy : ℚ)
    (now : Nat) : (process_energy_reading w e energy now).k_off_ = e.k_off_ := by
  unfold process_energy_reading
  cases e.current_state_ <;> simp only [] <;> split_ifs <;> rfl

theorem process_energy_reading_d_min_cm_ (w : Nat) (e : BedPresenceEngine) (energy : ℚ)
    (now : Nat) : (process_energy_reading w e energy now).d_min_cm_ = e.d_min_cm_ := by
  unfold process_energy_reading
  cases e.current_state_ <;> simp only [] <;> split_ifs <;> rfl

theorem process_energy_reading_d_max_cm_ (w : Nat) (e : BedPresenceEngine) (energy : ℚ)
    (now : Nat) : (process_energy_reading w e energy now).d_max_cm_ = e.d_max_cm_ := by
  unfold process_energy_reading
  cases e.current_state_ <;> simp only [] <;> split_ifs <;> rfl

theorem process_energy_reading_on_debounce_ms_ (w : Nat) (e : BedPresenceEngine) (energy : ℚ)
    (now : Nat) : (process_energy_reading w e energy now).on_debounce_ms_ = e.on_debounce_ms_ := by
  unfold process_energy_reading
  cases e.current_state_ <;> simp only [] <;> split_ifs <;> rfl

theorem process_energy_reading_off_debounce_ms_ (w : Nat) (e : BedPresenceEngine) (energy : ℚ)
    (now : Nat) : (process_energy_reading w e energy now).off_debounce_ms_ = e.off_debounce_ms_ := by
  unfold process_energy_reading
  cases e.current_state_ <;> simp only [] <;> split_ifs <;> rfl

theorem process_energy_reading_abs_clear_delay_ms_ (w : Nat) (e : BedPresenceEngine) (energy : ℚ)
    (now : Nat) : (process_energy_reading w e energy now).abs_clear_delay_ms_ = e.abs_clear_delay_ms_ := by
  unfold process_energy_reading
  cases e.current_state_ <;> simp only [] <;> split_ifs <;> rfl

theorem process_energy_reading_calibrating_ (w : Nat) (e : BedPresenceEngine) (energy : ℚ)
    (now : Nat) : (process_energy_reading w e energy now).calibrating_ = e.calibrating_ := by
  unfold process_energy_reading
  cases e.current_state_ <;> simp only [] <;> split_ifs <;> rfl

theorem process_energy_reading_calibration_end_time_ (w : Nat) (e : BedPresenceEngine) (energy : ℚ)
    (now : Nat) : (process_energy_reading w e energy now).calibration_end_time_ = e.calibration_end_time_ := by
  unfold process_energy_reading
  cases e.current_state_ <;> simp only [] <;> split_ifs <;> rfl

theorem process_energy_reading_calibration_samples_ (w : Nat) (e : BedPresenceEngine) (energy : ℚ)
    (now : Nat) : (process_energy_reading w e energy now).calibration_samples_ = e.calibration_samples_ := by
  unfold process_energy_reading
  cases e.current_state_ <;> simp only [] <;> split_ifs <;> rfl

theorem loop_none (w : Nat) (e : BedPresenceEngine) (distance : Option ℚ) (now : Nat) :
    loop w e none distance now = loop_deadline_check e now := rfl

theorem loop_some_none (w : Nat) (e : BedPresenceEngine) (en : ℚ) (now : Nat) :
    loop w e (some en) none now =
      process_energy_reading w
        (handle_calibration_sample (loop_deadline_check e now) en now) en now := rfl

theorem loop_some_some (w : Nat) (e : BedPresenceEngine) (en d : ℚ) (now : Nat) :
    loop w e (some en) (some d) now =
      if d < e.d_min_cm_ ∨ d > e.d_max_cm_ then loop_deadline_check e now
      else process_energy_reading w
        (handle_calibration_sample (loop_deadline_check e now) en now) en now := by
  rw [← loop_deadline_check_d_min_cm_ e now, ← loop_deadline_check_d_max_cm_ e now]
  rfl

theorem loop_deadline_check_of_not_due (e : BedPresenceEngine) (now : Nat)
    (h : ¬ (e.calibrating_ = true ∧ now ≥ e.calibration_end_time_)) :
    loop_deadline_check e now = e := by
  unfold loop_deadline_check
  rw [if_neg]
  simpa using h

/-! ## Ticks, the distance gate and the capacity limit -/

theorem finalize_calibration_spec_baseline (e : BedPresenceEngine)
    (hact : e.calibrating_ = true) (hne : e.calibration_samples_ ≠ []) :
    (finalize_calibration e).calibration_samples_ = [] ∧
    (finalize_calibration e).mu_still_ = spec_median e.calibration_samples_ ∧
    (finalize_calibration e).sigma_still_ = spec_spread e.calibration_samples_ := by
  have hdev : e.calibration_samples_.map
      (fun x => |x - compute_median e.calibration_samples_|) ≠ [] := by
    simpa using hne
  refine ⟨?_, ?_, ?_⟩
  · simp [finalize_calibration, publish_change_reason, publish_reason, hact, hne]
  · rw [finalize_calibration_mu_still e hact hne, compute_median_eq_spec_median _ hne]
  · rw [finalize_calibration_sigma_still e hact hne, compute_median_eq_spec_median _ hdev,
      compute_median_eq_spec_median _ hne]
    rfl

theorem handle_calibration_sample_full (e : BedPresenceEngine) (en : ℚ) (now : Nat)
    (hact : e.calibrating_ = true)
    (hfull : e.calibration_samples_.length = MAX_CALIBRATION_SAMPLES) :
    handle_calibration_sample (loop_deadline_check e now) en now = finalize_calibration e := by
  unfold loop_deadline_check
  split_ifs with hdue
  · simp [handle_calibration_sample, finalize_calibration_calibrating]
  · simp [handle_calibration_sample, hact, hfull]

theorem handle_calibration_sample_append (e : BedPresenceEngine) (en : ℚ) (now : Nat)
    (hact : e.calibrating_ = true)
    (hlt : e.calibration_samples_.length < MAX_CALIBRATION_SAMPLES)
    (hdl : now < e.calibration_end_time_) :
    handle_calibration_sample e en now =
      { e with calibration_samples_ := e.calibration_samples_ ++ [en] } := by
  have h1 : ¬ e.calibration_samples_.length ≥ MAX_CALIBRATION_SAMPLES := by omega
  have h2 : ¬ now ≥ e.calibration_end_time_ := by omega
  simp only [handle_calibration_sample, hact, h1, h2]
  simp

theorem calibration_almost_full_length :
    calibration_almost_full.calibration_samples_.length = 4095 :=
  List.length_replicate 4095 (50 : ℚ)

theorem calibration_overdue_eq :
    calibration_overdue =
      { SimplePresenceEngine with
        current_state_ := State.DEBOUNCING_ON, debounce_start_time_ := 400,
        calibrating_ := true, calibration_end_time_ := 1000,
        calibration_samples_ := [120, 110, 130, 800],
        state_reason_log := [Reason.text "Initial state: IDLE", Reason.text "Calibration started"],
        change_reason_log := ["idle:init", "calibration:started"] } := by
  norm_num [calibration_overdue, SimplePresenceEngine, run, Command.apply, loop, setup,
    start_baseline_calibration, uadd, MAX_CALIBRATION_SAMPLES,
    handle_calibration_sample, process_energy_reading, calculate_z_score,
    publish_change_reason, publish_reason, publish_state, usub, BedPresenceEngine.init]

/-- C13, as stated, fails: with an active calibration holding 4095 samples and the
deadline not reached, the admitted tick whose sample brings the buffer to 4096
entries does not finalize: afterwards the calibration is still active, the buffer
holds 4096 samples and the baseline mean is still `100`, not the median `50` of the
samples. -/
theorem capacity_early_exit_counterexample :
    calibration_almost_full.calibrating_ = true ∧
    calibration_almost_full.calibration_samples_.length + 1 = MAX_CALIBRATION_SAMPLES ∧
    0 < calibration_almost_full.calibration_end_time_ ∧
    (loop 32 calibration_almost_full (some 50) none 0).calibration_samples_.length
      = MAX_CALIBRATION_SAMPLES ∧
    (loop 32 calibration_almost_full (some 50) none 0).calibrating_ = true ∧
    (loop 32 calibration_almost_full (some 50) none 0).mu_still_ = 100 := by
  have hnd : loop_deadline_check calibration_almost_full 0 = calibration_almost_full :=
    loop_deadline_check_of_not_due _ _ (fun h => absurd h.2 (by decide))
  have hstep : handle_calibration_sample (loop_deadline_check calibration_almost_full 0) 50 0 =
      { calibration_almost_full with
        calibration_samples_ := calibration_almost_full.calibration_samples_ ++ [50] } := by
    rw [hnd]
    exact handle_calibration_sample_append _ _ _ rfl
      (by rw [calibration_almost_full_length]; decide) (by decide)
  refine ⟨rfl, ?_, by decide, ?_, ?_, ?_⟩
  · rw [calibration_almost_full_length]
    rfl
  · rw [loop_some_none, process_energy_reading_calibration_samples_, hstep]
    show (calibration_almost_full.calibration_samples_ ++ [50]).length = 4096
    rw [List.length_append, calibration_almost_full_length]
    rfl
  · rw [loop_some_none, process_energy_reading_calibrating_, hstep]
    rfl
  · rw [loop_some_none, process_energy_reading_mu_still_, hstep]
    rfl

/-- C13, amended: with a calibration active, an admitted tick that finds the buffer
already holding 4096 samples finalizes the calibration in that tick, whatever the
deadline, without recording its own sample: afterwards `calibrating_` is false, the
buffer is empty and the baseline is the median/MAD baseline of the 4096 buffered
samples.  An admitted tick whose sample brings the buffer to 4096 entries before the
deadline only appends its sample: the calibration stays active and the baseline is
unchanged. -/
theorem capacity_early_exit (w : Nat) (e : BedPresenceEngine) (en : ℚ) (distance : Option ℚ)
    (now : Nat) (hact : e.calibrating_ = true)
    (hadm : spec_admits distance e.d_min_cm_ e.d_max_cm_) :
    (e.calibration_samples_.length = MAX_CALIBRATION_SAMPLES →
      (loop w e (some en) distance now).calibrating_ = false ∧
      (loop w e (some en) distance now).calibration_samples_ = [] ∧
      (loop w e (some en) distance now).mu_still_ = spec_median e.calibration_samples_ ∧
      (loop w e (some en) distance now).sigma_still_ = spec_spread e.calibration_samples_) ∧
    (e.calibration_samples_.length + 1 = MAX_CALIBRATION_SAMPLES →
      now < e.calibration_end_time_ →
      (loop w e (some en) distance now).calibrating_ = true ∧
      (loop w e (some en) distance now).calibration_samples_ = e.calibration_samples_ ++ [en] ∧
      (loop w e (some en) distance now).mu_still_ = e.mu_still_ ∧
      (loop w e (some en) distance now).sigma_still_ = e.sigma_still_) := by
  have hloop : loop w e (some en) distance now =
      process_energy_reading w
        (handle_calibration_sample (loop_deadline_check e now) en now) en now := by
    cases distance with
    | none => rfl
    | some d =>
      rw [loop_some_some, if_neg]
      have h : e.d_min_cm_ ≤ d ∧ d ≤ e.d_max_cm_ := hadm
      exact fun hor => hor.elim (fun h1 => absurd h.1 (not_le.mpr h1))
        (fun h2 => absurd h.2 (not_le.mpr h2))
  rw [hloop]
  simp only [process_energy_reading_calibrating_, process_energy_reading_calibration_samples_,
    process_energy_reading_mu_still_, process_energy_reading_sigma_still_]
  constructor
  · intro hfull
    have hne : e.calibration_samples_ ≠ [] := by
      intro h
      rw [h] at hfull
      simp [MAX_CALIBRATION_SAMPLES] at hfull
    rw [handle_calibration_sample_full e en now hact hfull]
    exact ⟨finalize_calibration_calibrating e, finalize_calibration_spec_baseline e hact hne⟩
  · intro hlen hdl
    have hnd : loop_deadline_check e now = e :=
      loop_deadline_check_of_not_due e now (fun h => absurd h.2 (by omega))
    rw [hnd]
    rw [handle_calibration_sample_append e en now hact (by omega) hdl]
    exact ⟨hact, rfl, rfl, rfl⟩

theorem capacity_early_exit_witness :
    (loop 32
      { calibration_almost_full with calibration_samples_ := List.replicate 4096 50 }
      (some 50) none 0).calibrating_ = false ∧
    (loop 32 calibration_almost_full (some 50) none 0).calibrating_ = true :=
  ⟨((capacity_early_exit 32
      { calibration_almost_full with calibration_samples_ := List.replicate 4096 50 }
      50 none 0 rfl trivial).1 (List.length_replicate 4096 (50 : ℚ))).1,
   ((capacity_early_exit 32 calibration_almost_full 50 none 0 rfl trivial).2
      (by rw [calibration_almost_full_length]; rfl) (by decide)).1⟩

theorem finalize_calibration_overdue_mu_still :
    (finalize_calibration calibration_overdue).mu_still_ = 125 := by
  rw [finalize_calibration_mu_still _ (by rw [calibration_overdue_eq])
    (by rw [calibration_overdue_eq]; simp), calibration_overdue_eq]
  simp [compute_median, nth_element]
  norm_num

theorem loop_deadline_check_overdue :
    loop_deadline_check calibration_overdue 2000 = finalize_calibration calibration_overdue := by
  unfold loop_deadline_check
  rw [if_pos]
  rw [calibration_overdue_eq]
  decide

/-- C14, as stated, fails: `calibration_overdue` (reached from `setup` by a start
command and four ticks) has an active calibration whose deadline `1000` has passed at
`t = 2000`.  A `loop` call at `t = 2000` without an energy reading, and one whose
distance reading `700` lies outside the window `[0, 600]`, both finalize the
calibration: `calibrating_` becomes false and the baseline mean changes from `100`
to `125`. -/
theorem skipped_tick_counterexample :
    (calibration_overdue.calibrating_ = true ∧ calibration_overdue.mu_still_ = 100 ∧
      calibration_overdue.calibration_end_time_ ≤ 2000 ∧
      (700 : ℚ) > calibration_overdue.d_max_cm_) ∧
    ((loop 32 calibration_overdue none none 2000).calibrating_ = false ∧
      (loop 32 calibration_overdue none none 2000).mu_still_ = 125) ∧
    ((loop 32 calibration_overdue (some 185) (some 700) 2000).calibrating_ = false ∧
      (loop 32 calibration_overdue (some 185) (some 700) 2000).mu_still_ = 125) := by
  have hgate : (700 : ℚ) > calibration_overdue.d_max_cm_ := by
    rw [calibration_overdue_eq]
    norm_num [SimplePresenceEngine, BedPresenceEngine.init]
  refine ⟨⟨?_, ?_, ?_, hgate⟩, ⟨?_, ?_⟩, ⟨?_, ?_⟩⟩
  · rw [calibration_overdue_eq]
  · rw [calibration_overdue_eq]
    rfl
  · rw [calibration_overdue_eq]
    decide
  · rw [loop_none, loop_deadline_check_overdue]
    exact finalize_calibration_calibrating _
  · rw [loop_none, loop_deadline_check_overdue]
    exact finalize_calibration_overdue_mu_still
  · rw [loop_some_some, if_pos (Or.inr hgate), loop_deadline_check_overdue]
    exact finalize_calibration_calibrating _
  · rw [loop_some_some, if_pos (Or.inr hgate), loop_deadline_check_overdue]
    exact finalize_calibration_overdue_mu_still

/-- C14, amended: a `loop` call in which no energy reading is available, or in which a
distance reading lies strictly outside `[d_min, d_max]`, does nothing but the deadline
check that opens `loop`: its result is `finalize_calibration e` when a calibration is
active and `now` has reached `calibration_end_time_`, and `e` itself, every field
unchanged, otherwise.  In both cases the state machine, its timestamps, the presence
output, the thresholds, the timers and the distance window are unchanged, and no
sample is recorded. -/
theorem skipped_tick (w : Nat) (e : BedPresenceEngine) (energy distance : Option ℚ) (now : Nat)
    (hskip : energy = none ∨
      ∃ d, distance = some d ∧ (d < e.d_min_cm_ ∨ d > e.d_max_cm_)) :
    loop w e energy distance now =
      (if e.calibrating_ = true ∧ now ≥ e.calibration_end_time_ then finalize_calibration e
        else e) ∧
    (¬ (e.calibrating_ = true ∧ now ≥ e.calibration_end_time_) →
      loop w e energy distance now = e) ∧
    ((loop w e energy distance now).current_state_ = e.current_state_ ∧
      (loop w e energy distance now).debounce_start_time_ = e.debounce_start_time_ ∧
      (loop w e energy distance now).last_high_confidence_time_ = e.last_high_confidence_time_ ∧
      (loop w e energy distance now).presence_output = e.presence_output ∧
      (loop w e energy distance now).k_on_ = e.k_on_ ∧
      (loop w e energy distance now).k_off_ = e.k_off_ ∧
      (loop w e energy distance now).on_debounce_ms_ = e.on_debounce_ms_ ∧
      (loop w e energy distance now).off_debounce_ms_ = e.off_debounce_ms_ ∧
      (loop w e energy distance now).abs_clear_delay_ms_ = e.abs_clear_delay_ms_ ∧
      (loop w e energy distance now).d_min_cm_ = e.d_min_cm_ ∧
      (loop w e energy distance now).d_max_cm_ = e.d_max_cm_) := by
  have hloop : loop w e energy distance now = loop_deadline_check e now := by
    rcases hskip with rfl | ⟨d, rfl, hd⟩
    · rfl
    · cases energy with
      | none => rfl
      | some en => rw [loop_some_some, if_pos hd]
  have hif : loop_deadline_check e now =
      (if e.calibrating_ = true ∧ now ≥ e.calibration_end_time_ then finalize_calibration e
        else e) := by
    unfold loop_deadline_check
    by_cases h : e.calibrating_ = true ∧ now ≥ e.calibration_end_time_
    · rw [if_pos h, if_pos (by simpa using h)]
    · rw [if_neg h, if_neg (by simpa using h)]
  refine ⟨hloop.trans hif, ?_, ?_⟩
  · intro h
    rw [hloop, loop_deadline_check_of_not_due e now h]
  · rw [hloop]
    exact ⟨loop_deadline_check_current_state e now,
      loop_deadline_check_debounce_start_time_ e now,
      loop_deadline_check_last_high_confidence_time_ e now,
      loop_deadline_check_presence_output e now,
      loop_deadline_check_k_on_ e now, loop_deadline_check_k_off_ e now,
      loop_deadline_check_on_debounce_ms_ e now, loop_deadline_check_off_debounce_ms_ e now,
      loop_deadline_check_abs_clear_delay_ms_ e now,
      loop_deadline_check_d_min_cm_ e now, loop_deadline_check_d_max_cm_ e now⟩

theorem skipped_tick_witness :
    loop 32 SimplePresenceEngine (some 185) (some 700) 0 = SimplePresenceEngine ∧
    loop 32 SimplePresenceEngine none none 0 = SimplePresenceEngine :=
  ⟨(skipped_tick 32 SimplePresenceEngine (some 185) (some 700) 0
      (Or.inr ⟨700, rfl, Or.inr (by norm_num [SimplePresenceEngine, BedPresenceEngine.init])⟩)).2.1
      (fun h => absurd h.1 (by decide)),
   (skipped_tick 32 SimplePresenceEngine none none 0 (Or.inl rfl)).2.1
      (fun h => absurd h.1 (by decide))⟩

/-! ## Reset to defaults -/

theorem loop_of_not_calibrating (w : Nat) (e : BedPresenceEngine) (energy distance : Option ℚ)
    (now : Nat) (h : e.calibrating_ = false) :
    loop w e energy distance now =
      match energy with
      | none => e
      | some en =>
        match distance with
        | some d =>
          if d < e.d_min_cm_ ∨ d > e.d_max_cm_ then e else process_energy_reading w e en now
        | none => process_energy_reading w e en now := by
  have h0 : loop_deadline_check e now = e :=
    loop_deadline_check_of_not_due e now (fun hc => by rw [h] at hc; exact absurd hc.1 (by decide))
  have h1 : ∀ en, handle_calibration_sample e en now = e := by
    intro en
    simp [handle_calibration_sample, h]
  cases energy with
  | none => exact h0
  | some en =>
    cases distance with
    | none => rw [loop_some_none, h0, h1]
    | some d => rw [loop_some_some, h0, h1]

theorem process_energy_reading_tick_equivalent (w : Nat) (a b : BedPresenceEngine) (en : ℚ)
    (now : Nat) (h : tick_equivalent a b) :
    tick_equivalent (process_energy_reading w a en now) (process_energy_reading w b en now) := by
  obtain ⟨hmu, hsig, hon, hoff, hdmin, hdmax, hond, hoffd, habs, hca, hcb, hst, hpres, hdst,
    hlhc⟩ := h
  unfold tick_equivalent
  simp only [process_energy_reading_mu_still_, process_energy_reading_sigma_still_,
    process_energy_reading_k_on_, process_energy_reading_k_off_,
    process_energy_reading_d_min_cm_, process_energy_reading_d_max_cm_,
    process_energy_reading_on_debounce_ms_, process_energy_reading_off_debounce_ms_,
    process_energy_reading_abs_clear_delay_ms_, process_energy_reading_calibrating_]
  refine ⟨hmu, hsig, hon, hoff, hdmin, hdmax, hond, hoffd, habs, hca, hcb, ?_⟩
  unfold process_energy_reading
  rw [← hst, ← hmu, ← hsig, ← hon, ← hoff, ← hond, ← hoffd, ← habs]
  cases hs : a.current_state_ <;> simp only [hs] at hdst hlhc ⊢
  · split_ifs <;> simp_all
  · have hd := hdst (Or.inl trivial)
    rw [← hd]
    split_ifs <;> simp_all [publish_change_reason, publish_reason, publish_state]
  · have hl := hlhc trivial
    split_ifs <;> simp_all
    all_goals (exfalso; linarith)
  · have hd := hdst (Or.inr trivial)
    rw [← hd]
    split_ifs <;> simp_all [publish_change_reason, publish_reason, publish_state]

theorem loop_tick_equivalent (w : Nat) (a b : BedPresenceEngine) (t : Tick)
    (h : tick_equivalent a b) :
    tick_equivalent (loop w a t.energy t.distance t.now) (loop w b t.energy t.distance t.now) := by
  have hca : a.calibrating_ = false := h.2.2.2.2.2.2.2.2.2.1
  have hcb : b.calibrating_ = false := h.2.2.2.2.2.2.2.2.2.2.1
  have hdmin : a.d_min_cm_ = b.d_min_cm_ := h.2.2.2.2.1
  have hdmax : a.d_max_cm_ = b.d_max_cm_ := h.2.2.2.2.2.1
  rw [loop_of_not_calibrating w a _ _ _ hca, loop_of_not_calibrating w b _ _ _ hcb]
  cases t.energy with
  | none => exact h
  | some en =>
    cases t.distance with
    | none => exact process_energy_reading_tick_equivalent w a b en t.now h
    | some d =>
      simp only [← hdmin, ← hdmax]
      split_ifs
      · exact h
      · exact process_energy_reading_tick_equivalent w a b en t.now h

theorem run_ticks_tick_equivalent (w : Nat) (ticks : List Tick) :
    ∀ a b : BedPresenceEngine, tick_equivalent a b →
      tick_equivalent (run_ticks w a ticks) (run_ticks w b ticks) := by
  induction ticks with
  | nil => intro a b h; exact h
  | cons t ts ih =>
    intro a b h
    exact ih _ _ (loop_tick_equivalent w a b t h)

theorem reset_to_defaults_tick_equivalent_init (e : BedPresenceEngine) :
    tick_equivalent (reset_to_defaults e) BedPresenceEngine.init := by
  simp [tick_equivalent, reset_to_defaults, BedPresenceEngine.init, publish_change_reason,
    publish_reason, publish_state]

theorem reset_to_defaults_tick_equivalent_setup (e : BedPresenceEngine) :
    tick_equivalent (reset_to_defaults e) (setup BedPresenceEngine.init) := by
  simp [tick_equivalent, reset_to_defaults, setup, BedPresenceEngine.init,
    publish_change_reason, publish_reason, publish_state]

/-- C16: from every engine state `reset_to_defaults` yields mean `6.7`, spread `3.5`,
`k_on = 9`, `k_off = 4`, debounce times `3000` and `5000` ms, absolute clear delay
`30000` ms, distance window `[0, 600]`, no calibration and an empty buffer, state
`IDLE`, presence false and the last change reason `off:reset_to_defaults`; and after
every sequence of ticks the state and the presence output equal those of a freshly
constructed default engine, before or after its `setup`, driven by the same ticks. -/
theorem reset_to_defaults_spec (w : Nat) (e : BedPresenceEngine) (ticks : List Tick) :
    ((reset_to_defaults e).mu_still_ = 67 / 10 ∧ (reset_to_defaults e).sigma_still_ = 35 / 10 ∧
      (reset_to_defaults e).k_on_ = 9 ∧ (reset_to_defaults e).k_off_ = 4 ∧
      (reset_to_defaults e).on_debounce_ms_ = 3000 ∧
      (reset_to_defaults e).off_debounce_ms_ = 5000 ∧
      (reset_to_defaults e).abs_clear_delay_ms_ = 30000 ∧
      (reset_to_defaults e).d_min_cm_ = 0 ∧ (reset_to_defaults e).d_max_cm_ = 600 ∧
      (reset_to_defaults e).calibrating_ = false ∧
      (reset_to_defaults e).calibration_samples_ = [] ∧
      (reset_to_defaults e).current_state_ = State.IDLE ∧
      (reset_to_defaults e).presence_output = false ∧
      (reset_to_defaults e).change_reason_log.getLast? = some "off:reset_to_defaults") ∧
    ((run_ticks w (reset_to_defaults e) ticks).current_state_ =
        (run_ticks w BedPresenceEngine.init ticks).current_state_ ∧
      (run_ticks w (reset_to_defaults e) ticks).presence_output =
        (run_ticks w BedPresenceEngine.init ticks).presence_output) ∧
    ((run_ticks w (reset_to_defaults e) ticks).current_state_ =
        (run_ticks w (setup BedPresenceEngine.init) ticks).current_state_ ∧
      (run_ticks w (reset_to_defaults e) ticks).presence_output =
        (run_ticks w (setup BedPresenceEngine.init) ticks).presence_output) := by
  have h1 := run_ticks_tick_equivalent w ticks _ _ (reset_to_defaults_tick_equivalent_init e)
  have h2 := run_ticks_tick_equivalent w ticks _ _ (reset_to_defaults_tick_equivalent_setup e)
  refine ⟨⟨rfl, rfl, rfl, rfl, rfl, rfl, rfl, rfl, rfl, rfl, rfl, rfl, rfl, ?_⟩,
    ⟨h1.2.2.2.2.2.2.2.2.2.2.2.1, h1.2.2.2.2.2.2.2.2.2.2.2.2.1⟩,
    ⟨h2.2.2.2.2.2.2.2.2.2.2.2.1, h2.2.2.2.2.2.2.2.2.2.2.2.2.1⟩⟩
  simp [reset_to_defaults, publish_change_reason, publish_reason, publish_state]

/-! ## Stable states and the high-confidence timestamp -/

theorem process_readings_append (w : Nat) (e : BedPresenceEngine) (rs : List (ℚ × Nat))
    (r : ℚ × Nat) :
    process_readings w e (rs ++ [r]) =
      process_energy_reading w (process_readings w e rs) r.1 r.2 := by
  simp [process_readings, List.foldl_append]

theorem process_energy_reading_present_high (w : Nat) (e : BedPresenceEngine) (energy : ℚ)
    (now : Nat) (hconv : e.k_on_ > e.k_off_) (hst : e.current_state_ = State.PRESENT)
    (hz : calculate_z_score energy e.mu_still_ e.sigma_still_ ≥ e.k_on_) :
    (process_energy_reading w e energy now).current_state_ = State.PRESENT ∧
    (process_energy_reading w e energy now).presence_output = e.presence_output ∧
    (process_energy_reading w e energy now).state_reason_log = e.state_reason_log ∧
    (process_energy_reading w e energy now).change_reason_log = e.change_reason_log := by
  have hnl : ¬ calculate_z_score energy e.mu_still_ e.sigma_still_ < e.k_off_ :=
    not_lt.mpr (le_of_lt (lt_of_lt_of_le hconv hz))
  simp only [process_energy_reading, hst]
  by_cases hhi : calculate_z_score energy e.mu_still_ e.sigma_still_ > e.k_on_
  · rw [if_pos hhi, if_neg hnl]
    exact ⟨rfl, rfl, rfl, rfl⟩
  · rw [if_neg hhi, if_neg hnl]
    exact ⟨hst, rfl, rfl, rfl⟩

theorem process_energy_reading_idle_low (w : Nat) (e : BedPresenceEngine) (energy : ℚ)
    (now : Nat) (hconv : e.k_on_ > e.k_off_) (hst : e.current_state_ = State.IDLE)
    (hz : calculate_z_score energy e.mu_still_ e.sigma_still_ < e.k_off_) :
    process_energy_reading w e energy now = e := by
  simp only [process_energy_reading, hst]
  exact if_neg (not_le.mpr (lt_trans hz hconv))

theorem process_readings_present_high (w : Nat) (readings : List (ℚ × Nat)) :
    ∀ e : BedPresenceEngine, e.k_on_ > e.k_off_ → e.current_state_ = State.PRESENT →
      (∀ r ∈ readings, calculate_z_score r.1 e.mu_still_ e.sigma_still_ ≥ e.k_on_) →
      (process_readings w e readings).current_state_ = State.PRESENT ∧
      (process_readings w e readings).presence_output = e.presence_output ∧
      (process_readings w e readings).state_reason_log = e.state_reason_log ∧
      (process_readings w e readings).change_reason_log = e.change_reason_log := by
  induction readings with
  | nil => intro e _ hst _; exact ⟨hst, rfl, rfl, rfl⟩
  | cons r rs ih =>
    intro e hconv hst hall
    obtain ⟨h1, h2, h3, h4⟩ := process_energy_reading_present_high w e r.1 r.2 hconv hst
      (hall r (List.mem_cons_self r rs))
    have hstep := ih (process_energy_reading w e r.1 r.2)
      (by rw [process_energy_reading_k_on_, process_energy_reading_k_off_]; exact hconv) h1
      (fun r2 hr2 => by
        rw [process_energy_reading_mu_still_, process_energy_reading_sigma_still_,
          process_energy_reading_k_on_]
        exact hall r2 (List.mem_cons_of_mem r hr2))
    rw [h2, h3, h4] at hstep
    exact hstep

theorem process_readings_idle_low (w : Nat) (readings : List (ℚ × Nat))
    (e : BedPresenceEngine) (hconv : e.k_on_ > e.k_off_) (hst : e.current_state_ = State.IDLE)
    (hall : ∀ r ∈ readings, calculate_z_score r.1 e.mu_still_ e.sigma_still_ < e.k_off_) :
    process_readings w e readings = e := by
  induction readings with
  | nil => rfl
  | cons r rs ih =>
    have h1 : process_energy_reading w e r.1 r.2 = e :=
      process_energy_reading_idle_low w e r.1 r.2 hconv hst (hall r (List.mem_cons_self r rs))
    have h2 : process_readings w e (r :: rs) =
        process_readings w (process_energy_reading w e r.1 r.2) rs := rfl
    rw [h2, h1]
    exact ih (fun r2 hr2 => hall r2 (List.mem_cons_of_mem r hr2))

/-- C18: idempotence of the stable states, under `k_on > k_off`.  From `PRESENT`
(presence true) every sequence of readings whose scores are all at least `k_on`, at
any times, leaves the machine in `PRESENT` with presence true and appends nothing to
either reason log; from `IDLE` (presence false) every sequence of readings whose
scores are all below `k_off` leaves the whole engine unchanged, so it stays in `IDLE`
with presence false and nothing is emitted. -/
theorem stable_states_idempotent (w : Nat) (e : BedPresenceEngine) (readings : List (ℚ × Nat))
    (hconv : e.k_on_ > e.k_off_) :
    (e.current_state_ = State.PRESENT → e.presence_output = true →
      (∀ r ∈ readings, calculate_z_score r.1 e.mu_still_ e.sigma_still_ ≥ e.k_on_) →
      (process_readings w e readings).current_state_ = State.PRESENT ∧
      (process_readings w e readings).presence_output = true ∧
      (process_readings w e readings).state_reason_log = e.state_reason_log ∧
      (process_readings w e readings).change_reason_log = e.change_reason_log) ∧
    (e.current_state_ = State.IDLE → e.presence_output = false →
      (∀ r ∈ readings, calculate_z_score r.1 e.mu_still_ e.sigma_still_ < e.k_off_) →
      process_readings w e readings = e ∧
      (process_readings w e readings).current_state_ = State.IDLE ∧
      (process_readings w e readings).presence_output = false ∧
      (process_readings w e readings).state_reason_log = e.state_reason_log ∧
      (process_readings w e readings).change_reason_log = e.change_reason_log) := by
  constructor
  · intro hst hpres hall
    obtain ⟨h1, h2, h3, h4⟩ := process_readings_present_high w readings e hconv hst hall
    exact ⟨h1, h2.trans hpres, h3, h4⟩
  · intro hst hpres hall
    rw [process_readings_idle_low w readings e hconv hst hall]
    exact ⟨rfl, hst, hpres, rfl, rfl⟩

theorem stable_states_idempotent_witness :
    (process_readings 32 SimplePresenceEngine_present
      [(185, 4000), (180, 5000), (10000, 90000)]).current_state_ = State.PRESENT ∧
    process_readings 32 SimplePresenceEngine [(135, 0), (-40, 10000), (100, 20000)]
      = SimplePresenceEngine :=
  ⟨((stable_states_idempotent 32 SimplePresenceEngine_present
      [(185, 4000), (180, 5000), (10000, 90000)]
      (by rw [SimplePresenceEngine_present_eq]
          norm_num [SimplePresenceEngine, BedPresenceEngine.init])).1
      (by rw [SimplePresenceEngine_present_eq]) (by rw [SimplePresenceEngine_present_eq])
      (by rw [SimplePresenceEngine_present_eq]
          norm_num [calculate_z_score, SimplePresenceEngine, BedPresenceEngine.init])).1,
   ((stable_states_idempotent 32 SimplePresenceEngine
      [(135, 0), (-40, 10000), (100, 20000)]
      (by norm_num [SimplePresenceEngine, BedPresenceEngine.init])).2 rfl rfl
      (by norm_num [calculate_z_score, SimplePresenceEngine, BedPresenceEngine.init])).1⟩

theorem misconfigured_present_eq :
    misconfigured_present =
      { BedPresenceEngine.init with
        k_on_ := 1, k_off_ := 5, abs_clear_delay_ms_ := 0,
        current_state_ := State.PRESENT, last_high_confidence_time_ := 3000,
        presence_output := true,
        state_reason_log := [Reason.text "Initial state: IDLE", Reason.on 2 3000],
        change_reason_log := ["idle:init", "on:threshold_exceeded"] } := by
  norm_num [misconfigured_present, run, Command.apply, loop, setup, update_k_on, update_k_off,
    update_abs_clear_delay_ms, handle_calibration_sample, process_energy_reading,
    calculate_z_score, publish_change_reason, publish_reason, publish_state, usub,
    BedPresenceEngine.init]

/-- C19, as stated, fails: with the thresholds set to `k_on = 1 < k_off = 5` and the
absolute clear delay set to `0`, the engine `misconfigured_present` (reached from
`setup` by three setter calls and two ticks) is in `PRESENT`; a tick at `t = 4000`
scoring `z = 2 > k_on` refreshes `last_high_confidence_time_` and, in the same step,
moves the machine to `DEBOUNCING_OFF`. -/
theorem present_refresh_counterexample :
    misconfigured_present.current_state_ = State.PRESENT ∧
    calculate_z_score (137 / 10) misconfigured_present.mu_still_
        misconfigured_present.sigma_still_ > misconfigured_present.k_on_ ∧
    (process_energy_reading 32 misconfigured_present (137 / 10) 4000).current_state_
        = State.DEBOUNCING_OFF ∧
    (process_energy_reading 32 misconfigured_present (137 / 10)
        4000).last_high_confidence_time_ = 4000 := by
  rw [misconfigured_present_eq]
  norm_num [process_energy_reading, calculate_z_score, usub, BedPresenceEngine.init]

/-- C19, amended: in `PRESENT` (presence true) a tick whose score is strictly above
`k_on` sets `last_high_confidence_time_ = now` and keeps presence true, for every
configuration of thresholds and timers; it leaves the state `PRESENT`, changing
nothing but that timestamp, provided the score is not below `k_off` or
`abs_clear_delay_ms_` is positive, which is the case whenever `k_on ≥ k_off`. -/
theorem present_refresh (w : Nat) (e : BedPresenceEngine) (energy : ℚ) (now : Nat)
    (hst : e.current_state_ = State.PRESENT) (hpres : e.presence_output = true)
    (hz : calculate_z_score energy e.mu_still_ e.sigma_still_ > e.k_on_) :
    (process_energy_reading w e energy now).last_high_confidence_time_ = now ∧
    (process_energy_reading w e energy now).presence_output = true ∧
    (calculate_z_score energy e.mu_still_ e.sigma_still_ ≥ e.k_off_ ∨
        0 < e.abs_clear_delay_ms_ →
      process_energy_reading w e energy now = { e with last_high_confidence_time_ := now } ∧
      (process_energy_reading w e energy now).current_state_ = State.PRESENT) ∧
    (e.k_on_ ≥ e.k_off_ →
      (process_energy_reading w e energy now).current_state_ = State.PRESENT) := by
  have hstay : calculate_z_score energy e.mu_still_ e.sigma_still_ ≥ e.k_off_ ∨
      0 < e.abs_clear_delay_ms_ →
      process_energy_reading w e energy now = { e with last_high_confidence_time_ := now } := by
    intro hor
    simp only [process_energy_reading, hst]
    rw [if_pos hz]
    simp only [usub_self]
    rcases hor with h | h
    · exact if_neg (not_lt.mpr h)
    · rw [if_neg (by omega : ¬ (0 ≥ e.abs_clear_delay_ms_))]
      split_ifs <;> rfl
  refine ⟨?_, ?_, ?_, ?_⟩
  · simp only [process_energy_reading, hst]
    rw [if_pos hz]
    split_ifs <;> rfl
  · simp only [process_energy_reading, hst]
    rw [if_pos hz]
    split_ifs <;> exact hpres
  · intro hor
    rw [hstay hor]
    exact ⟨rfl, hst⟩
  · intro hk
    rw [hstay (Or.inl (le_of_lt (lt_of_le_of_lt hk hz)))]
    exact hst

theorem present_refresh_witness :
    (process_energy_reading 32 SimplePresenceEngine_present 185
        13000).last_high_confidence_time_ = 13000 ∧
    (process_energy_reading 32 SimplePresenceEngine_present 185 13000).current_state_
        = State.PRESENT :=
  ⟨(present_refresh 32 SimplePresenceEngine_present 185 13000
      (by rw [SimplePresenceEngine_present_eq]) (by rw [SimplePresenceEngine_present_eq])
      (by rw [SimplePresenceEngine_present_eq]
          norm_num [calculate_z_score, SimplePresenceEngine, BedPresenceEngine.init])).1,
   (present_refresh 32 SimplePresenceEngine_present 185 13000
      (by rw [SimplePresenceEngine_present_eq]) (by rw [SimplePresenceEngine_present_eq])
      (by rw [SimplePresenceEngine_present_eq]
          norm_num [calculate_z_score, SimplePresenceEngine, BedPresenceEngine.init])).2.2.2
      (by rw [SimplePresenceEngine_present_eq]
          norm_num [SimplePresenceEngine, BedPresenceEngine.init])⟩

/-! ## The minimum hold -/

theorem hold_invariant_mono {e : BedPresenceEngine} {T T2 : Nat} (h : hold_invariant e T)
    (hle : T ≤ T2) : hold_invariant e T2 := by
  refine ⟨fun hs => le_trans (h.1 hs) hle, fun hs => ?_⟩
  obtain ⟨h1, h2, h3⟩ := h.2 hs
  exact ⟨h1, le_trans h2 hle, h3⟩

theorem hold_invariant_congr {a b : BedPresenceEngine} {T : Nat}
    (hs : b.current_state_ = a.current_state_)
    (hd : b.debounce_start_time_ = a.debounce_start_time_)
    (hl : b.last_high_confidence_time_ = a.last_high_confidence_time_)
    (ha : b.abs_clear_delay_ms_ = a.abs_clear_delay_ms_)
    (h : hold_invariant a T) : hold_invariant b T := by
  unfold hold_invariant at *
  rw [hs, hd, hl, ha]
  exact h

theorem process_energy_reading_hold_invariant (w : Nat) (e : BedPresenceEngine) (energy : ℚ)
    (now T : Nat) (h : hold_invariant e T) (hT : T ≤ now) (hnow : now < 2 ^ w) :
    hold_invariant (process_energy_reading w e energy now) now := by
  obtain ⟨hp, hd⟩ := h
  unfold hold_invariant
  unfold process_energy_reading
  cases hst : e.current_state_ <;> simp only [hst] at hp hd ⊢
  · split_ifs <;> simp_all
  · split_ifs <;> simp_all [publish_change_reason, publish_reason, publish_state]
  · have hl : e.last_high_confidence_time_ ≤ now := le_trans (hp trivial) hT
    have hsub : usub w now e.last_high_confidence_time_ = now - e.last_high_confidence_time_ :=
      usub_eq_sub w now _ hl hnow
    split_ifs <;> simp_all [usub_self]
  · obtain ⟨h1, h2, h3⟩ := hd trivial
    have h2b : e.debounce_start_time_ ≤ now := le_trans h2 hT
    split_ifs <;> simp_all [publish_change_reason, publish_reason, publish_state]

theorem process_energy_reading_clears (w : Nat) (e : BedPresenceEngine) (energy : ℚ)
    (now : Nat) (hpres : e.presence_output = true)
    (hclear : (process_energy_reading w e energy now).presence_output = false) :
    e.current_state_ = State.DEBOUNCING_OFF ∧
    usub w now e.debounce_start_time_ ≥ e.off_debounce_ms_ := by
  unfold process_energy_reading at hclear
  cases hst : e.current_state_ <;> simp only [hst] at hclear <;> split_ifs at hclear <;>
    simp_all [publish_change_reason, publish_reason, publish_state]

theorem loop_cases (w : Nat) (e : BedPresenceEngine) (energy distance : Option ℚ) (now : Nat) :
    loop w e energy distance now = loop_deadline_check e now ∨
    ∃ en, loop w e energy distance now =
      process_energy_reading w
        (handle_calibration_sample (loop_deadline_check e now) en now) en now := by
  cases energy with
  | none => exact Or.inl rfl
  | some en =>
    cases distance with
    | none => exact Or.inr ⟨en, rfl⟩
    | some d =>
      rw [loop_some_some]
      split_ifs
      · exact Or.inl rfl
      · exact Or.inr ⟨en, rfl⟩

theorem loop_abs_clear_delay_ms_ (w : Nat) (e : BedPresenceEngine) (energy distance : Option ℚ)
    (now : Nat) : (loop w e energy distance now).abs_clear_delay_ms_ = e.abs_clear_delay_ms_ := by
  rcases loop_cases w e energy distance now with h | ⟨en, h⟩ <;> rw [h]
  · exact loop_deadline_check_abs_clear_delay_ms_ e now
  · rw [process_energy_reading_abs_clear_delay_ms_, handle_calibration_sample_abs_clear_delay_ms_,
      loop_deadline_check_abs_clear_delay_ms_]

theorem loop_off_debounce_ms_ (w : Nat) (e : BedPresenceEngine) (energy distance : Option ℚ)
    (now : Nat) : (loop w e energy distance now).off_debounce_ms_ = e.off_debounce_ms_ := by
  rcases loop_cases w e energy distance now with h | ⟨en, h⟩ <;> rw [h]
  · exact loop_deadline_check_off_debounce_ms_ e now
  · rw [process_energy_reading_off_debounce_ms_, handle_calibration_sample_off_debounce_ms_,
      loop_deadline_check_off_debounce_ms_]

theorem loop_hold_invariant (w : Nat) (e : BedPresenceEngine) (energy distance : Option ℚ)
    (now T : Nat) (h : hold_invariant e T) (hT : T ≤ now) (hnow : now < 2 ^ w) :
    hold_invariant (loop w e energy distance now) now := by
  have h0 : hold_invariant (loop_deadline_check e now) T :=
    hold_invariant_congr (loop_deadline_check_current_state e now)
      (loop_deadline_check_debounce_start_time_ e now)
      (loop_deadline_check_last_high_confidence_time_ e now)
      (loop_deadline_check_abs_clear_delay_ms_ e now) h
  rcases loop_cases w e energy distance now with hl | ⟨en, hl⟩ <;> rw [hl]
  · exact hold_invariant_mono h0 hT
  · exact process_energy_reading_hold_invariant w _ en now T
      (hold_invariant_congr (handle_calibration_sample_current_state _ en now)
        (handle_calibration_sample_debounce_start_time_ _ en now)
        (handle_calibration_sample_last_high_confidence_time_ _ en now)
        (handle_calibration_sample_abs_clear_delay_ms_ _ en now) h0) hT hnow

theorem loop_clears (w : Nat) (e : BedPresenceEngine) (energy distance : Option ℚ)
    (now T : Nat) (h : hold_invariant e T) (hT : T ≤ now) (hnow : now < 2 ^ w)
    (hpres : e.presence_output = true)
    (hclear : (loop w e energy distance now).presence_output = false) :
    e.last_high_confidence_time_ ≤ now ∧
    now - e.last_high_confidence_time_ ≥ e.abs_clear_delay_ms_ + e.off_debounce_ms_ := by
  rcases loop_cases w e energy distance now with hl | ⟨en, hl⟩ <;> rw [hl] at hclear
  · rw [loop_deadline_check_presence_output, hpres] at hclear
    exact absurd hclear (by decide)
  · obtain ⟨hst, ht⟩ := process_energy_reading_clears w _ en now
      (by rw [handle_calibration_sample_presence_output, loop_deadline_check_presence_output]
          exact hpres) hclear
    rw [handle_calibration_sample_current_state, loop_deadline_check_current_state] at hst
    rw [handle_calibration_sample_debounce_start_time_, loop_deadline_check_debounce_start_time_,
      handle_calibration_sample_off_debounce_ms_, loop_deadline_check_off_debounce_ms_] at ht
    obtain ⟨h1, h2, h3⟩ := h.2 hst
    have hsub : usub w now e.debounce_start_time_ = now - e.debounce_start_time_ :=
      usub_eq_sub w now _ (le_trans h2 hT) hnow
    rw [hsub] at ht
    constructor <;> omega

theorem run_ticks_append (w : Nat) (e : BedPresenceEngine) (ticks : List Tick) (t : Tick) :
    run_ticks w e (ticks ++ [t]) =
      loop w (run_ticks w e ticks) t.energy t.distance t.now := by
  simp [run_ticks, List.foldl_append]

theorem run_ticks_hold_invariant (w : Nat) (e0 : BedPresenceEngine)
    (hidle : e0.current_state_ = State.IDLE) (ticks : List Tick) :
    ticks.Pairwise (fun a b => a.now ≤ b.now) → (∀ x ∈ ticks, x.now < 2 ^ w) →
      ∀ T : Nat, (∀ x ∈ ticks, x.now ≤ T) → hold_invariant (run_ticks w e0 ticks) T := by
  induction ticks using List.reverseRecOn with
  | nil =>
    intro _ _ T _
    constructor <;> intro hs <;> rw [show run_ticks w e0 [] = e0 from rfl, hidle] at hs <;>
      exact State.noConfusion hs
  | append_singleton pre t ih =>
    intro hmono hwrap T hT
    rw [List.pairwise_append] at hmono
    obtain ⟨hpre, _, hlast⟩ := hmono
    have hpre_inv : hold_invariant (run_ticks w e0 pre) t.now :=
      ih hpre (fun x hx => hwrap x (List.mem_append_left _ hx)) t.now
        (fun x hx => hlast x hx t (List.mem_singleton_self t))
    rw [run_ticks_append]
    exact hold_invariant_mono
      (loop_hold_invariant w _ t.energy t.distance t.now t.now hpre_inv (le_refl _)
        (hwrap t (List.mem_append_right _ (List.mem_singleton_self t))))
      (hT t (List.mem_append_right _ (List.mem_singleton_self t)))

theorem run_ticks_timers (w : Nat) (ticks : List Tick) :
    ∀ e : BedPresenceEngine,
      (run_ticks w e ticks).abs_clear_delay_ms_ = e.abs_clear_delay_ms_ ∧
      (run_ticks w e ticks).off_debounce_ms_ = e.off_debounce_ms_ := by
  induction ticks with
  | nil => intro e; exact ⟨rfl, rfl⟩
  | cons t ts ih =>
    intro e
    have h := ih (loop w e t.energy t.distance t.now)
    rw [loop_abs_clear_delay_ms_, loop_off_debounce_ms_] at h
    exact h

/-- C20: the minimum hold.  Take any engine in `IDLE`, as it is after construction,
and drive it only by ticks whose times are non-decreasing and below `2 ^ w`; the
timers then keep their configured values.  Whenever the machine is in
`DEBOUNCING_OFF`, `debounce_start_time_` is not before `last_high_confidence_time_`
and exceeds it by at least `abs_clear_delay_ms_`; and at every tick that takes
presence from true to false, the time of the tick exceeds `last_high_confidence_time_`
by at least `abs_clear_delay_ms_ + off_debounce_ms_`. -/
theorem minimum_hold (w : Nat) (e0 : BedPresenceEngine) (ticks : List Tick) (t : Tick)
    (hidle : e0.current_state_ = State.IDLE)
    (hmono : (ticks ++ [t]).Pairwise (fun a b => a.now ≤ b.now))
    (hwrap : ∀ x ∈ ticks ++ [t], x.now < 2 ^ w) :
    ((run_ticks w e0 (ticks ++ [t])).abs_clear_delay_ms_ = e0.abs_clear_delay_ms_ ∧
      (run_ticks w e0 (ticks ++ [t])).off_debounce_ms_ = e0.off_debounce_ms_) ∧
    ((run_ticks w e0 (ticks ++ [t])).current_state_ = State.DEBOUNCING_OFF →
      (run_ticks w e0 (ticks ++ [t])).last_high_confidence_time_ ≤
        (run_ticks w e0 (ticks ++ [t])).debounce_start_time_ ∧
      (run_ticks w e0 (ticks ++ [t])).debounce_start_time_ -
        (run_ticks w e0 (ticks ++ [t])).last_high_confidence_time_ ≥ e0.abs_clear_delay_ms_) ∧
    ((run_ticks w e0 ticks).presence_output = true →
      (run_ticks w e0 (ticks ++ [t])).presence_output = false →
      (run_ticks w e0 ticks).last_high_confidence_time_ ≤ t.now ∧
      t.now - (run_ticks w e0 ticks).last_high_confidence_time_ ≥
        e0.abs_clear_delay_ms_ + e0.off_debounce_ms_) := by
  have hmono2 := hmono
  rw [List.pairwise_append] at hmono2
  obtain ⟨hpre, _, hlast⟩ := hmono2
  have hinv_pre : hold_invariant (run_ticks w e0 ticks) t.now :=
    run_ticks_hold_invariant w e0 hidle ticks hpre
      (fun x hx => hwrap x (List.mem_append_left _ hx)) t.now
      (fun x hx => hlast x hx t (List.mem_singleton_self t))
  have ht : t.now < 2 ^ w := hwrap t (List.mem_append_right _ (List.mem_singleton_self t))
  have hinv : hold_invariant (run_ticks w e0 (ticks ++ [t])) t.now := by
    rw [run_ticks_append]
    exact loop_hold_invariant w _ t.energy t.distance t.now t.now hinv_pre (le_refl _) ht
  refine ⟨run_ticks_timers w (ticks ++ [t]) e0, ?_, ?_⟩
  · intro hs
    obtain ⟨h1, _, h3⟩ := hinv.2 hs
    rw [(run_ticks_timers w (ticks ++ [t]) e0).1] at h3
    exact ⟨h1, h3⟩
  · intro hpres hclear
    rw [run_ticks_append] at hclear
    have h := loop_clears w _ t.energy t.distance t.now t.now hinv_pre (le_refl _) ht hpres hclear
    rw [(run_ticks_timers w ticks e0).1, (run_ticks_timers w ticks e0).2] at h
    exact h

theorem minimum_hold_witness :
    (run_ticks 32 SimplePresenceEngine
      [⟨some 185, none, 0⟩, ⟨some 185, none, 3000⟩, ⟨some 135, none, 33000⟩]).current_state_
        = State.DEBOUNCING_OFF ∧
    (run_ticks 32 SimplePresenceEngine
      [⟨some 185, none, 0⟩, ⟨some 185, none, 3000⟩, ⟨some 135, none, 33000⟩]).debounce_start_time_
      - (run_ticks 32 SimplePresenceEngine
      [⟨some 185, none, 0⟩, ⟨some 185, none, 3000⟩,
        ⟨some 135, none, 33000⟩]).last_high_confidence_time_ ≥ 30000 :=
  have hst : (run_ticks 32 SimplePresenceEngine
      [⟨some 185, none, 0⟩, ⟨some 185, none, 3000⟩, ⟨some 135, none, 33000⟩]).current_state_
        = State.DEBOUNCING_OFF := by
    norm_num [run_ticks, loop, handle_calibration_sample, process_energy_reading,
      calculate_z_score, publish_change_reason, publish_reason, publish_state, usub,
      SimplePresenceEngine, BedPresenceEngine.init]
  ⟨hst,
   ((minimum_hold 32 SimplePresenceEngine
      [⟨some 185, none, 0⟩, ⟨some 185, none, 3000⟩] ⟨some 135, none, 33000⟩ rfl
      (by simp) (by simp)).2.1 hst).2⟩

/-! ## Wraparound of the clock -/

theorem usub_add_mod (w s d : Nat) (hs : s < 2 ^ w) (hd : d < 2 ^ w) :
    usub w ((s + d) % 2 ^ w) s = d := by
  unfold usub
  rw [Nat.mod_eq_of_lt hs]
  by_cases hlt : s + d < 2 ^ w
  · rw [Nat.mod_eq_of_lt hlt]
    have hrw : s + d + (2 ^ w - s) = d + 2 ^ w := by omega
    rw [hrw, Nat.add_mod_right]
    exact Nat.mod_eq_of_lt hd
  · have hge : 2 ^ w ≤ s + d := not_lt.mp hlt
    have hmod : (s + d) % 2 ^ w = s + d - 2 ^ w := by
      rw [Nat.mod_eq_sub_mod hge]
      exact Nat.mod_eq_of_lt (by omega)
    rw [hmod]
    have hrw : s + d - 2 ^ w + (2 ^ w - s) = d := by omega
    rw [hrw]
    exact Nat.mod_eq_of_lt hd

/-- C26: the elapsed-time checks of the state machine are wraparound-safe.  With the
clock an unsigned `w`-bit counter, a stored timestamp `s` and a true elapsed time
`d < 2 ^ w`, so that `now = (s + d) mod 2 ^ w`, the unsigned difference `now - s` the
code computes is `d`, also when the clock wrapped between `s` and `now`.  Hence with a
score at least `k_on` the step leaves `DEBOUNCING_ON` for `PRESENT` exactly when
`d ≥ on_debounce_ms_`, with a score below `k_off` it leaves `DEBOUNCING_OFF` for
`IDLE` exactly when `d ≥ off_debounce_ms_`, and with a score below `k_off` and not
above `k_on` it leaves `PRESENT` for `DEBOUNCING_OFF` exactly when
`d ≥ abs_clear_delay_ms_`. -/
theorem elapsed_checks_wraparound_safe (w : Nat) (e : BedPresenceEngine) (energy : ℚ)
    (s d : Nat) (hs : s < 2 ^ w) (hd : d < 2 ^ w) :
    usub w ((s + d) % 2 ^ w) s = d ∧
    (e.current_state_ = State.DEBOUNCING_ON → e.debounce_start_time_ = s →
      calculate_z_score energy e.mu_still_ e.sigma_still_ ≥ e.k_on_ →
      ((process_energy_reading w e energy ((s + d) % 2 ^ w)).current_state_ = State.PRESENT ↔
        d ≥ e.on_debounce_ms_)) ∧
    (e.current_state_ = State.DEBOUNCING_OFF → e.debounce_start_time_ = s →
      calculate_z_score energy e.mu_still_ e.sigma_still_ < e.k_off_ →
      ((process_energy_reading w e energy ((s + d) % 2 ^ w)).current_state_ = State.IDLE ↔
        d ≥ e.off_debounce_ms_)) ∧
    (e.current_state_ = State.PRESENT → e.last_high_confidence_time_ = s →
      calculate_z_score energy e.mu_still_ e.sigma_still_ < e.k_off_ →
      ¬ calculate_z_score energy e.mu_still_ e.sigma_still_ > e.k_on_ →
      ((process_energy_reading w e energy ((s + d) % 2 ^ w)).current_state_
          = State.DEBOUNCING_OFF ↔ d ≥ e.abs_clear_delay_ms_)) := by
  have hu := usub_add_mod w s d hs hd
  refine ⟨hu, ?_, ?_, ?_⟩
  · intro hst hdst hz
    simp only [process_energy_reading, hst, hdst, hu]
    rw [if_pos hz]
    by_cases ht : d ≥ e.on_debounce_ms_
    · rw [if_pos ht]
      exact ⟨fun _ => ht, fun _ => rfl⟩
    · rw [if_neg ht]
      exact ⟨fun h => by rw [hst] at h; exact State.noConfusion h, fun h => absurd h ht⟩
  · intro hst hdst hz
    simp only [process_energy_reading, hst, hdst, hu]
    rw [if_pos hz]
    by_cases ht : d ≥ e.off_debounce_ms_
    · rw [if_pos ht]
      exact ⟨fun _ => ht, fun _ => rfl⟩
    · rw [if_neg ht]
      exact ⟨fun h => by rw [hst] at h; exact State.noConfusion h, fun h => absurd h ht⟩
  · intro hst hlhc hz hnk
    simp only [process_energy_reading, hst]
    rw [if_neg hnk, if_pos hz, hlhc, hu]
    by_cases ht : d ≥ e.abs_clear_delay_ms_
    · rw [if_pos ht]
      exact ⟨fun _ => ht, fun _ => rfl⟩
    · rw [if_neg ht]
      exact ⟨fun h => by rw [hst] at h; exact State.noConfusion h, fun h => absurd h ht⟩

theorem elapsed_checks_wraparound_safe_witness :
    usub 32 ((4294966296 + 3000) % 2 ^ 32) 4294966296 = 3000 ∧
    (process_energy_reading 32
      { SimplePresenceEngine with
        current_state_ := State.DEBOUNCING_ON, debounce_start_time_ := 4294966296 }
      185 ((4294966296 + 3000) % 2 ^ 32)).current_state_ = State.PRESENT :=
  ⟨(elapsed_checks_wraparound_safe 32
      { SimplePresenceEngine with
        current_state_ := State.DEBOUNCING_ON, debounce_start_time_ := 4294966296 }
      185 4294966296 3000 (by decide) (by decide)).1,
   ((elapsed_checks_wraparound_safe 32
      { SimplePresenceEngine with
        current_state_ := State.DEBOUNCING_ON, debounce_start_time_ := 4294966296 }
      185 4294966296 3000 (by decide) (by decide)).2.1 rfl rfl
      (by norm_num [calculate_z_score, SimplePresenceEngine, BedPresenceEngine.init])).mpr
      (by decide)⟩

/-! ## The calibration session -/

theorem finalize_calibration_session_invariant (e : BedPresenceEngine)
    (h : calibration_session_invariant e) :
    calibration_session_invariant (finalize_calibration e) := by
  cases hact : e.calibrating_
  · rw [finalize_calibration_of_not_calibrating e hact]
    exact h
  · have hemp : (finalize_calibration e).calibration_samples_ = [] := by
      by_cases hne : e.calibration_samples_ = []
      · simp [finalize_calibration, publish_change_reason, publish_reason, hact, hne]
      · simp [finalize_calibration, publish_change_reason, publish_reason, hact, hne]
    unfold calibration_session_invariant
    rw [hemp]
    exact ⟨Nat.zero_le _, fun _ => rfl⟩

theorem loop_deadline_check_session_invariant (e : BedPresenceEngine) (now : Nat)
    (h : calibration_session_invariant e) :
    calibration_session_invariant (loop_deadline_check e now) := by
  unfold loop_deadline_check
  split_ifs
  · exact finalize_calibration_session_invariant e h
  · exact h

theorem handle_calibration_sample_session_invariant (e : BedPresenceEngine) (en : ℚ)
    (now : Nat) (h : calibration_session_invariant e) :
    calibration_session_invariant (handle_calibration_sample e en now) := by
  simp only [handle_calibration_sample]
  split_ifs with h1 h2 h3
  · exact h
  · exact finalize_calibration_session_invariant e h
  · apply finalize_calibration_session_invariant
    refine ⟨?_, fun hc => ?_⟩
    · simp only [List.length_append, List.length_singleton]
      omega
    · have hc2 : e.calibrating_ = false := hc
      rw [hc2] at h1
      exact absurd rfl h1
  · refine ⟨?_, fun hc => ?_⟩
    · simp only [List.length_append, List.length_singleton]
      omega
    · have hc2 : e.calibrating_ = false := hc
      rw [hc2] at h1
      exact absurd rfl h1

theorem loop_session_invariant (w : Nat) (e : BedPresenceEngine) (energy distance : Option ℚ)
    (now : Nat) (h : calibration_session_invariant e) :
    calibration_session_invariant (loop w e energy distance now) := by
  rcases loop_cases w e energy distance now with hl | ⟨en, hl⟩ <;> rw [hl]
  · exact loop_deadline_check_session_invariant e now h
  · unfold calibration_session_invariant
    rw [process_energy_reading_calibration_samples_, process_energy_reading_calibrating_]
    exact handle_calibration_sample_session_invariant _ en now
      (loop_deadline_check_session_invariant e now h)

theorem apply_session_invariant (w : Nat) (e : BedPresenceEngine) (c : Command)
    (h : calibration_session_invariant e) :
    calibration_session_invariant (Command.apply w e c) := by
  cases c with
  | loop energy distance now => exact loop_session_invariant w e energy distance now h
  | start_baseline_calibration d now =>
    simp only [Command.apply, start_baseline_calibration]
    split_ifs
    · exact h
    · exact ⟨Nat.zero_le _, fun _ => rfl⟩
  | stop_baseline_calibration =>
    simp only [Command.apply, stop_baseline_calibration]
    split_ifs
    · exact h
    · exact finalize_calibration_session_invariant e h
  | reset_to_defaults => exact ⟨Nat.zero_le _, fun _ => rfl⟩
  | _ => exact h

theorem run_session_invariant (w : Nat) (cmds : List Command) :
    ∀ e : BedPresenceEngine, calibration_session_invariant e →
      calibration_session_invariant (run w e cmds) := by
  induction cmds with
  | nil => intro e h; exact h
  | cons c cs ih =>
    intro e h
    exact ih _ (apply_session_invariant w e c h)

/-- C25: in every state reached from a constructed engine, before or after its `setup`,
by any sequence of ticks, setters, calibration start/stop commands and
`reset_to_defaults`, the sample buffer holds at most 4096 samples, and it is empty
whenever no calibration is active. -/
theorem calibration_session_bounded (w : Nat) (cmds : List Command) :
    ((run w BedPresenceEngine.init cmds).calibration_samples_.length ≤ 4096 ∧
      ((run w BedPresenceEngine.init cmds).calibrating_ = false →
        (run w BedPresenceEngine.init cmds).calibration_samples_ = [])) ∧
    ((run w (setup BedPresenceEngine.init) cmds).calibration_samples_.length ≤ 4096 ∧
      ((run w (setup BedPresenceEngine.init) cmds).calibrating_ = false →
        (run w (setup BedPresenceEngine.init) cmds).calibration_samples_ = [])) :=
  ⟨run_session_invariant w cmds _ ⟨Nat.zero_le _, fun _ => rfl⟩,
   run_session_invariant w cmds _ ⟨Nat.zero_le _, fun _ => rfl⟩⟩

/-! ## Robustness of the median -/

theorem spec_order_statistic_isOrderStatistic (s : List ℚ) (j : Nat) (hj : j < s.length) :
    IsOrderStatistic s j (spec_order_statistic s j) := by
  have hp : (nth_element s j).Perm s := nth_element_perm s j
  have hj2 : j < (nth_element s j).length := by rw [hp.length_eq]; exact hj
  have h := (isOrderStatistic_of_sorted _ (nth_element_sorted s j) j hj2).perm hp
  rw [spec_order_statistic_eq h]
  exact h

theorem IsOrderStatistic.mem_interval {s : List ℚ} {j : Nat} {v : ℚ} (a b : ℚ)
    (h : IsOrderStatistic s j v)
    (hlo : j < s.countP (fun x => decide (a ≤ x ∧ x ≤ b)))
    (hhi : s.length ≤ j + s.countP (fun x => decide (a ≤ x ∧ x ≤ b))) :
    a ≤ v ∧ v ≤ b := by
  obtain ⟨_, hlt, hle⟩ := h
  constructor
  · by_contra hcon
    have hva : v < a := not_le.mp hcon
    have hmono : s.countP (fun x => decide (x ≤ v)) ≤
        s.countP (fun x => ¬ (decide (a ≤ x ∧ x ≤ b)) = true) := by
      apply List.countP_mono_left
      intro x _ hx
      simp only [decide_eq_true_eq] at hx
      simp only [decide_eq_true_eq, not_and, decide_not, Bool.not_eq_true', decide_eq_false_iff_not]
      intro hax
      exact absurd (lt_of_le_of_lt (le_trans hax hx) hva) (lt_irrefl _)
    have hsplit := List.length_eq_countP_add_countP (fun x => decide (a ≤ x ∧ x ≤ b)) s
    omega
  · by_contra hcon
    have hbv : b < v := not_le.mp hcon
    have hmono : s.countP (fun x => decide (a ≤ x ∧ x ≤ b)) ≤
        s.countP (fun x => decide (x < v)) := by
      apply List.countP_mono_left
      intro x _ hx
      simp only [decide_eq_true_eq] at hx ⊢
      exact lt_of_le_of_lt hx.2 hbv
    omega

/-! ## The on-debounce along a run -/

theorem loop_tick_cases (w : Nat) (e0 e : BedPresenceEngine) (t : Tick)
    (hc : same_config e0 e) :
    (¬ Tick.admitted e0 t ∧ loop w e t.energy t.distance t.now = e) ∨
    (∃ en, t.energy = some en ∧ spec_admits t.distance e0.d_min_cm_ e0.d_max_cm_ ∧
      loop w e t.energy t.distance t.now = process_energy_reading w e en t.now) := by
  obtain ⟨hcal, _, _, _, _, hdmin, hdmax, _, _⟩ := hc
  rw [loop_of_not_calibrating w e _ _ _ hcal]
  cases hen : t.energy with
  | none =>
    left
    refine ⟨?_, rfl⟩
    rintro ⟨en, he, _⟩
    rw [hen] at he
    exact Option.noConfusion he
  | some en =>
    cases hd : t.distance with
    | none => exact Or.inr ⟨en, rfl, trivial, rfl⟩
    | some d =>
      simp only
      by_cases hout : d < e.d_min_cm_ ∨ d > e.d_max_cm_
      · left
        rw [if_pos hout]
        refine ⟨?_, rfl⟩
        rintro ⟨en2, _, hadm, _⟩
        rw [hd] at hadm
        have hin : e0.d_min_cm_ ≤ d ∧ d ≤ e0.d_max_cm_ := hadm
        rw [← hdmin, ← hdmax] at hin
        rcases hout with h | h
        · exact absurd hin.1 (not_le.mpr h)
        · exact absurd hin.2 (not_le.mpr h)
      · right
        rw [if_neg hout]
        refine ⟨en, rfl, ?_, rfl⟩
        rw [not_or, not_lt, not_lt] at hout
        rw [← hdmin, ← hdmax]
        exact hout

theorem process_energy_reading_same_config (w : Nat) (e0 e : BedPresenceEngine) (en : ℚ)
    (now : Nat) (hc : same_config e0 e) :
    same_config e0 (process_energy_reading w e en now) := by
  unfold same_config at *
  simp only [process_energy_reading_calibrating_, process_energy_reading_mu_still_,
    process_energy_reading_sigma_still_, process_energy_reading_k_on_,
    process_energy_reading_k_off_, process_energy_reading_d_min_cm_,
    process_energy_reading_d_max_cm_, process_energy_reading_on_debounce_ms_,
    process_energy_reading_off_debounce_ms_]
  exact hc

theorem loop_same_config (w : Nat) (e0 e : BedPresenceEngine) (t : Tick)
    (hc : same_config e0 e) : same_config e0 (loop w e t.energy t.distance t.now) := by
  rcases loop_tick_cases w e0 e t hc with ⟨_, h⟩ | ⟨en, _, _, h⟩ <;> rw [h]
  · exact hc
  · exact process_energy_reading_same_config w e0 e en t.now hc

theorem run_ticks_same_config (w : Nat) (e0 : BedPresenceEngine)
    (hcal : e0.calibrating_ = false) (ticks : List Tick) :
    same_config e0 (run_ticks w e0 ticks) := by
  induction ticks using List.reverseRecOn with
  | nil => exact ⟨hcal, rfl, rfl, rfl, rfl, rfl, rfl, rfl, rfl⟩
  | append_singleton pre t ih =>
    rw [run_ticks_append]
    exact loop_same_config w e0 _ t ih

theorem process_energy_reading_debouncing_on (w : Nat) (e : BedPresenceEngine) (en : ℚ)
    (now : Nat)
    (h : (process_energy_reading w e en now).current_state_ = State.DEBOUNCING_ON) :
    calculate_z_score en e.mu_still_ e.sigma_still_ ≥ e.k_on_ ∧
    ((e.current_state_ = State.IDLE ∧
        (process_energy_reading w e en now).debounce_start_time_ = now) ∨
      (e.current_state_ = State.DEBOUNCING_ON ∧
        (process_energy_reading w e en now).debounce_start_time_ = e.debounce_start_time_)) := by
  unfold process_energy_reading at h ⊢
  cases hst : e.current_state_ <;> simp only [hst] at h ⊢ <;> split_ifs at h ⊢ <;>
    simp_all [publish_change_reason, publish_reason, publish_state]

theorem process_energy_reading_sets_presence (w : Nat) (e : BedPresenceEngine) (en : ℚ)
    (now : Nat) (hpres : e.presence_output = false)
    (hset : (process_energy_reading w e en now).presence_output = true) :
    e.current_state_ = State.DEBOUNCING_ON ∧
    calculate_z_score en e.mu_still_ e.sigma_still_ ≥ e.k_on_ ∧
    usub w now e.debounce_start_time_ ≥ e.on_debounce_ms_ := by
  unfold process_energy_reading at hset
  cases hst : e.current_state_ <;> simp only [hst] at hset <;> split_ifs at hset <;>
    simp_all [publish_change_reason, publish_reason, publish_state]

theorem process_energy_reading_idle_not_present (w : Nat) (e : BedPresenceEngine) (en : ℚ)
    (now : Nat) (hst : e.current_state_ = State.IDLE) :
    (process_energy_reading w e en now).current_state_ ≠ State.PRESENT := by
  simp only [process_energy_reading, hst]
  split_ifs
  · exact fun h => State.noConfusion h
  · rw [hst]
    exact fun h => State.noConfusion h

theorem debouncing_on_since_extend (e0 : BedPresenceEngine) (ticks : List Tick) (t : Tick)
    (dst : Nat) (h : debouncing_on_since e0 ticks dst)
    (ht : Tick.admitted e0 t → Tick.scores e0 (fun z => z ≥ e0.k_on_) t) :
    debouncing_on_since e0 (ticks ++ [t]) dst := by
  obtain ⟨pre, s, mid, hpre, hs, hdst, hmid⟩ := h
  refine ⟨pre, s, mid ++ [t], ?_, hs, hdst, ?_⟩
  · rw [hpre, List.append_assoc, List.cons_append]
  · intro x hx
    rcases List.mem_append.mp hx with hx | hx
    · exact hmid x hx
    · rw [List.mem_singleton.mp hx]
      exact ht

theorem run_ticks_debouncing_on (w : Nat) (e0 : BedPresenceEngine)
    (hidle : e0.current_state_ = State.IDLE) (hcal : e0.calibrating_ = false)
    (ticks : List Tick) :
    (run_ticks w e0 ticks).current_state_ = State.DEBOUNCING_ON →
      debouncing_on_since e0 ticks (run_ticks w e0 ticks).debounce_start_time_ := by
  induction ticks using List.reverseRecOn with
  | nil =>
    intro h
    rw [show run_ticks w e0 [] = e0 from rfl, hidle] at h
    exact State.noConfusion h
  | append_singleton pre t ih =>
    have hc := run_ticks_same_config w e0 hcal pre
    rw [run_ticks_append]
    rcases loop_tick_cases w e0 _ t hc with ⟨hna, hl⟩ | ⟨en, hen, hadm, hl⟩ <;> rw [hl]
    · intro hst
      exact debouncing_on_since_extend e0 pre t _ (ih hst) (fun ha => absurd ha hna)
    · intro hst
      obtain ⟨hz, hcase⟩ := process_energy_reading_debouncing_on w _ en t.now hst
      rw [hc.2.1, hc.2.2.1, hc.2.2.2.1] at hz
      have hts : Tick.scores e0 (fun z => z ≥ e0.k_on_) t := ⟨en, hen, hadm, hz⟩
      rcases hcase with ⟨_, hd⟩ | ⟨hprev, hd⟩
      · rw [hd]
        exact ⟨pre, t, [], rfl, hts, rfl, fun x hx => absurd hx (List.not_mem_nil x)⟩
      · rw [hd]
        exact debouncing_on_since_extend e0 pre t _ (ih hprev) (fun _ => hts)

/-- C21: the on-debounce needs a sustained condition.  Take a constructed engine, in
`IDLE` with no calibration active, and drive it only by ticks with non-decreasing
times below `2 ^ w`.  Whenever a tick `t` takes presence from false to true, an
earlier tick `s` of the run was admitted with a score at least `k_on`, at a time with
`t.now - s.now ≥ on_debounce_ms_`, every admitted tick between `s` and `t` scored at
least `k_on`, and so did `t`.  In particular a tick that finds the machine in `IDLE`
never leaves it in `PRESENT`, whatever `on_debounce_ms_` is. -/
theorem on_debounce_sustained (w : Nat) (e0 : BedPresenceEngine) (ticks : List Tick) (t : Tick)
    (hidle : e0.current_state_ = State.IDLE) (hcal : e0.calibrating_ = false)
    (hmono : (ticks ++ [t]).Pairwise (fun a b => a.now ≤ b.now))
    (hwrap : ∀ x ∈ ticks ++ [t], x.now < 2 ^ w) :
    ((run_ticks w e0 ticks).presence_output = false →
      (run_ticks w e0 (ticks ++ [t])).presence_output = true →
      ∃ pre s mid, ticks = pre ++ s :: mid ∧
        Tick.scores e0 (fun z => z ≥ e0.k_on_) s ∧
        s.now ≤ t.now ∧ t.now - s.now ≥ e0.on_debounce_ms_ ∧
        (∀ x ∈ mid, Tick.admitted e0 x → Tick.scores e0 (fun z => z ≥ e0.k_on_) x) ∧
        Tick.scores e0 (fun z => z ≥ e0.k_on_) t) ∧
    ((run_ticks w e0 ticks).current_state_ = State.IDLE →
      (run_ticks w e0 (ticks ++ [t])).current_state_ ≠ State.PRESENT) := by
  have hc := run_ticks_same_config w e0 hcal ticks
  have ht : t.now < 2 ^ w := hwrap t (List.mem_append_right _ (List.mem_singleton_self t))
  rw [List.pairwise_append] at hmono
  obtain ⟨_, _, hlast⟩ := hmono
  rw [run_ticks_append]
  constructor
  · intro hbefore hafter
    rcases loop_tick_cases w e0 _ t hc with ⟨_, hl⟩ | ⟨en, hen, hadm, hl⟩ <;> rw [hl] at hafter
    · rw [hbefore] at hafter
      exact absurd hafter (by decide)
    · obtain ⟨hst, hz, helapsed⟩ := process_energy_reading_sets_presence w _ en t.now hbefore hafter
      rw [hc.2.1, hc.2.2.1, hc.2.2.2.1] at hz
      rw [hc.2.2.2.2.2.2.2.1] at helapsed
      obtain ⟨pre, s, mid, hpre, hs, hdst, hmid⟩ := run_ticks_debouncing_on w e0 hidle hcal ticks hst
      have hsmem : s ∈ ticks := by
        rw [hpre]
        exact List.mem_append_right _ (List.mem_cons_self s mid)
      have hle : s.now ≤ t.now := hlast s hsmem t (List.mem_singleton_self t)
      rw [← hdst, usub_eq_sub w t.now s.now hle ht] at helapsed
      exact ⟨pre, s, mid, hpre, hs, hle, helapsed, hmid, ⟨en, hen, hadm, hz⟩⟩
  · intro hst
    rcases loop_tick_cases w e0 _ t hc with ⟨_, hl⟩ | ⟨en, _, _, hl⟩ <;> rw [hl]
    · rw [hst]
      exact fun h => State.noConfusion h
    · exact process_energy_reading_idle_not_present w _ en t.now hst

theorem on_debounce_sustained_witness :
    ∃ pre s mid, [(⟨some 185, none, 0⟩ : Tick), ⟨some 190, none, 2000⟩] = pre ++ s :: mid ∧
      Tick.scores SimplePresenceEngine (fun z => z ≥ SimplePresenceEngine.k_on_) s ∧
      s.now ≤ 3000 ∧ 3000 - s.now ≥ SimplePresenceEngine.on_debounce_ms_ :=
  have h := (on_debounce_sustained 32 SimplePresenceEngine
      [⟨some 185, none, 0⟩, ⟨some 190, none, 2000⟩] ⟨some 185, none, 3000⟩ rfl rfl
      (by simp) (by simp)).1
      (by norm_num [run_ticks, loop, handle_calibration_sample, process_energy_reading,
            calculate_z_score, publish_change_reason, publish_reason, publish_state, usub,
            SimplePresenceEngine, BedPresenceEngine.init])
      (by norm_num [run_ticks, loop, handle_calibration_sample, process_energy_reading,
            calculate_z_score, publish_change_reason, publish_reason, publish_state, usub,
            SimplePresenceEngine, BedPresenceEngine.init])
  h.elim fun pre h1 => h1.elim fun s h2 => h2.elim fun mid h3 =>
    ⟨pre, s, mid, h3.1, h3.2.1, h3.2.2.1, h3.2.2.2.1⟩

/-! ## The off-debounce along a run -/

theorem process_energy_reading_debouncing_off (w : Nat) (e : BedPresenceEngine) (en : ℚ)
    (now : Nat)
    (h : (process_energy_reading w e en now).current_state_ = State.DEBOUNCING_OFF) :
    (e.current_state_ = State.PRESENT ∧
        calculate_z_score en e.mu_still_ e.sigma_still_ < e.k_off_ ∧
        (process_energy_reading w e en now).debounce_start_time_ = now) ∨
      (e.current_state_ = State.DEBOUNCING_OFF ∧
        (calculate_z_score en e.mu_still_ e.sigma_still_ < e.k_off_ ∨
          calculate_z_score en e.mu_still_ e.sigma_still_ < e.k_on_) ∧
        (process_energy_reading w e en now).debounce_start_time_ = e.debounce_start_time_) := by
  unfold process_energy_reading at h ⊢
  cases hst : e.current_state_ <;> simp only [hst] at h ⊢ <;> split_ifs at h ⊢ <;>
    simp_all [publish_change_reason, publish_reason, publish_state]

theorem process_energy_reading_clears_low (w : Nat) (e : BedPresenceEngine) (en : ℚ)
    (now : Nat) (hpres : e.presence_output = true)
    (hclear : (process_energy_reading w e en now).presence_output = false) :
    calculate_z_score en e.mu_still_ e.sigma_still_ < e.k_off_ := by
  unfold process_energy_reading at hclear
  cases hst : e.current_state_ <;> simp only [hst] at hclear <;> split_ifs at hclear <;>
    simp_all [publish_change_reason, publish_reason, publish_state]

theorem debouncing_off_since_extend (w : Nat) (e0 : BedPresenceEngine) (ticks : List Tick)
    (t : Tick) (dst : Nat) (h : debouncing_off_since w e0 ticks dst)
    (hst : (run_ticks w e0 (ticks ++ [t])).current_state_ = State.DEBOUNCING_OFF)
    (ht : Tick.admitted e0 t → Tick.scores e0 (fun z => z < e0.k_on_) t) :
    debouncing_off_since w e0 (ticks ++ [t]) dst := by
  obtain ⟨pre, s, mid, hpre, hbefore, hthrough, hs, hdst, hmid⟩ := h
  refine ⟨pre, s, mid ++ [t], ?_, hbefore, ?_, hs, hdst, ?_⟩
  · rw [hpre, List.append_assoc, List.cons_append]
  · intro m1 m2 hsplit
    rcases List.eq_nil_or_concat m2 with rfl | ⟨m3, y, rfl⟩
    · rw [List.append_nil] at hsplit
      rw [← hsplit, ← List.cons_append, ← List.append_assoc, ← hpre]
      exact hst
    · rw [List.concat_eq_append, ← List.append_assoc] at hsplit
      exact hthrough m1 m3 (List.append_inj' hsplit rfl).1
  · intro x hx
    rcases List.mem_append.mp hx with hx | hx
    · exact hmid x hx
    · rw [List.mem_singleton.mp hx]
      exact ht

theorem run_ticks_debouncing_off (w : Nat) (e0 : BedPresenceEngine)
    (hstart : e0.current_state_ ≠ State.DEBOUNCING_OFF) (hcal : e0.calibrating_ = false)
    (hconv : e0.k_on_ > e0.k_off_) (ticks : List Tick) :
    (run_ticks w e0 ticks).current_state_ = State.DEBOUNCING_OFF →
      debouncing_off_since w e0 ticks (run_ticks w e0 ticks).debounce_start_time_ := by
  induction ticks using List.reverseRecOn with
  | nil =>
    intro h
    exact absurd h hstart
  | append_singleton pre t ih =>
    have hc := run_ticks_same_config w e0 hcal pre
    intro hst
    have hst2 := hst
    rw [run_ticks_append] at hst2 ⊢
    rcases loop_tick_cases w e0 _ t hc with ⟨hna, hl⟩ | ⟨en, hen, hadm, hl⟩ <;>
      rw [hl] at hst2 ⊢
    · exact debouncing_off_since_extend w e0 pre t _ (ih hst2) hst (fun ha => absurd ha hna)
    · rcases process_energy_reading_debouncing_off w _ en t.now hst2 with
        ⟨hprev, hz, hd⟩ | ⟨hprev, hz, hd⟩
      · rw [hc.2.1, hc.2.2.1, hc.2.2.2.2.1] at hz
        rw [hd]
        refine ⟨pre, t, [], rfl, hprev, ?_, ⟨en, hen, hadm, hz⟩, rfl,
          fun x hx => absurd hx (List.not_mem_nil x)⟩
        intro m1 m2 hsplit
        have hm1 : m1 = [] := (List.append_eq_nil.mp hsplit.symm).1
        rw [hm1]
        exact hst
      · rw [hc.2.1, hc.2.2.1, hc.2.2.2.1, hc.2.2.2.2.1] at hz
        have hz2 : calculate_z_score en e0.mu_still_ e0.sigma_still_ < e0.k_on_ :=
          hz.elim (fun h => lt_trans h hconv) (fun h => h)
        rw [hd]
        exact debouncing_off_since_extend w e0 pre t _ (ih hprev) hst
          (fun _ => ⟨en, hen, hadm, hz2⟩)

/-- C22, as stated, fails: the test engine (`k_on = 4 > k_off = 2`) is in `PRESENT`
after two ticks and enters `DEBOUNCING_OFF` at the third, at `t = 33000`.  The fourth
tick, at `t = 35000`, is admitted with the score `3`, not below `k_off`, and leaves
the machine in `DEBOUNCING_OFF` with presence true; the fifth, at `t = 38000` with a
score below `k_off`, takes presence from true to false. -/
theorem off_debounce_sustained_counterexample :
    SimplePresenceEngine.k_on_ > SimplePresenceEngine.k_off_ ∧
    (run_ticks 32 SimplePresenceEngine (off_debounce_band_ticks.take 2)).current_state_
      = State.PRESENT ∧
    (run_ticks 32 SimplePresenceEngine (off_debounce_band_ticks.take 3)).current_state_
      = State.DEBOUNCING_OFF ∧
    (calculate_z_score 160 SimplePresenceEngine.mu_still_ SimplePresenceEngine.sigma_still_ = 3 ∧
      ¬ (3 : ℚ) < SimplePresenceEngine.k_off_) ∧
    ((run_ticks 32 SimplePresenceEngine off_debounce_band_ticks).current_state_
        = State.DEBOUNCING_OFF ∧
      (run_ticks 32 SimplePresenceEngine off_debounce_band_ticks).presence_output = true) ∧
    (run_ticks 32 SimplePresenceEngine
      (off_debounce_band_ticks ++ [⟨some 135, none, 38000⟩])).presence_output = false := by
  norm_num [off_debounce_band_ticks, run_ticks, loop, handle_calibration_sample,
    process_energy_reading, calculate_z_score, publish_change_reason, publish_reason,
    publish_state, usub, SimplePresenceEngine, BedPresenceEngine.init]

/-- C22, amended: the off-debounce along a run.  Take an engine not in
`DEBOUNCING_OFF`, with no calibration active and `k_on > k_off`, and drive it only by
ticks with non-decreasing times below `2 ^ w`.  Whenever a tick `t` takes presence
from true to false, the machine last entered `DEBOUNCING_OFF` at an earlier tick `s`
of the run, admitted with a score below `k_off` while in `PRESENT`, and stayed there
until `t`; `t.now - s.now ≥ off_debounce_ms_`; `t` itself scored below `k_off`; and
every admitted tick in between scored below `k_on`. -/
theorem off_debounce_sustained (w : Nat) (e0 : BedPresenceEngine) (ticks : List Tick) (t : Tick)
    (hstart : e0.current_state_ ≠ State.DEBOUNCING_OFF) (hcal : e0.calibrating_ = false)
    (hconv : e0.k_on_ > e0.k_off_)
    (hmono : (ticks ++ [t]).Pairwise (fun a b => a.now ≤ b.now))
    (hwrap : ∀ x ∈ ticks ++ [t], x.now < 2 ^ w)
    (hbefore : (run_ticks w e0 ticks).presence_output = true)
    (hafter : (run_ticks w e0 (ticks ++ [t])).presence_output = false) :
    ∃ pre s mid, ticks = pre ++ s :: mid ∧
      (run_ticks w e0 pre).current_state_ = State.PRESENT ∧
      (∀ m1 m2, mid = m1 ++ m2 →
        (run_ticks w e0 (pre ++ s :: m1)).current_state_ = State.DEBOUNCING_OFF) ∧
      Tick.scores e0 (fun z => z < e0.k_off_) s ∧
      s.now ≤ t.now ∧ t.now - s.now ≥ e0.off_debounce_ms_ ∧
      (∀ x ∈ mid, Tick.admitted e0 x → Tick.scores e0 (fun z => z < e0.k_on_) x) ∧
      Tick.scores e0 (fun z => z < e0.k_off_) t := by
  have hc := run_ticks_same_config w e0 hcal ticks
  have ht : t.now < 2 ^ w := hwrap t (List.mem_append_right _ (List.mem_singleton_self t))
  rw [List.pairwise_append] at hmono
  obtain ⟨_, _, hlast⟩ := hmono
  rw [run_ticks_append] at hafter
  rcases loop_tick_cases w e0 _ t hc with ⟨_, hl⟩ | ⟨en, hen, hadm, hl⟩ <;> rw [hl] at hafter
  · rw [hbefore] at hafter
    exact absurd hafter (by decide)
  · obtain ⟨hst, helapsed⟩ := process_energy_reading_clears w _ en t.now hbefore hafter
    have hz := process_energy_reading_clears_low w _ en t.now hbefore hafter
    rw [hc.2.1, hc.2.2.1, hc.2.2.2.2.1] at hz
    rw [hc.2.2.2.2.2.2.2.2] at helapsed
    obtain ⟨pre, s, mid, hpre, hprev, hthrough, hs, hdst, hmid⟩ :=
      run_ticks_debouncing_off w e0 hstart hcal hconv ticks hst
    have hsmem : s ∈ ticks := by
      rw [hpre]
      exact List.mem_append_right _ (List.mem_cons_self s mid)
    have hle : s.now ≤ t.now := hlast s hsmem t (List.mem_singleton_self t)
    rw [← hdst, usub_eq_sub w t.now s.now hle ht] at helapsed
    exact ⟨pre, s, mid, hpre, hprev, hthrough, hs, hle, helapsed, hmid, ⟨en, hen, hadm, hz⟩⟩

theorem off_debounce_sustained_witness :
    ∃ pre s mid, off_debounce_band_ticks = pre ++ s :: mid ∧
      s.now ≤ 38000 ∧ 38000 - s.now ≥ SimplePresenceEngine.off_debounce_ms_ :=
  have h := off_debounce_sustained 32 SimplePresenceEngine off_debounce_band_ticks
      ⟨some 135, none, 38000⟩ (fun h => State.noConfusion h) rfl
      (by norm_num [SimplePresenceEngine, BedPresenceEngine.init])
      (by simp [off_debounce_band_ticks]) (by simp [off_debounce_band_ticks])
      (by norm_num [off_debounce_band_ticks, run_ticks, loop, handle_calibration_sample,
            process_energy_reading, calculate_z_score, publish_change_reason, publish_reason,
            publish_state, usub, SimplePresenceEngine, BedPresenceEngine.init])
      (by norm_num [off_debounce_band_ticks, run_ticks, loop, handle_calibration_sample,
            process_energy_reading, calculate_z_score, publish_change_reason, publish_reason,
            publish_state, usub, SimplePresenceEngine, BedPresenceEngine.init])
  h.elim fun pre h1 => h1.elim fun s h2 => h2.elim fun mid h3 =>
    ⟨pre, s, mid, h3.1, h3.2.2.2.2.1, h3.2.2.2.2.2.1⟩

/-! ## The calibration deadline at the wrap of the clock -/

/-- C27 fails on the code: the deadline check compares `millis() >= calibration_end_time_`
and is not wraparound-safe.  On a 32-bit clock a two-second calibration started at
`2 ^ 32 - 1000` gets the wrapped deadline `1000`, and a tick only 100 ms later, with
no energy reading, already finalizes it.  A two-second calibration started at
`2 ^ 32 - 3000` gets the deadline `2 ^ 32 - 1000`; the first tick after it, 3500 ms
after the start, reads the wrapped clock value `500` and does not finalize it. -/
theorem calibration_deadline_wraps :
    (calibration_before_wrap.calibrating_ = true ∧
      calibration_before_wrap.calibration_end_time_ = 1000 ∧
      usub 32 4294966396 4294966296 = 100 ∧
      (loop 32 calibration_before_wrap none none 4294966396).calibrating_ = false) ∧
    (calibration_ending_before_wrap.calibrating_ = true ∧
      calibration_ending_before_wrap.calibration_end_time_ = 4294966296 ∧
      usub 32 500 4294964296 = 3500 ∧
      (loop 32 calibration_ending_before_wrap none none 500).calibrating_ = true) := by
  have h1 : calibration_before_wrap =
      { SimplePresenceEngine with
        calibrating_ := true, calibration_samples_ := [], calibration_end_time_ := 1000,
        state_reason_log := [Reason.text "Calibration started"],
        change_reason_log := ["calibration:started"] } := by
    simp [calibration_before_wrap, start_baseline_calibration, uadd, publish_change_reason,
      publish_reason, SimplePresenceEngine, BedPresenceEngine.init]
  have h2 : calibration_ending_before_wrap =
      { SimplePresenceEngine with
        calibrating_ := true, calibration_samples_ := [], calibration_end_time_ := 4294966296,
        state_reason_log := [Reason.text "Calibration started"],
        change_reason_log := ["calibration:started"] } := by
    simp [calibration_ending_before_wrap, start_baseline_calibration, uadd,
      publish_change_reason, publish_reason, SimplePresenceEngine, BedPresenceEngine.init]
  refine ⟨⟨?_, ?_, by decide, ?_⟩, ⟨?_, ?_, by decide, ?_⟩⟩
  · rw [h1]
  · rw [h1]
  · rw [loop_none]
    unfold loop_deadline_check
    rw [if_pos (by rw [h1]; decide)]
    exact finalize_calibration_calibrating _
  · rw [h2]
  · rw [h2]
  · rw [loop_none, loop_deadline_check_of_not_due _ _
      (fun h => absurd h.2 (by rw [h2]; decide))]
    rw [h2]


/-! # The engine over `float` values with NaN and infinities -/

namespace Ieee

/-! ## Comparisons of `float` values -/

theorem float_lt_imp_ge_false (a b : FloatValue) (h : FloatValue.lt a b = true) :
    FloatValue.ge a b = false := by
  cases a <;> cases b <;> simp_all [FloatValue.lt, FloatValue.le, FloatValue.ge]

theorem float_ge_imp_lt_false (a b : FloatValue) (h : FloatValue.ge a b = true) :
    FloatValue.lt a b = false := by
  cases a <;> cases b <;> simp_all [FloatValue.lt, FloatValue.le, FloatValue.ge]

theorem float_unordered_iff (a b : FloatValue) :
    (FloatValue.ge a b = false ∧ FloatValue.lt a b = false) ↔
      (a = FloatValue.nan ∨ b = FloatValue.nan) := by
  cases a <;> cases b <;> simp [FloatValue.lt, FloatValue.le, FloatValue.ge]

theorem float_lt_trans (a b c : FloatValue) (h1 : FloatValue.lt a b = true)
    (h2 : FloatValue.lt b c = true) : FloatValue.lt a c = true := by
  cases a <;> cases b <;> cases c <;> simp_all [FloatValue.lt]
  exact lt_trans h1 h2

theorem float_le_lt_trans (a b c : FloatValue) (h1 : FloatValue.le a b = true)
    (h2 : FloatValue.lt b c = true) : FloatValue.lt a c = true := by
  cases a <;> cases b <;> cases c <;> simp_all [FloatValue.lt, FloatValue.le]
  exact lt_of_le_of_lt h1 h2

theorem float_lt_false_iff_le (a b : FloatValue) (ha : a ≠ FloatValue.nan)
    (hb : b ≠ FloatValue.nan) : FloatValue.lt a b = false ↔ FloatValue.le b a = true := by
  cases a <;> cases b <;> simp_all [FloatValue.lt, FloatValue.le]

theorem float_le_false_iff_lt (a b : FloatValue) (ha : a ≠ FloatValue.nan)
    (hb : b ≠ FloatValue.nan) : FloatValue.le a b = false ↔ FloatValue.lt b a = true := by
  cases a <;> cases b <;> simp_all [FloatValue.lt, FloatValue.le]

theorem float_lt_imp_not_le (a b : FloatValue) (h : FloatValue.lt a b = true) :
    FloatValue.le b a = false := by
  cases a <;> cases b <;> simp_all [FloatValue.lt, FloatValue.le]


/-! ## The tick over `float` values -/

theorem float_loop_none (w : Nat) (e : BedPresenceEngine) (distance : Option FloatValue)
    (now : Nat) : loop w e none distance now = loop_deadline_check e now := rfl

theorem float_loop_some_none (w : Nat) (e : BedPresenceEngine) (en : FloatValue) (now : Nat) :
    loop w e (some en) none now =
      process_energy_reading w
        (handle_calibration_sample (loop_deadline_check e now) en now) en now := rfl

theorem float_loop_some_some (w : Nat) (e : BedPresenceEngine) (en d : FloatValue)
    (now : Nat) :
    loop w e (some en) (some d) now =
      if (FloatValue.lt d (loop_deadline_check e now).d_min_cm_ ||
          FloatValue.gt d (loop_deadline_check e now).d_max_cm_) = true then
        loop_deadline_check e now
      else
        process_energy_reading w
          (handle_calibration_sample (loop_deadline_check e now) en now) en now := rfl

theorem float_finalize_calibration_d_min_cm_ (e : BedPresenceEngine) :
    (finalize_calibration e).d_min_cm_ = e.d_min_cm_ := by
  simp only [finalize_calibration, publish_change_reason, publish_reason]
  split_ifs <;> rfl

theorem float_finalize_calibration_d_max_cm_ (e : BedPresenceEngine) :
    (finalize_calibration e).d_max_cm_ = e.d_max_cm_ := by
  simp only [finalize_calibration, publish_change_reason, publish_reason]
  split_ifs <;> rfl

theorem float_loop_deadline_check_d_min_cm_ (e : BedPresenceEngine) (now : Nat) :
    (loop_deadline_check e now).d_min_cm_ = e.d_min_cm_ := by
  unfold loop_deadline_check
  split_ifs
  · exact float_finalize_calibration_d_min_cm_ e
  · rfl

theorem float_loop_deadline_check_d_max_cm_ (e : BedPresenceEngine) (now : Nat) :
    (loop_deadline_check e now).d_max_cm_ = e.d_max_cm_ := by
  unfold loop_deadline_check
  split_ifs
  · exact float_finalize_calibration_d_max_cm_ e
  · rfl


/-! ## The median over `float` values -/

theorem float_nth_element_perm (values : List FloatValue) (n : Nat) :
    (nth_element values n).Perm values :=
  List.perm_insertionSort _ values

theorem float_getD_mem (s : List FloatValue) (k : Nat) (hk : k < s.length) (d : FloatValue) :
    s.getD k d ∈ s := by
  rw [List.getD_eq_getElem s d hk]
  exact List.getElem_mem hk

theorem float_compute_median_closed (P : FloatValue → Prop) (s : List FloatValue)
    (hne : s ≠ []) (hmem : ∀ x ∈ s, P x)
    (hmid : ∀ x ∈ s, ∀ y ∈ s,
      P (FloatValue.div (FloatValue.add x y) (FloatValue.num 2))) :
    P (compute_median s) := by
  have hpos : 0 < s.length := List.length_pos.mpr hne
  have hempty : s.isEmpty = false := by
    cases s with
    | nil => exact absurd rfl hne
    | cons a l => rfl
  have hp1 := float_nth_element_perm s (s.length / 2)
  have hp2 := float_nth_element_perm (nth_element s (s.length / 2)) (s.length / 2 - 1)
  have h1 : (nth_element s (s.length / 2)).getD (s.length / 2) (FloatValue.num 0) ∈ s :=
    hp1.mem_iff.mp (float_getD_mem _ _ (by rw [hp1.length_eq]; omega) _)
  have h2 : (nth_element (nth_element s (s.length / 2)) (s.length / 2 - 1)).getD
      (s.length / 2 - 1) (FloatValue.num 0) ∈ s :=
    hp1.mem_iff.mp (hp2.mem_iff.mp
      (float_getD_mem _ _ (by rw [hp2.length_eq, hp1.length_eq]; omega) _))
  simp only [compute_median, hempty]
  rw [if_neg Bool.false_ne_true]
  split_ifs
  · exact hmid _ h1 _ h2
  · exact hmem _ h1

/-! ## The spread floor over `float` values -/

theorem float_half_sum_not_nan (x y : FloatValue) (hx : FloatValue.is_num x)
    (hy : FloatValue.is_num y) :
    FloatValue.div (FloatValue.add x y) (FloatValue.num 2) ≠ FloatValue.nan := by
  cases x <;> cases y <;> simp [FloatValue.is_num] at hx hy
  simp only [FloatValue.add, FloatValue.ofRat]
  split_ifs <;> simp [FloatValue.div, FloatValue.ofRat] <;> split_ifs <;> simp

theorem float_deviation_nonneg (x m : FloatValue) (hx : FloatValue.is_num x)
    (hm : m ≠ FloatValue.nan) :
    FloatValue.nonneg (FloatValue.abs (FloatValue.sub x m)) := by
  cases x <;> simp [FloatValue.is_num] at hx
  cases m
  · exact absurd rfl hm
  · simp [FloatValue.sub, FloatValue.neg, FloatValue.add, FloatValue.abs, FloatValue.nonneg]
  · simp only [FloatValue.sub, FloatValue.neg, FloatValue.add, FloatValue.ofRat]
    split_ifs <;> simp [FloatValue.abs, FloatValue.nonneg]
  · simp [FloatValue.sub, FloatValue.neg, FloatValue.add, FloatValue.abs, FloatValue.nonneg]

theorem float_ofRat_nonneg (q : ℚ) (hq : 0 ≤ q) : FloatValue.nonneg (FloatValue.ofRat q) := by
  unfold FloatValue.ofRat
  split_ifs with h1 h2
  · trivial
  · exfalso
    have : (0 : ℚ) < FLT_MAX := by norm_num [FLT_MAX]
    linarith
  · exact hq

theorem float_half_sum_nonneg (x y : FloatValue) (hx : FloatValue.nonneg x)
    (hy : FloatValue.nonneg y) :
    FloatValue.nonneg (FloatValue.div (FloatValue.add x y) (FloatValue.num 2)) := by
  cases x <;> cases y <;> simp only [FloatValue.nonneg] at hx hy
  · rename_i a b
    have hab : FloatValue.nonneg (FloatValue.ofRat (a + b)) :=
      float_ofRat_nonneg _ (add_nonneg hx hy)
    simp only [FloatValue.add]
    cases hres : FloatValue.ofRat (a + b) <;> rw [hres] at hab <;>
      simp only [FloatValue.nonneg] at hab
    · simp only [FloatValue.div]
      rw [if_neg (by norm_num)]
      exact float_ofRat_nonneg _ (by positivity)
    · norm_num [FloatValue.div, FloatValue.nonneg]
  · norm_num [FloatValue.add, FloatValue.div, FloatValue.nonneg]
  · norm_num [FloatValue.add, FloatValue.div, FloatValue.nonneg]
  · norm_num [FloatValue.add, FloatValue.div, FloatValue.nonneg]

theorem float_scale_nonneg (x : FloatValue) (hx : FloatValue.nonneg x) :
    FloatValue.nonneg (FloatValue.mul x (FloatValue.num (14826 / 10000))) := by
  cases x <;> simp only [FloatValue.nonneg] at hx
  · simp only [FloatValue.mul]
    exact float_ofRat_nonneg _ (by positivity)
  · simp [FloatValue.mul, FloatValue.inf_of_sign, FloatValue.nonneg]

theorem float_floor_ge (x : FloatValue) (hx : FloatValue.nonneg x) :
    FloatValue.ge
      (if FloatValue.lt x (FloatValue.num (5 / 100)) = true then FloatValue.num (5 / 100)
        else x)
      (FloatValue.num (5 / 100)) = true := by
  cases x <;> simp only [FloatValue.nonneg] at hx
  · rename_i q
    by_cases h : q < 5 / 100
    · simp [FloatValue.lt, FloatValue.ge, FloatValue.le, h]
    · simp [FloatValue.lt, FloatValue.ge, FloatValue.le, h]
      exact not_lt.mp h
  · simp [FloatValue.lt, FloatValue.ge, FloatValue.le]


theorem float_finalize_calibration_of_not_calibrating (e : BedPresenceEngine)
    (h : e.calibrating_ = false) : finalize_calibration e = e := by
  simp [finalize_calibration, h]

theorem float_finalize_calibration_mu_still (e : BedPresenceEngine)
    (hact : e.calibrating_ = true) (hne : e.calibration_samples_ ≠ []) :
    (finalize_calibration e).mu_still_ = compute_median e.calibration_samples_ := by
  simp [finalize_calibration, publish_change_reason, publish_reason, hact, hne]

theorem float_finalize_calibration_sigma_still (e : BedPresenceEngine)
    (hact : e.calibrating_ = true) (hne : e.calibration_samples_ ≠ []) :
    (finalize_calibration e).sigma_still_ =
      if FloatValue.lt
          (FloatValue.mul
            (compute_median (e.calibration_samples_.map
              (fun x => FloatValue.abs (FloatValue.sub x (compute_median e.calibration_samples_)))))
            (FloatValue.num (14826 / 10000)))
          (FloatValue.num (5 / 100)) = true then FloatValue.num (5 / 100)
      else
        FloatValue.mul
          (compute_median (e.calibration_samples_.map
            (fun x => FloatValue.abs (FloatValue.sub x (compute_median e.calibration_samples_)))))
          (FloatValue.num (14826 / 10000)) := by
  simp [finalize_calibration, publish_change_reason, publish_reason, hact, hne]

theorem float_finalize_calibration_samples_finite (e : BedPresenceEngine)
    (h : samples_finite e) : samples_finite (finalize_calibration e) := by
  cases hact : e.calibrating_
  · rw [float_finalize_calibration_of_not_calibrating e hact]
    exact h
  · by_cases hne : e.calibration_samples_ = []
    · have hs : (finalize_calibration e).calibration_samples_ = [] := by
        simp [finalize_calibration, publish_change_reason, publish_reason, hact, hne]
      unfold samples_finite
      rw [hs]
      intro x hx
      exact absurd hx (List.not_mem_nil x)
    · have hs : (finalize_calibration e).calibration_samples_ = [] := by
        simp [finalize_calibration, publish_change_reason, publish_reason, hact, hne]
      unfold samples_finite
      rw [hs]
      intro x hx
      exact absurd hx (List.not_mem_nil x)

theorem float_median_not_nan (s : List FloatValue) (hne : s ≠ [])
    (hfin : ∀ x ∈ s, FloatValue.is_num x) : compute_median s ≠ FloatValue.nan := by
  apply float_compute_median_closed (fun v => v ≠ FloatValue.nan) s hne
  · intro x hx
    have := hfin x hx
    cases x <;> simp [FloatValue.is_num] at this ⊢
  · intro x hx y hy
    exact float_half_sum_not_nan x y (hfin x hx) (hfin y hy)

theorem float_mad_nonneg (s : List FloatValue) (hne : s ≠ [])
    (hfin : ∀ x ∈ s, FloatValue.is_num x) :
    FloatValue.nonneg (compute_median
      (s.map (fun x => FloatValue.abs (FloatValue.sub x (compute_median s))))) := by
  have hm := float_median_not_nan s hne hfin
  have hdev : ∀ v ∈ s.map (fun x => FloatValue.abs (FloatValue.sub x (compute_median s))),
      FloatValue.nonneg v := by
    intro v hv
    obtain ⟨x, hx, rfl⟩ := List.mem_map.mp hv
    exact float_deviation_nonneg x _ (hfin x hx) hm
  apply float_compute_median_closed FloatValue.nonneg _ (by simpa using hne) hdev
  intro x hx y hy
  exact float_half_sum_nonneg x y (hdev x hx) (hdev y hy)

theorem float_finalize_calibration_spread_floor (e : BedPresenceEngine)
    (h : spread_floor e) (hfin : samples_finite e) :
    spread_floor (finalize_calibration e) := by
  unfold spread_floor at *
  cases hact : e.calibrating_
  · rw [float_finalize_calibration_of_not_calibrating e hact]
    exact h
  · by_cases hne : e.calibration_samples_ = []
    · have hs : (finalize_calibration e).sigma_still_ = e.sigma_still_ := by
        simp [finalize_calibration, publish_change_reason, publish_reason, hact, hne]
      rw [hs]
      exact h
    · rw [float_finalize_calibration_sigma_still e hact hne]
      exact float_floor_ge _ (float_scale_nonneg _ (float_mad_nonneg _ hne hfin))

theorem float_loop_deadline_check_spread_floor (e : BedPresenceEngine) (now : Nat)
    (h : spread_floor e) (hfin : samples_finite e) :
    spread_floor (loop_deadline_check e now) ∧ samples_finite (loop_deadline_check e now) := by
  unfold loop_deadline_check
  split_ifs
  · exact ⟨float_finalize_calibration_spread_floor e h hfin,
      float_finalize_calibration_samples_finite e hfin⟩
  · exact ⟨h, hfin⟩

theorem float_handle_calibration_sample_spread_floor (e : BedPresenceEngine) (en : FloatValue)
    (now : Nat) (hen : FloatValue.is_num en) (h : spread_floor e) (hfin : samples_finite e) :
    spread_floor (handle_calibration_sample e en now) ∧
      samples_finite (handle_calibration_sample e en now) := by
  have hfin2 : samples_finite
      { e with calibration_samples_ := e.calibration_samples_ ++ [en] } := by
    intro x hx
    rcases List.mem_append.mp hx with hx1 | hx1
    · exact hfin x hx1
    · rw [List.mem_singleton.mp hx1]
      exact hen
  simp only [handle_calibration_sample]
  split_ifs
  · exact ⟨h, hfin⟩
  · exact ⟨float_finalize_calibration_spread_floor e h hfin,
      float_finalize_calibration_samples_finite e hfin⟩
  · exact ⟨float_finalize_calibration_spread_floor _ h hfin2,
      float_finalize_calibration_samples_finite _ hfin2⟩
  · exact ⟨h, hfin2⟩

theorem float_process_energy_reading_sigma_still_ (w : Nat) (e : BedPresenceEngine)
    (energy : FloatValue) (now : Nat) :
    (process_energy_reading w e energy now).sigma_still_ = e.sigma_still_ := by
  unfold process_energy_reading
  cases e.current_state_ <;> simp only [] <;> split_ifs <;> rfl

theorem float_process_energy_reading_calibration_samples_ (w : Nat) (e : BedPresenceEngine)
    (energy : FloatValue) (now : Nat) :
    (process_energy_reading w e energy now).calibration_samples_ = e.calibration_samples_ := by
  unfold process_energy_reading
  cases e.current_state_ <;> simp only [] <;> split_ifs <;> rfl

theorem float_loop_cases (w : Nat) (e : BedPresenceEngine) (energy distance : Option FloatValue)
    (now : Nat) :
    loop w e energy distance now = loop_deadline_check e now ∨
    ∃ en, energy = some en ∧ loop w e energy distance now =
      process_energy_reading w
        (handle_calibration_sample (loop_deadline_check e now) en now) en now := by
  cases energy with
  | none => exact Or.inl rfl
  | some en =>
    cases distance with
    | none => exact Or.inr ⟨en, rfl, rfl⟩
    | some d =>
      by_cases hg : (FloatValue.lt d (loop_deadline_check e now).d_min_cm_ ||
          FloatValue.gt d (loop_deadline_check e now).d_max_cm_) = true
      · left
        rw [float_loop_some_some, if_pos hg]
      · right
        refine ⟨en, rfl, ?_⟩
        rw [float_loop_some_some, if_neg hg]

theorem float_loop_spread_floor (w : Nat) (e : BedPresenceEngine)
    (energy distance : Option FloatValue) (now : Nat)
    (hen : Command.finite_energy (Command.loop energy distance now))
    (h : spread_floor e) (hfin : samples_finite e) :
    spread_floor (loop w e energy distance now) ∧
      samples_finite (loop w e energy distance now) := by
  have h0 := float_loop_deadline_check_spread_floor e now h hfin
  rcases float_loop_cases w e energy distance now with hl | ⟨en, hsome, hl⟩ <;> rw [hl]
  · exact h0
  · subst hsome
    have h1 := float_handle_calibration_sample_spread_floor _ en now hen h0.1 h0.2
    unfold spread_floor samples_finite
    rw [float_process_energy_reading_sigma_still_,
      float_process_energy_reading_calibration_samples_]
    exact h1

theorem float_apply_spread_floor (w : Nat) (e : BedPresenceEngine) (c : Command)
    (hc : Command.finite_energy c) (h : spread_floor e) (hfin : samples_finite e) :
    spread_floor (Command.apply w e c) ∧ samples_finite (Command.apply w e c) := by
  cases c with
  | loop energy distance now => exact float_loop_spread_floor w e energy distance now hc h hfin
  | start_baseline_calibration d now =>
    simp only [Command.apply, start_baseline_calibration]
    split_ifs
    · exact ⟨h, hfin⟩
    · exact ⟨h, fun x hx => absurd hx (List.not_mem_nil x)⟩
  | stop_baseline_calibration =>
    simp only [Command.apply, stop_baseline_calibration]
    split_ifs
    · exact ⟨h, hfin⟩
    · exact ⟨float_finalize_calibration_spread_floor e h hfin,
        float_finalize_calibration_samples_finite e hfin⟩
  | reset_to_defaults =>
    refine ⟨?_, fun x hx => absurd hx (List.not_mem_nil x)⟩
    show FloatValue.ge (FloatValue.num (35 / 10)) (FloatValue.num (5 / 100)) = true
    norm_num [FloatValue.ge, FloatValue.le]
  | _ => exact ⟨h, hfin⟩

theorem float_run_spread_floor (w : Nat) (cmds : List Command) :
    ∀ e : BedPresenceEngine, (∀ c ∈ cmds, Command.finite_energy c) →
      spread_floor e → samples_finite e →
      spread_floor (run w e cmds) ∧ samples_finite (run w e cmds) := by
  induction cmds with
  | nil => intro e _ h hfin; exact ⟨h, hfin⟩
  | cons c cs ih =>
    intro e hall h hfin
    have h1 := float_apply_spread_floor w e c (hall c (List.mem_cons_self c cs)) h hfin
    exact ih _ (fun c2 hc2 => hall c2 (List.mem_cons_of_mem c hc2)) h1.1 h1.2

theorem float_calculate_z_score_of_spread_floor (e : BedPresenceEngine) (h : spread_floor e)
    (energy : FloatValue) :
    FloatValue.gt e.sigma_still_ (FloatValue.num (1 / 1000)) = true ∧
    calculate_z_score energy e.mu_still_ e.sigma_still_ =
      FloatValue.div (FloatValue.sub energy e.mu_still_) e.sigma_still_ := by
  unfold spread_floor at h
  have hgt : FloatValue.gt e.sigma_still_ (FloatValue.num (1 / 1000)) = true := by
    cases hs : e.sigma_still_ <;> rw [hs] at h <;>
      simp [FloatValue.ge, FloatValue.le, FloatValue.gt, FloatValue.lt] at h ⊢
    linarith
  refine ⟨hgt, ?_⟩
  unfold calculate_z_score
  rw [if_neg]
  rw [Bool.not_eq_true]
  exact float_lt_imp_not_le _ _ hgt


theorem float_nth_element_map_num (qs : List ℚ) (n : Nat) :
    nth_element (qs.map FloatValue.num) n = (BedPresence.nth_element qs n).map FloatValue.num := by
  unfold nth_element BedPresence.nth_element
  symm
  apply List.map_insertionSort
  intro a _ b _
  simp [FloatValue.lt]

theorem float_ofRat_of_in_range (q : ℚ) (h1 : -FLT_MAX ≤ q) (h2 : q ≤ FLT_MAX) :
    FloatValue.ofRat q = FloatValue.num q := by
  unfold FloatValue.ofRat
  rw [if_neg (not_lt.mpr h2), if_neg (not_lt.mpr h1)]

theorem float_half_sum_of_in_range (x y : ℚ) (h1 : -FLT_MAX ≤ x + y) (h2 : x + y ≤ FLT_MAX) :
    FloatValue.div (FloatValue.add (FloatValue.num x) (FloatValue.num y)) (FloatValue.num 2) =
      FloatValue.num ((x + y) / 2) := by
  have hpos : (0 : ℚ) < FLT_MAX := by norm_num [FLT_MAX]
  simp only [FloatValue.add]
  rw [float_ofRat_of_in_range _ h1 h2]
  simp only [FloatValue.div]
  rw [if_neg (by norm_num)]
  exact float_ofRat_of_in_range _ (by linarith) (by linarith)

theorem float_compute_median_map_num (qs : List ℚ) (hne : qs ≠ []) :
    compute_median (qs.map FloatValue.num) =
      if qs.length % 2 = 0 then
        FloatValue.div
          (FloatValue.add (FloatValue.num (spec_order_statistic qs (qs.length / 2)))
            (FloatValue.num (spec_order_statistic qs (qs.length / 2 - 1))))
          (FloatValue.num 2)
      else FloatValue.num (spec_order_statistic qs (qs.length / 2)) := by
  have hpos : 0 < qs.length := List.length_pos.mpr hne
  have hmid : qs.length / 2 < qs.length := Nat.div_lt_self hpos (by decide)
  have hempty : (qs.map FloatValue.num).isEmpty = false := by
    cases qs with
    | nil => exact absurd rfl hne
    | cons a l => rfl
  have h1 : (BedPresence.nth_element qs (qs.length / 2)).getD (qs.length / 2) 0 =
      spec_order_statistic qs (qs.length / 2) :=
    getD_eq_spec_order_statistic (nth_element_perm _ _) (nth_element_sorted _ _) hmid
  have h2 : (BedPresence.nth_element (BedPresence.nth_element qs (qs.length / 2))
        (qs.length / 2 - 1)).getD (qs.length / 2 - 1) 0 =
      spec_order_statistic qs (qs.length / 2 - 1) :=
    getD_eq_spec_order_statistic
      ((nth_element_perm _ _).trans (nth_element_perm _ _)) (nth_element_sorted _ _)
      (by omega)
  simp only [compute_median, hempty, List.length_map, float_nth_element_map_num,
    List.getD_map, h1, h2]
  rw [if_neg Bool.false_ne_true]

theorem float_compute_median_mem_interval (qs : List ℚ) (a b : ℚ) (hne : qs ≠ [])
    (hrange : qs.length % 2 = 1 ∨ (-FLT_MAX / 2 ≤ a ∧ b ≤ FLT_MAX / 2))
    (hmaj : 2 * qs.countP (fun x => decide (a ≤ x ∧ x ≤ b)) > qs.length) :
    ∃ m : ℚ, compute_median (qs.map FloatValue.num) = FloatValue.num m ∧ a ≤ m ∧ m ≤ b := by
  have hpos : 0 < qs.length := List.length_pos.mpr hne
  rw [float_compute_median_map_num qs hne]
  have hmid := (spec_order_statistic_isOrderStatistic qs (qs.length / 2)
    (Nat.div_lt_self hpos (by decide))).mem_interval a b (by omega) (by omega)
  split_ifs with heven
  · have hlow := (spec_order_statistic_isOrderStatistic qs (qs.length / 2 - 1)
      (by omega)).mem_interval a b (by omega) (by omega)
    have hr : -FLT_MAX / 2 ≤ a ∧ b ≤ FLT_MAX / 2 := by
      rcases hrange with hodd | hr
      · omega
      · exact hr
    refine ⟨_, float_half_sum_of_in_range _ _ ?_ ?_, ?_, ?_⟩
    · linarith [hmid.1, hlow.1, hr.1]
    · linarith [hmid.2, hlow.2, hr.2]
    · linarith [hmid.1, hlow.1]
    · linarith [hmid.2, hlow.2]
  · exact ⟨_, rfl, hmid⟩


theorem calibrated_on_nan_sigma : calibrated_on_nan.sigma_still_ = FloatValue.nan := by
  norm_num [calibrated_on_nan, run, Command.apply, start_baseline_calibration, loop,
    stop_baseline_calibration, finalize_calibration, handle_calibration_sample,
    process_energy_reading, calculate_z_score, compute_median, nth_element,
    publish_change_reason, publish_reason, publish_state, uadd, BedPresenceEngine.init,
    MAX_CALIBRATION_SAMPLES,
    FloatValue.lt, FloatValue.le, FloatValue.ge, FloatValue.gt, FloatValue.sub, FloatValue.add,
    FloatValue.neg, FloatValue.div, FloatValue.mul, FloatValue.abs]

theorem calibrated_on_inf_sigma : calibrated_on_inf.sigma_still_ = FloatValue.nan := by
  norm_num [calibrated_on_inf, run, Command.apply, start_baseline_calibration, loop,
    stop_baseline_calibration, finalize_calibration, handle_calibration_sample,
    process_energy_reading, calculate_z_score, compute_median, nth_element,
    publish_change_reason, publish_reason, publish_state, uadd, BedPresenceEngine.init,
    MAX_CALIBRATION_SAMPLES,
    FloatValue.lt, FloatValue.le, FloatValue.ge, FloatValue.gt, FloatValue.sub, FloatValue.add,
    FloatValue.neg, FloatValue.div, FloatValue.mul, FloatValue.abs]

theorem calibrated_on_large_mu : calibrated_on_large.mu_still_ = FloatValue.pos_inf := by
  norm_num [calibrated_on_large, run, Command.apply, start_baseline_calibration, loop,
    stop_baseline_calibration, finalize_calibration, handle_calibration_sample,
    process_energy_reading, calculate_z_score, compute_median, nth_element,
    publish_change_reason, publish_reason, publish_state, uadd, BedPresenceEngine.init,
    MAX_CALIBRATION_SAMPLES,
    FloatValue.lt, FloatValue.le, FloatValue.ge, FloatValue.gt, FloatValue.sub, FloatValue.add,
    FloatValue.neg, FloatValue.div, FloatValue.mul, FloatValue.abs, FloatValue.ofRat,
    FloatValue.inf_of_sign, FLT_MAX, two_pow_127, usub]

/-! ## The distance gate -/

/-- C15, as stated, fails: with the window `[50, 200]` a tick whose distance sensor
reports NaN is present and does not satisfy `d_min <= distance <= d_max`, yet it
passes the gate of `loop`, since both `distance < d_min` and `distance > d_max` are
false: the tick gives the engine of the same tick without a distance reading, and
the state machine moves the engine from `IDLE` to `DEBOUNCING_ON`. -/
theorem distance_gate_nan_counterexample :
    ¬ spec_admits (some FloatValue.nan) SimplePresenceEngine_window.d_min_cm_
      SimplePresenceEngine_window.d_max_cm_ ∧
    SimplePresenceEngine_window.current_state_ = State.IDLE ∧
    loop 32 SimplePresenceEngine_window (some (FloatValue.num 185)) (some FloatValue.nan) 0 =
      loop 32 SimplePresenceEngine_window (some (FloatValue.num 185)) none 0 ∧
    (loop 32 SimplePresenceEngine_window (some (FloatValue.num 185))
      (some FloatValue.nan) 0).current_state_ = State.DEBOUNCING_ON := by
  refine ⟨?_, rfl, rfl, ?_⟩
  · simp [spec_admits, FloatValue.le]
  · norm_num [loop, SimplePresenceEngine_window, SimplePresenceEngine, BedPresenceEngine.init,
      handle_calibration_sample, process_energy_reading, calculate_z_score,
      FloatValue.lt, FloatValue.gt, FloatValue.le, FloatValue.ge, FloatValue.sub,
      FloatValue.add, FloatValue.neg, FloatValue.div, FloatValue.ofRat, FLT_MAX]

/-- C15, amended: the distance gate over `float` values.  A tick with an energy
reading goes on to calibration sampling and the state machine exactly when no
distance reading is present or the reading passes the gate of `loop`, that is when
neither `distance < d_min` nor `distance > d_max` holds: such a tick yields
`process_energy_reading` after `handle_calibration_sample` on the deadline-checked
engine, any other tick yields the deadline-checked engine alone.  When the reading
and both bounds are not NaN, passing the gate is `d_min <= distance <= d_max`, both
bounds included; a NaN reading passes the gate although it is not in the window.  A
tick with a distance reading that passes the gate yields exactly the engine of the
same tick without a distance reading. -/
theorem distance_gate_float (w : Nat) (e : BedPresenceEngine) (en : FloatValue)
    (distance : Option FloatValue) (now : Nat) :
    (gate_admits distance e.d_min_cm_ e.d_max_cm_ →
      loop w e (some en) distance now =
        process_energy_reading w
          (handle_calibration_sample (loop_deadline_check e now) en now) en now) ∧
    (¬ gate_admits distance e.d_min_cm_ e.d_max_cm_ →
      loop w e (some en) distance now = loop_deadline_check e now) ∧
    (∀ d : FloatValue, d ≠ FloatValue.nan → e.d_min_cm_ ≠ FloatValue.nan →
      e.d_max_cm_ ≠ FloatValue.nan →
      (gate_admits (some d) e.d_min_cm_ e.d_max_cm_ ↔
        spec_admits (some d) e.d_min_cm_ e.d_max_cm_)) ∧
    (gate_admits (some FloatValue.nan) e.d_min_cm_ e.d_max_cm_ ∧
      ¬ spec_admits (some FloatValue.nan) e.d_min_cm_ e.d_max_cm_) ∧
    (∀ d : FloatValue, gate_admits (some d) e.d_min_cm_ e.d_max_cm_ →
      loop w e (some en) (some d) now = loop w e (some en) none now) := by
  have hsome : ∀ d : FloatValue, gate_admits (some d) e.d_min_cm_ e.d_max_cm_ →
      loop w e (some en) (some d) now =
        process_energy_reading w
          (handle_calibration_sample (loop_deadline_check e now) en now) en now := by
    intro d hd
    rw [float_loop_some_some, float_loop_deadline_check_d_min_cm_,
      float_loop_deadline_check_d_max_cm_]
    have hd2 : (FloatValue.lt d e.d_min_cm_ || FloatValue.gt d e.d_max_cm_) = false := hd
    rw [hd2]
    rfl
  refine ⟨?_, ?_, ?_, ⟨?_, ?_⟩, ?_⟩
  · intro hadm
    cases distance with
    | none => rfl
    | some d => exact hsome d hadm
  · intro hrej
    cases distance with
    | none => exact absurd trivial hrej
    | some d =>
      rw [float_loop_some_some, float_loop_deadline_check_d_min_cm_,
        float_loop_deadline_check_d_max_cm_]
      have hd2 : (FloatValue.lt d e.d_min_cm_ || FloatValue.gt d e.d_max_cm_) = true := by
        cases hb : (FloatValue.lt d e.d_min_cm_ || FloatValue.gt d e.d_max_cm_)
        · exact absurd hb hrej
        · rfl
      rw [if_pos hd2]
  · intro d hd hmin hmax
    unfold gate_admits spec_admits
    simp only [Bool.or_eq_false_iff, FloatValue.gt]
    rw [float_lt_false_iff_le d _ hd hmin, float_lt_false_iff_le _ d hmax hd]
  · simp [gate_admits, FloatValue.lt, FloatValue.gt]
  · simp [spec_admits, FloatValue.le]
  · intro d hd
    rw [hsome d hd]
    rfl

theorem distance_gate_float_witness :
    loop 32 SimplePresenceEngine_window (some (FloatValue.num 185))
        (some (FloatValue.num 50)) 0 =
      loop 32 SimplePresenceEngine_window (some (FloatValue.num 185)) none 0 ∧
    loop 32 SimplePresenceEngine_window (some (FloatValue.num 185))
        (some (FloatValue.num 201)) 0 = SimplePresenceEngine_window :=
  ⟨(distance_gate_float 32 SimplePresenceEngine_window (FloatValue.num 185)
      (some (FloatValue.num 50)) 0).2.2.2.2 (FloatValue.num 50)
      (by norm_num [gate_admits, SimplePresenceEngine_window, FloatValue.lt, FloatValue.gt]),
   ((distance_gate_float 32 SimplePresenceEngine_window (FloatValue.num 185)
      (some (FloatValue.num 201)) 0).2.1
      (by norm_num [gate_admits, SimplePresenceEngine_window, FloatValue.lt,
        FloatValue.gt])).trans rfl⟩



/-! ## The baseline spread over `float` values -/

theorem float_div_nan (x : FloatValue) : FloatValue.div x FloatValue.nan = FloatValue.nan := by
  cases x <;> rfl

/-- C24, as stated, fails: a calibration of a freshly constructed engine whose only
sample is a NaN energy reading ends with the spread NaN, since the median, the
deviation and `mad * 1.4826` are NaN and `sigma < 0.05` is false for NaN.  In that
reachable state neither `spread >= 0.05` nor `spread > 0.001` holds, and the score
of a reading of `185` is NaN.  An infinite energy reading gives the same spread. -/
theorem spread_floor_nan_counterexample :
    calibrated_on_nan.sigma_still_ = FloatValue.nan ∧
    FloatValue.ge calibrated_on_nan.sigma_still_ (FloatValue.num (5 / 100)) = false ∧
    FloatValue.gt calibrated_on_nan.sigma_still_ (FloatValue.num (1 / 1000)) = false ∧
    calculate_z_score (FloatValue.num 185) calibrated_on_nan.mu_still_
      calibrated_on_nan.sigma_still_ = FloatValue.nan ∧
    calibrated_on_inf.sigma_still_ = FloatValue.nan := by
  rw [calibrated_on_nan_sigma, calibrated_on_inf_sigma]
  refine ⟨rfl, rfl, rfl, ?_, rfl⟩
  unfold calculate_z_score
  rw [if_neg (by simp [FloatValue.le])]
  exact float_div_nan _

/-- C24, amended: in every state reached from a default-constructed engine, before or
after its `setup`, by any sequence of ticks, setters, calibration start/stop commands
and `reset_to_defaults` in which every energy reading of a tick is a number (neither
NaN nor an infinity), the baseline spread is at least `0.05` in the comparison of
`float`, hence above `0.001` and not NaN; and in every tick with such a reading from
such a state the engine handed to `process_energy_reading` has a spread above
`0.001`, so the score it computes is `(energy - mean) / spread` and the neutral
branch of `calculate_z_score` is not taken. -/
theorem spread_floor_invariant_float (w : Nat) (cmds : List Command)
    (hfin : ∀ c ∈ cmds, Command.finite_energy c) :
    (FloatValue.ge (run w BedPresenceEngine.init cmds).sigma_still_
        (FloatValue.num (5 / 100)) = true ∧
      FloatValue.gt (run w BedPresenceEngine.init cmds).sigma_still_
        (FloatValue.num (1 / 1000)) = true) ∧
    (FloatValue.ge (run w (setup BedPresenceEngine.init) cmds).sigma_still_
        (FloatValue.num (5 / 100)) = true ∧
      FloatValue.gt (run w (setup BedPresenceEngine.init) cmds).sigma_still_
        (FloatValue.num (1 / 1000)) = true) ∧
    (∀ (e0 : BedPresenceEngine) (energy : FloatValue) (now : Nat),
      e0 = BedPresenceEngine.init ∨ e0 = setup BedPresenceEngine.init →
      FloatValue.is_num energy →
      FloatValue.gt
        (handle_calibration_sample
          (loop_deadline_check (run w e0 cmds) now) energy now).sigma_still_
        (FloatValue.num (1 / 1000)) = true ∧
      calculate_z_score energy
        (handle_calibration_sample
          (loop_deadline_check (run w e0 cmds) now) energy now).mu_still_
        (handle_calibration_sample
          (loop_deadline_check (run w e0 cmds) now) energy now).sigma_still_ =
        FloatValue.div
          (FloatValue.sub energy (handle_calibration_sample
            (loop_deadline_check (run w e0 cmds) now) energy now).mu_still_)
          (handle_calibration_sample
            (loop_deadline_check (run w e0 cmds) now) energy now).sigma_still_) := by
  have hinit : spread_floor BedPresenceEngine.init := by
    norm_num [spread_floor, BedPresenceEngine.init, FloatValue.ge, FloatValue.le]
  have hsetup : spread_floor (setup BedPresenceEngine.init) := by
    norm_num [spread_floor, setup, publish_change_reason, publish_reason, publish_state,
      BedPresenceEngine.init, FloatValue.ge, FloatValue.le]
  have hnil1 : samples_finite BedPresenceEngine.init :=
    fun x hx => absurd hx (List.not_mem_nil x)
  have hnil2 : samples_finite (setup BedPresenceEngine.init) :=
    fun x hx => absurd hx (List.not_mem_nil x)
  have h1 := float_run_spread_floor w cmds _ hfin hinit hnil1
  have h2 := float_run_spread_floor w cmds _ hfin hsetup hnil2
  refine ⟨⟨h1.1, (float_calculate_z_score_of_spread_floor _ h1.1 (FloatValue.num 0)).1⟩,
    ⟨h2.1, (float_calculate_z_score_of_spread_floor _ h2.1 (FloatValue.num 0)).1⟩, ?_⟩
  intro e0 energy now he0 hen
  have h0 : spread_floor (run w e0 cmds) ∧ samples_finite (run w e0 cmds) := by
    rcases he0 with rfl | rfl
    · exact h1
    · exact h2
  have h3 := float_loop_deadline_check_spread_floor _ now h0.1 h0.2
  exact float_calculate_z_score_of_spread_floor _
    (float_handle_calibration_sample_spread_floor _ energy now hen h3.1 h3.2).1 energy

theorem spread_floor_invariant_float_witness :
    FloatValue.ge
      (run 32 BedPresenceEngine.init
        [Command.start_baseline_calibration 1 0,
         Command.loop (some (FloatValue.num 120)) none 100,
         Command.stop_baseline_calibration]).sigma_still_
      (FloatValue.num (5 / 100)) = true :=
  (spread_floor_invariant_float 32
    [Command.start_baseline_calibration 1 0,
     Command.loop (some (FloatValue.num 120)) none 100,
     Command.stop_baseline_calibration]
    (by
      intro c hc
      simp only [List.mem_cons, List.mem_singleton, List.not_mem_nil, or_false] at hc
      rcases hc with rfl | rfl | rfl <;> simp [Command.finite_energy, FloatValue.is_num])).1.1

/-! ## Robustness of the median over `float` values -/

/-- C23, as stated, fails: the median of the two finite samples `2 ^ 127` and
`2 ^ 127` is `+inf`, since their sum overflows before it is halved; it is above the
largest sample, and a calibration on these two readings writes `+inf` as the
baseline mean.  The median of a single NaN sample is NaN, which is not between any
two values. -/
theorem median_overflow_counterexample :
    compute_median [FloatValue.num two_pow_127, FloatValue.num two_pow_127] =
      FloatValue.pos_inf ∧
    FloatValue.le (compute_median [FloatValue.num two_pow_127, FloatValue.num two_pow_127])
      (FloatValue.num two_pow_127) = false ∧
    calibrated_on_large.mu_still_ = FloatValue.pos_inf ∧
    compute_median [FloatValue.nan] = FloatValue.nan := by
  have h : compute_median [FloatValue.num two_pow_127, FloatValue.num two_pow_127] =
      FloatValue.pos_inf := by
    norm_num [compute_median, nth_element, FloatValue.lt, FloatValue.add, FloatValue.div,
      FloatValue.ofRat, FLT_MAX, two_pow_127]
  refine ⟨h, ?_, calibrated_on_large_mu, ?_⟩
  · rw [h]
    rfl
  · simp [compute_median, nth_element]

/-- C23, amended: robustness of the calibrated mean over `float` values.  For every
non-empty list of samples that are numbers and every interval `[a, b]` that holds
strictly more than half of the samples, whatever the other numbers are, the median
computed by `compute_median`, which `finalize_calibration` writes as the baseline
mean, is a number in `[a, b]`, provided the count of samples is odd or
`-FLT_MAX / 2 <= a` and `b <= FLT_MAX / 2`, so that the sum of the two central
samples cannot overflow.  In particular, under the same proviso, the median lies
within every pair of bounds that encloses all samples, hence between the smallest
and the largest sample. -/
theorem median_robust_float (qs : List ℚ) (hne : qs ≠ []) :
    (∀ a b : ℚ, qs.length % 2 = 1 ∨ (-FLT_MAX / 2 ≤ a ∧ b ≤ FLT_MAX / 2) →
      2 * qs.countP (fun x => decide (a ≤ x ∧ x ≤ b)) > qs.length →
      ∃ m : ℚ, compute_median (qs.map FloatValue.num) = FloatValue.num m ∧ a ≤ m ∧ m ≤ b) ∧
    (∀ (e : BedPresenceEngine) (a b : ℚ), e.calibrating_ = true →
      e.calibration_samples_ = qs.map FloatValue.num →
      qs.length % 2 = 1 ∨ (-FLT_MAX / 2 ≤ a ∧ b ≤ FLT_MAX / 2) →
      2 * qs.countP (fun x => decide (a ≤ x ∧ x ≤ b)) > qs.length →
      ∃ m : ℚ, (finalize_calibration e).mu_still_ = FloatValue.num m ∧ a ≤ m ∧ m ≤ b) ∧
    (∀ lo hi : ℚ, qs.length % 2 = 1 ∨ (-FLT_MAX / 2 ≤ lo ∧ hi ≤ FLT_MAX / 2) →
      (∀ x ∈ qs, lo ≤ x ∧ x ≤ hi) →
      ∃ m : ℚ, compute_median (qs.map FloatValue.num) = FloatValue.num m ∧
        lo ≤ m ∧ m ≤ hi) := by
  refine ⟨fun a b hr h => float_compute_median_mem_interval qs a b hne hr h, ?_, ?_⟩
  · intro e a b hact hs hr hmaj
    rw [float_finalize_calibration_mu_still e hact (by rw [hs]; simpa using hne), hs]
    exact float_compute_median_mem_interval qs a b hne hr hmaj
  · intro lo hi hr hall
    apply float_compute_median_mem_interval qs lo hi hne hr
    have hcount : qs.countP (fun x => decide (lo ≤ x ∧ x ≤ hi)) = qs.length := by
      rw [List.countP_eq_length]
      intro x hx
      simpa using hall x hx
    have hpos : 0 < qs.length := List.length_pos.mpr hne
    omega

theorem median_robust_float_witness :
    ∃ m : ℚ, compute_median (([120, 110, 130, 800, 125] : List ℚ).map FloatValue.num) =
      FloatValue.num m ∧ (120 : ℚ) ≤ m ∧ m ≤ 130 :=
  (median_robust_float [120, 110, 130, 800, 125] (by simp)).1 120 130
    (Or.inr ⟨by norm_num [FLT_MAX], by norm_num [FLT_MAX]⟩)
    (by
      have h : List.countP (fun x => decide ((120 : ℚ) ≤ x ∧ x ≤ 130))
          [120, 110, 130, 800, 125] = 3 := by
        simp only [List.countP_cons, List.countP_nil]
        norm_num
      rw [h]
      decide)

/-! ## The transition table over `float` values -/

theorem float_not_true_of_false {b : Bool} (h : b = false) : ¬ b = true := by
  rw [h]
  exact Bool.false_ne_true

theorem float_false_of_not_true {b : Bool} (h : ¬ b = true) : b = false := by
  cases b
  · rfl
  · exact absurd rfl h

theorem SimplePresenceEngine_debouncing_on_float_eq :
    SimplePresenceEngine_debouncing_on =
      { SimplePresenceEngine with
        current_state_ := State.DEBOUNCING_ON, debounce_start_time_ := 0 } := by
  norm_num [SimplePresenceEngine_debouncing_on, SimplePresenceEngine, run, Command.apply, loop,
    handle_calibration_sample, process_energy_reading, calculate_z_score,
    publish_change_reason, publish_reason, publish_state, usub, BedPresenceEngine.init,
    FloatValue.lt, FloatValue.le, FloatValue.ge, FloatValue.gt, FloatValue.sub, FloatValue.add,
    FloatValue.neg, FloatValue.div, FloatValue.ofRat, FLT_MAX]

theorem SimplePresenceEngine_present_float_eq :
    SimplePresenceEngine_present =
      { SimplePresenceEngine with
        current_state_ := State.PRESENT, last_high_confidence_time_ := 3000,
        presence_output := true,
        state_reason_log := [Reason.on (FloatValue.num (17 / 4)) 3000],
        change_reason_log := ["on:threshold_exceeded"] } := by
  norm_num [SimplePresenceEngine_present, SimplePresenceEngine, run, Command.apply, loop,
    handle_calibration_sample, process_energy_reading, calculate_z_score,
    publish_change_reason, publish_reason, publish_state, usub, BedPresenceEngine.init,
    FloatValue.lt, FloatValue.le, FloatValue.ge, FloatValue.gt, FloatValue.sub, FloatValue.add,
    FloatValue.neg, FloatValue.div, FloatValue.ofRat, FLT_MAX]

theorem float_process_energy_reading_of_unique_row (w : Nat) (e : BedPresenceEngine)
    (energy : FloatValue) (now : Nat) (r : Row)
    (hr : Row.applies w e (calculate_z_score energy e.mu_still_ e.sigma_still_) now r)
    (huniq : ∀ r2, Row.applies w e (calculate_z_score energy e.mu_still_ e.sigma_still_) now r2 →
      r2 = r) :
    process_energy_reading w e energy now =
      Row.action e (calculate_z_score energy e.mu_still_ e.sigma_still_) now r := by
  obtain ⟨hst, hc⟩ := hr
  cases r <;> simp only [Row.state] at hst <;> have hst2 := hst.symm <;>
    simp only [Row.condition] at hc <;> simp only [Row.action, process_energy_reading, hst2]
  · rw [if_pos hc]
  · rw [if_neg (float_not_true_of_false hc)]
  · rw [if_pos hc.1, if_pos hc.2]
  · rw [if_pos hc.1, if_neg hc.2]
  · rw [if_neg (float_not_true_of_false (float_lt_imp_ge_false _ _ hc))]
  · have hnl : ¬ FloatValue.lt (calculate_z_score energy e.mu_still_ e.sigma_still_)
        e.k_off_ = true := by
      intro h
      by_cases ht : usub w now e.last_high_confidence_time_ ≥ e.abs_clear_delay_ms_
      · exact Row.noConfusion (huniq Row.present_clear ⟨hst, h, ht⟩)
      · exact Row.noConfusion (huniq Row.present_hold ⟨hst, h, ht⟩)
    rw [if_pos hc]
    exact if_neg hnl
  · have hnk : ¬ FloatValue.gt (calculate_z_score energy e.mu_still_ e.sigma_still_)
        e.k_on_ = true := fun h =>
      Row.noConfusion (huniq Row.present_refresh ⟨hst, h⟩)
    rw [if_neg hnk, if_pos hc.1, if_pos hc.2]
  · have hnk : ¬ FloatValue.gt (calculate_z_score energy e.mu_still_ e.sigma_still_)
        e.k_on_ = true := fun h =>
      Row.noConfusion (huniq Row.present_refresh ⟨hst, h⟩)
    rw [if_neg hnk, if_pos hc.1, if_neg hc.2]
  · rw [if_pos hc.1, if_pos hc.2]
  · rw [if_pos hc.1, if_neg hc.2]
  · have hnl : ¬ FloatValue.lt (calculate_z_score energy e.mu_still_ e.sigma_still_)
        e.k_off_ = true := by
      intro h
      by_cases ht : usub w now e.debounce_start_time_ ≥ e.off_debounce_ms_
      · exact Row.noConfusion (huniq Row.debouncing_off_confirm ⟨hst, h, ht⟩)
      · exact Row.noConfusion (huniq Row.debouncing_off_wait ⟨hst, h, ht⟩)
    rw [if_neg hnl, if_pos hc]

theorem float_no_row_applies_iff (w : Nat) (e : BedPresenceEngine) (z : FloatValue)
    (now : Nat) :
    (¬ ∃ r : Row, Row.applies w e z now r) ↔
      (e.current_state_ = State.PRESENT ∧ FloatValue.gt z e.k_on_ = false ∧
        FloatValue.lt z e.k_off_ = false) ∨
      (e.current_state_ = State.DEBOUNCING_OFF ∧ FloatValue.lt z e.k_off_ = false ∧
        FloatValue.ge z e.k_on_ = false) ∨
      (e.current_state_ = State.DEBOUNCING_ON ∧ FloatValue.ge z e.k_on_ = false ∧
        FloatValue.lt z e.k_on_ = false) := by
  constructor
  · intro hno
    have hno2 : ∀ r : Row, r.state = e.current_state_ → ¬ Row.condition w e z now r :=
      fun r hs hc => hno ⟨r, hs, hc⟩
    cases hst : e.current_state_
    · exfalso
      cases h : FloatValue.ge z e.k_on_
      · exact hno2 Row.idle_else hst.symm h
      · exact hno2 Row.idle_on hst.symm h
    · right
      right
      refine ⟨rfl, ?_, ?_⟩
      · apply float_false_of_not_true
        intro h
        by_cases ht : usub w now e.debounce_start_time_ ≥ e.on_debounce_ms_
        · exact hno2 Row.debouncing_on_confirm hst.symm ⟨h, ht⟩
        · exact hno2 Row.debouncing_on_wait hst.symm ⟨h, ht⟩
      · apply float_false_of_not_true
        intro h
        exact hno2 Row.debouncing_on_abort hst.symm h
    · left
      refine ⟨rfl, ?_, ?_⟩
      · apply float_false_of_not_true
        intro h
        exact hno2 Row.present_refresh hst.symm h
      · apply float_false_of_not_true
        intro h
        by_cases ht : usub w now e.last_high_confidence_time_ ≥ e.abs_clear_delay_ms_
        · exact hno2 Row.present_clear hst.symm ⟨h, ht⟩
        · exact hno2 Row.present_hold hst.symm ⟨h, ht⟩
    · right
      left
      refine ⟨rfl, ?_, ?_⟩
      · apply float_false_of_not_true
        intro h
        by_cases ht : usub w now e.debounce_start_time_ ≥ e.off_debounce_ms_
        · exact hno2 Row.debouncing_off_confirm hst.symm ⟨h, ht⟩
        · exact hno2 Row.debouncing_off_wait hst.symm ⟨h, ht⟩
      · apply float_false_of_not_true
        intro h
        exact hno2 Row.debouncing_off_abort hst.symm h
  · rintro (⟨hst, h1, h2⟩ | ⟨hst, h1, h2⟩ | ⟨hst, h1, h2⟩) ⟨r, hs, hc⟩ <;> rw [hst] at hs <;>
      cases r <;> simp [Row.state] at hs <;> simp only [Row.condition] at hc <;>
      first
      | exact float_not_true_of_false h1 hc
      | exact float_not_true_of_false h2 hc
      | exact float_not_true_of_false h1 hc.1
      | exact float_not_true_of_false h2 hc.1

theorem float_process_energy_reading_of_no_row (w : Nat) (e : BedPresenceEngine)
    (energy : FloatValue) (now : Nat)
    (hno : ¬ ∃ r : Row,
      Row.applies w e (calculate_z_score energy e.mu_still_ e.sigma_still_) now r) :
    (e.current_state_ ≠ State.DEBOUNCING_ON → process_energy_reading w e energy now = e) ∧
    (e.current_state_ = State.DEBOUNCING_ON →
      process_energy_reading w e energy now = { e with current_state_ := State.IDLE }) := by
  rcases (float_no_row_applies_iff w e _ now).mp hno with
    ⟨hst, h1, h2⟩ | ⟨hst, h1, h2⟩ | ⟨hst, h1, h2⟩
  · refine ⟨fun _ => ?_, fun h => ?_⟩
    · simp only [process_energy_reading, hst]
      rw [if_neg (float_not_true_of_false h1)]
      exact if_neg (float_not_true_of_false h2)
    · rw [hst] at h
      exact State.noConfusion h
  · refine ⟨fun _ => ?_, fun h => ?_⟩
    · simp only [process_energy_reading, hst]
      rw [if_neg (float_not_true_of_false h1), if_neg (float_not_true_of_false h2)]
    · rw [hst] at h
      exact State.noConfusion h
  · refine ⟨fun h => absurd hst h, fun _ => ?_⟩
    simp only [process_energy_reading, hst]
    rw [if_neg (float_not_true_of_false h1)]

theorem float_row_applies_unique (w : Nat) (e : BedPresenceEngine) (z : FloatValue) (now : Nat)
    (hconv : FloatValue.lt e.k_on_ e.k_off_ = false ∨ e.current_state_ = State.IDLE ∨
      e.current_state_ = State.DEBOUNCING_ON)
    (r1 r2 : Row) (h1 : Row.applies w e z now r1) (h2 : Row.applies w e z now r2) :
    r1 = r2 := by
  obtain ⟨hs1, hc1⟩ := h1
  obtain ⟨hs2, hc2⟩ := h2
  have hs : r1.state = r2.state := hs1.trans hs2.symm
  have hgl : ∀ k : FloatValue, FloatValue.ge z k = true → FloatValue.lt z k = true → False :=
    fun k hg hl => float_not_true_of_false (float_lt_imp_ge_false z k hl) hg
  have hband1 : FloatValue.gt z e.k_on_ = true → FloatValue.lt z e.k_off_ = true →
      e.current_state_ = State.PRESENT ∨ e.current_state_ = State.DEBOUNCING_OFF → False := by
    intro ha hb hstate
    have hlt := float_lt_trans _ _ _ ha hb
    rcases hconv with hk | hk | hk
    · exact float_not_true_of_false hk hlt
    · rcases hstate with h | h <;> rw [h] at hk <;> exact State.noConfusion hk
    · rcases hstate with h | h <;> rw [h] at hk <;> exact State.noConfusion hk
  have hband2 : FloatValue.ge z e.k_on_ = true → FloatValue.lt z e.k_off_ = true →
      e.current_state_ = State.PRESENT ∨ e.current_state_ = State.DEBOUNCING_OFF → False := by
    intro ha hb hstate
    have hlt := float_le_lt_trans _ _ _ ha hb
    rcases hconv with hk | hk | hk
    · exact float_not_true_of_false hk hlt
    · rcases hstate with h | h <;> rw [h] at hk <;> exact State.noConfusion hk
    · rcases hstate with h | h <;> rw [h] at hk <;> exact State.noConfusion hk
  cases r1 <;> cases r2 <;> simp [Row.state] at hs <;> simp only [Row.state] at hs1 <;>
    simp only [Row.condition] at hc1 hc2 <;> first
    | rfl
    | exact absurd hc1.2 hc2.2
    | exact absurd hc2.2 hc1.2
    | exact absurd hc1 (float_not_true_of_false hc2)
    | exact absurd hc2 (float_not_true_of_false hc1)
    | exact (hgl _ hc1.1 hc2).elim
    | exact (hgl _ hc2.1 hc1).elim
    | exact (hband1 hc1 hc2.1 (Or.inl hs1.symm)).elim
    | exact (hband1 hc2 hc1.1 (Or.inl hs1.symm)).elim
    | exact (hband2 hc1 hc2.1 (Or.inr hs1.symm)).elim
    | exact (hband2 hc2 hc1.1 (Or.inr hs1.symm)).elim


/-- C17, as stated, fails.  The test engine in `PRESENT` (`k_on = 4`, `k_off = 2`)
with a reading of `160`, whose score is `3`, matches no row of the table: the
`PRESENT` rows need `z > k_on` or `z < k_off`.  The test engine in `DEBOUNCING_ON`
with a NaN reading, whose score is NaN, matches no row either, since `z >= k_on` and
`z < k_on` are both false, and yet the step moves the engine to `IDLE`. -/
theorem transition_table_float_counterexample :
    (SimplePresenceEngine_present.current_state_ = State.PRESENT ∧
      calculate_z_score (FloatValue.num 160) SimplePresenceEngine_present.mu_still_
        SimplePresenceEngine_present.sigma_still_ = FloatValue.num 3 ∧
      ¬ ∃ r : Row, Row.applies 32 SimplePresenceEngine_present
        (calculate_z_score (FloatValue.num 160) SimplePresenceEngine_present.mu_still_
          SimplePresenceEngine_present.sigma_still_) 40000 r) ∧
    (SimplePresenceEngine_debouncing_on.current_state_ = State.DEBOUNCING_ON ∧
      calculate_z_score FloatValue.nan SimplePresenceEngine_debouncing_on.mu_still_
        SimplePresenceEngine_debouncing_on.sigma_still_ = FloatValue.nan ∧
      (¬ ∃ r : Row, Row.applies 32 SimplePresenceEngine_debouncing_on
        (calculate_z_score FloatValue.nan SimplePresenceEngine_debouncing_on.mu_still_
          SimplePresenceEngine_debouncing_on.sigma_still_) 2000 r) ∧
      (process_energy_reading 32 SimplePresenceEngine_debouncing_on FloatValue.nan
        2000).current_state_ = State.IDLE) := by
  have hz : calculate_z_score (FloatValue.num 160) SimplePresenceEngine_present.mu_still_
      SimplePresenceEngine_present.sigma_still_ = FloatValue.num 3 := by
    rw [SimplePresenceEngine_present_float_eq]
    norm_num [calculate_z_score, SimplePresenceEngine, FloatValue.le, FloatValue.sub,
      FloatValue.add, FloatValue.neg, FloatValue.div, FloatValue.ofRat, FLT_MAX]
  have hn : calculate_z_score FloatValue.nan SimplePresenceEngine_debouncing_on.mu_still_
      SimplePresenceEngine_debouncing_on.sigma_still_ = FloatValue.nan := by
    rw [SimplePresenceEngine_debouncing_on_float_eq]
    norm_num [calculate_z_score, SimplePresenceEngine, FloatValue.le, FloatValue.sub,
      FloatValue.add, FloatValue.neg, FloatValue.div]
  refine ⟨⟨by rw [SimplePresenceEngine_present_float_eq], hz, ?_⟩,
    ⟨by rw [SimplePresenceEngine_debouncing_on_float_eq], hn, ?_, ?_⟩⟩
  · rw [hz, float_no_row_applies_iff, SimplePresenceEngine_present_float_eq]
    left
    refine ⟨rfl, ?_, ?_⟩ <;>
      norm_num [SimplePresenceEngine, BedPresenceEngine.init, FloatValue.gt, FloatValue.lt]
  · rw [hn, float_no_row_applies_iff, SimplePresenceEngine_debouncing_on_float_eq]
    right
    right
    exact ⟨rfl, rfl, rfl⟩
  · rw [SimplePresenceEngine_debouncing_on_float_eq]
    norm_num [process_energy_reading, calculate_z_score, SimplePresenceEngine,
      BedPresenceEngine.init, FloatValue.le, FloatValue.ge, FloatValue.sub,
      FloatValue.add, FloatValue.neg, FloatValue.div]

/-- C17, amended: `process_energy_reading` is a total function of the engine, the
reading and the time, with `z` the score of the reading and the comparisons those of
`float`.  Whenever exactly one row of the table applies, the step performs that
row's action.  No row applies exactly in `PRESENT` with neither `z > k_on` nor
`z < k_off`, in `DEBOUNCING_OFF` with neither `z < k_off` nor `z >= k_on`, and in
`DEBOUNCING_ON` with neither `z >= k_on` nor `z < k_on`, which happens exactly when
`z` or `k_on` is NaN; when `z`, `k_on` and `k_off` are not NaN these are `PRESENT`
with `k_off <= z <= k_on` and `DEBOUNCING_OFF` with `k_off <= z < k_on`.  Whenever
no row applies, the step leaves the engine unchanged in `PRESENT` and
`DEBOUNCING_OFF`, and moves it to `IDLE` in `DEBOUNCING_ON`.  At most one row
applies unless `k_on < k_off`, in particular whenever `k_off <= k_on`; in `IDLE`
exactly one row applies, and so in `DEBOUNCING_ON` when `z` and `k_on` are not
NaN. -/
theorem transition_table_float (w : Nat) (e : BedPresenceEngine) (energy : FloatValue)
    (now : Nat) (z : FloatValue)
    (hz : z = calculate_z_score energy e.mu_still_ e.sigma_still_) :
    (∀ r : Row, Row.applies w e z now r → (∀ r2 : Row, Row.applies w e z now r2 → r2 = r) →
      process_energy_reading w e energy now = Row.action e z now r) ∧
    ((¬ ∃ r : Row, Row.applies w e z now r) ↔
      (e.current_state_ = State.PRESENT ∧ FloatValue.gt z e.k_on_ = false ∧
        FloatValue.lt z e.k_off_ = false) ∨
      (e.current_state_ = State.DEBOUNCING_OFF ∧ FloatValue.lt z e.k_off_ = false ∧
        FloatValue.ge z e.k_on_ = false) ∨
      (e.current_state_ = State.DEBOUNCING_ON ∧ FloatValue.ge z e.k_on_ = false ∧
        FloatValue.lt z e.k_on_ = false)) ∧
    ((FloatValue.ge z e.k_on_ = false ∧ FloatValue.lt z e.k_on_ = false) ↔
      (z = FloatValue.nan ∨ e.k_on_ = FloatValue.nan)) ∧
    (z ≠ FloatValue.nan → e.k_on_ ≠ FloatValue.nan → e.k_off_ ≠ FloatValue.nan →
      ((¬ ∃ r : Row, Row.applies w e z now r) ↔
        (e.current_state_ = State.PRESENT ∧ FloatValue.le e.k_off_ z = true ∧
          FloatValue.le z e.k_on_ = true) ∨
        (e.current_state_ = State.DEBOUNCING_OFF ∧ FloatValue.le e.k_off_ z = true ∧
          FloatValue.lt z e.k_on_ = true))) ∧
    ((¬ ∃ r : Row, Row.applies w e z now r) →
      (e.current_state_ ≠ State.DEBOUNCING_ON → process_energy_reading w e energy now = e) ∧
      (e.current_state_ = State.DEBOUNCING_ON →
        process_energy_reading w e energy now = { e with current_state_ := State.IDLE })) ∧
    (FloatValue.le e.k_off_ e.k_on_ = true ∨ FloatValue.lt e.k_on_ e.k_off_ = false →
      ∀ r1 r2 : Row, Row.applies w e z now r1 → Row.applies w e z now r2 → r1 = r2) ∧
    (e.current_state_ = State.IDLE ∨
      (e.current_state_ = State.DEBOUNCING_ON ∧ z ≠ FloatValue.nan ∧
        e.k_on_ ≠ FloatValue.nan) →
      ∃! r : Row, Row.applies w e z now r) := by
  subst hz
  refine ⟨fun r hr hu => float_process_energy_reading_of_unique_row w e energy now r hr hu,
    float_no_row_applies_iff w e _ now, float_unordered_iff _ _, ?_,
    float_process_energy_reading_of_no_row w e energy now, ?_, ?_⟩
  · intro hzn hon hoff
    rw [float_no_row_applies_iff]
    unfold FloatValue.gt FloatValue.ge
    rw [float_lt_false_iff_le _ _ hon hzn, float_lt_false_iff_le _ _ hzn hoff,
      float_le_false_iff_lt _ _ hon hzn]
    constructor
    · rintro (⟨hst, h1, h2⟩ | ⟨hst, h1, h2⟩ | ⟨hst, h1, h2⟩)
      · exact Or.inl ⟨hst, h2, h1⟩
      · exact Or.inr ⟨hst, h1, h2⟩
      · exfalso
        have hnan := (float_unordered_iff _ _).mp ⟨(float_le_false_iff_lt _ _ hon hzn).mpr h1, h2⟩
        rcases hnan with h | h
        · exact hzn h
        · exact hon h
    · rintro (⟨hst, h1, h2⟩ | ⟨hst, h1, h2⟩)
      · exact Or.inl ⟨hst, h2, h1⟩
      · exact Or.inr (Or.inl ⟨hst, h1, h2⟩)
  · intro hk r1 r2
    apply float_row_applies_unique w e _ now (Or.inl ?_) r1 r2
    rcases hk with hk | hk
    · exact float_ge_imp_lt_false _ _ hk
    · exact hk
  · intro hst
    have hstate : e.current_state_ = State.IDLE ∨ e.current_state_ = State.DEBOUNCING_ON :=
      hst.elim Or.inl (fun h => Or.inr h.1)
    have hex : ∃ r : Row,
        Row.applies w e (calculate_z_score energy e.mu_still_ e.sigma_still_) now r := by
      by_contra hno
      rcases (float_no_row_applies_iff w e _ now).mp hno with
        ⟨h, _⟩ | ⟨h, _⟩ | ⟨h, h1, h2⟩
      · rcases hstate with h2 | h2 <;> rw [h] at h2 <;> exact State.noConfusion h2
      · rcases hstate with h2 | h2 <;> rw [h] at h2 <;> exact State.noConfusion h2
      · rcases hst with h3 | ⟨_, hzn, hon⟩
        · rw [h] at h3
          exact State.noConfusion h3
        · rcases (float_unordered_iff _ _).mp ⟨h1, h2⟩ with h4 | h4
          · exact hzn h4
          · exact hon h4
    obtain ⟨r, hr⟩ := hex
    exact ⟨r, hr, fun r2 hr2 =>
      float_row_applies_unique w e _ now (Or.inr hstate) r2 r hr2 hr⟩

theorem transition_table_float_witness :
    process_energy_reading 32 SimplePresenceEngine (FloatValue.num 160) 0 =
      SimplePresenceEngine ∧
    process_energy_reading 32 SimplePresenceEngine_debouncing_on FloatValue.nan 2000 =
      { SimplePresenceEngine_debouncing_on with current_state_ := State.IDLE } :=
  ⟨(transition_table_float 32 SimplePresenceEngine (FloatValue.num 160) 0 (FloatValue.num 3)
      (by norm_num [calculate_z_score, SimplePresenceEngine, BedPresenceEngine.init,
        FloatValue.le, FloatValue.sub, FloatValue.add, FloatValue.neg, FloatValue.div,
        FloatValue.ofRat, FLT_MAX])).1
      Row.idle_else
      ⟨rfl, by norm_num [Row.condition, SimplePresenceEngine, BedPresenceEngine.init,
        FloatValue.ge, FloatValue.le]⟩
      (fun r2 h2 => by
        obtain ⟨hs, hc⟩ := h2
        cases r2 <;> first
          | rfl
          | exact State.noConfusion hs
          | (exfalso
             norm_num [Row.condition, SimplePresenceEngine, BedPresenceEngine.init,
               FloatValue.ge, FloatValue.le] at hc)),
   ((transition_table_float 32 SimplePresenceEngine_debouncing_on FloatValue.nan 2000
      FloatValue.nan
      (by rw [SimplePresenceEngine_debouncing_on_float_eq]
          norm_num [calculate_z_score, SimplePresenceEngine, BedPresenceEngine.init,
            FloatValue.le, FloatValue.sub, FloatValue.add, FloatValue.neg,
            FloatValue.div])).2.2.2.2.1
      (by
        rw [float_no_row_applies_iff, SimplePresenceEngine_debouncing_on_float_eq]
        right
        right
        exact ⟨rfl, rfl, rfl⟩)).2
      (by rw [SimplePresenceEngine_debouncing_on_float_eq])⟩

end Ieee

end BedPresence
